import Mathlib

/-!
Bulk-order workflow of the casual-clothings server

A shallow embedding of `server/models/bulkOrder.model.js` and
`server/controllers/bulkOrder.controller.js`.

* The MongoDB collection of bulk orders is a list of documents. A query meets the
  documents in the order of the list; the database fixes no order between two queries,
  so the same collection may be any permutation of the list for the next query. A sort
  returns documents with equal sort keys in the order in which the query met them.
* Identifiers (`_id`, `req.userId`, product references) are strings that stand for
  ObjectIds; dates are milliseconds since the epoch. The route parameter `orderId` is
  any string: it casts to an ObjectId when it is 24 hexadecimal digits or names a stored
  document, and a query on any other string throws a `CastError`.
* Quantities and totals are values of the JavaScript type Number: the doubles of
  IEEE 754, each given by the rational number it denotes, the two infinities and NaN.
  An addition rounds its exact result to the nearest double, ties to even. The two zeros
  are not told apart: no operation of the program distinguishes them.
* A controller is a function from the request and the collection to the response it
  sends, the collection afterwards and the calls it made to its collaborators
  (catalog lookups, notification emails).
* `populate` only expands references inside the response; the responses here carry the
  order documents with their references unexpanded.
* The database, the catalog and the clock answer every call. A catch block is reached
  by the errors the embedding names: the validation error of `save()`, the cast error
  of an order id and the refusal of a negative skip.
* Mongoose applies the setters of a schema path (`trim`, `lowercase`) when a document is
  built and when an update operation writes the path.
-/

namespace BulkOrder

/-! ## JavaScript helpers -/

/-- Code points that ECMAScript counts as WhiteSpace or LineTerminator: the ones
`String.prototype.trim` removes and `parseInt` skips. -/
def isJsWhiteSpace (c : Char) : Bool :=
  [0x09, 0x0A, 0x0B, 0x0C, 0x0D, 0x20, 0xA0, 0x1680, 0x2000, 0x2001, 0x2002, 0x2003,
   0x2004, 0x2005, 0x2006, 0x2007, 0x2008, 0x2009, 0x200A, 0x2028, 0x2029, 0x202F,
   0x205F, 0x3000, 0xFEFF].contains c.toNat

/-- The `String.prototype.trim` of JavaScript, on the list of characters. -/
def trimChars (cs : List Char) : List Char :=
  ((cs.dropWhile isJsWhiteSpace).reverse.dropWhile isJsWhiteSpace).reverse

/-- The `String.prototype.trim` of JavaScript. -/
def jsTrim (s : String) : String :=
  String.mk (trimChars s.data)

/-- The `String.prototype.toLowerCase` of JavaScript on the ASCII letters; other
characters are kept (the Unicode case tables are not reproduced). -/
def toLowerCase (s : String) : String :=
  String.mk (s.data.map Char.toLower)

/-- Truthiness of a value that is a string or undefined: `!!v`. -/
def truthyStr : Option String → Bool
  | none => false
  | some s => s != ""

/-- A value of the JavaScript type Number: a finite value, given by the rational number
it denotes, one of the two infinities, or NaN. Every double is such a value. -/
inductive JsNumber where
  | finite (value : ℚ)
  | posInf
  | negInf
  | nan
  deriving DecidableEq, Repr

/-- A numeric literal such as `0` or `1`. -/
instance instOfNatJsNumber (n : Nat) : OfNat JsNumber n := ⟨JsNumber.finite n⟩

/-- The number of binary digits of `n` after the first, by halving at most `fuel` times. -/
def log2Fuel : Nat → Nat → Nat
  | 0, _ => 0
  | fuel + 1, n => if n < 2 then 0 else log2Fuel fuel (n / 2) + 1

/-- The integer part of the binary logarithm of `n`, for `n ≥ 1`. -/
def log2 (n : Nat) : Nat := log2Fuel n n

/-- The integer part of the binary logarithm of the fraction `n / d`, for `n, d ≥ 1`:
the exponent of the fraction as a binary floating-point number. -/
def floorLog2 (n d : Nat) : Int :=
  if log2 d ≤ log2 n then
    if d * 2 ^ (log2 n - log2 d) ≤ n then ((log2 n - log2 d : Nat) : Int)
    else ((log2 n - log2 d : Nat) : Int) - 1
  else
    if d ≤ n * 2 ^ (log2 d - log2 n) then -((log2 d - log2 n : Nat) : Int)
    else -((log2 d - log2 n : Nat) : Int) - 1

/-- The integer nearest to `n / d`, the even one of the two when `n / d` is halfway. -/
def roundHalfEven (n d : Nat) : Nat :=
  if 2 * (n % d) < d then n / d
  else if d < 2 * (n % d) then n / d + 1
  else if (n / d) % 2 = 0 then n / d else n / d + 1

/-- The double nearest to the positive fraction `n / d`, ties to even: a multiple of
`2 ^ (e - 52)`, where `e` is the exponent of the fraction and at least `-1022` (below
that the doubles are subnormal). `none` stands for an overflow, a result of `2 ^ 1024`
or more. -/
def roundMagnitude (n d : Nat) : Option ℚ :=
  let e := max (floorLog2 n d) (-1022)
  let k := e - 52
  if 0 ≤ k then
    let m := roundHalfEven n (d * 2 ^ k.toNat)
    if 1024 ≤ e ∨ (e = 1023 ∧ m = 2 ^ 53) then none else some ((m * 2 ^ k.toNat : Nat) : ℚ)
  else
    some (mkRat (roundHalfEven (n * 2 ^ (-k).toNat) d) (2 ^ (-k).toNat))

/-- The Number that an arithmetic operation returns for the exact result `num / den`:
the nearest double, or an infinity on overflow. -/
def roundFraction (num : Int) (den : Nat) : JsNumber :=
  if num = 0 then JsNumber.finite 0
  else
    match roundMagnitude num.natAbs den with
    | none => if 0 < num then JsNumber.posInf else JsNumber.negInf
    | some v => JsNumber.finite (if 0 < num then v else mkRat (-v.num) v.den)

/-- The operator `+` on two Numbers. -/
def jsAdd : JsNumber → JsNumber → JsNumber
  | JsNumber.finite a, JsNumber.finite b =>
    roundFraction (a.num * b.den + b.num * a.den) (a.den * b.den)
  | JsNumber.nan, _ => JsNumber.nan
  | _, JsNumber.nan => JsNumber.nan
  | JsNumber.posInf, JsNumber.negInf => JsNumber.nan
  | JsNumber.negInf, JsNumber.posInf => JsNumber.nan
  | JsNumber.posInf, _ => JsNumber.posInf
  | _, JsNumber.posInf => JsNumber.posInf
  | JsNumber.negInf, _ => JsNumber.negInf
  | _, JsNumber.negInf => JsNumber.negInf

/-- The operator `<` on two Numbers: false as soon as one of them is NaN. -/
def jsLess : JsNumber → JsNumber → Bool
  | JsNumber.nan, _ => false
  | _, JsNumber.nan => false
  | JsNumber.finite a, JsNumber.finite b => decide (a < b)
  | JsNumber.finite _, JsNumber.posInf => true
  | JsNumber.finite _, JsNumber.negInf => false
  | JsNumber.posInf, _ => false
  | JsNumber.negInf, JsNumber.negInf => false
  | JsNumber.negInf, _ => true

/-- The operator `<=` on two Numbers (`b >= a`): false as soon as one of them is NaN. -/
def jsLessEq (a b : JsNumber) : Bool :=
  a != JsNumber.nan && b != JsNumber.nan && !jsLess b a

/-- The comparison `a < b` of JavaScript. -/
instance instLTJsNumber : LT JsNumber := ⟨fun a b => jsLess a b = true⟩

/-- The comparison `a <= b` of JavaScript. -/
instance instLEJsNumber : LE JsNumber := ⟨fun a b => jsLessEq a b = true⟩

instance instDecidableLtJsNumber (a b : JsNumber) : Decidable (a < b) :=
  inferInstanceAs (Decidable (jsLess a b = true))

instance instDecidableLeJsNumber (a b : JsNumber) : Decidable (a ≤ b) :=
  inferInstanceAs (Decidable (jsLessEq a b = true))

/-- Truthiness of a value that is a number or undefined: `!!v`, false for `0` and for
NaN. -/
def truthyNum : Option JsNumber → Bool
  | none => false
  | some n => n != 0 && n != JsNumber.nan

/-- The exact sum of rational numbers, as a numerator and a positive denominator. -/
def exactSum : List ℚ → Int × Nat
  | [] => (0, 1)
  | q :: rest =>
    (q.num * ((exactSum rest).2 : Int) + (exactSum rest).1 * (q.den : Int),
      q.den * (exactSum rest).2)

/-- The rational number that a finite Number denotes. -/
def finiteValue : JsNumber → Option ℚ
  | JsNumber.finite v => some v
  | _ => none

/-- The accumulator `$sum` of the aggregation pipeline over Numbers. The database
server adds in extended precision and returns one double; the embedding takes the exact
sum of the finite values, rounded once. NaN, or both infinities, give NaN; one infinity
gives that infinity. -/
def sumNumbers (values : List JsNumber) : JsNumber :=
  if values.contains JsNumber.nan ||
      (values.contains JsNumber.posInf && values.contains JsNumber.negInf) then JsNumber.nan
  else if values.contains JsNumber.posInf then JsNumber.posInf
  else if values.contains JsNumber.negInf then JsNumber.negInf
  else roundFraction (exactSum (values.filterMap finiteValue)).1
    (exactSum (values.filterMap finiteValue)).2

/-- The expression `n || d` on a Number or undefined: `d` replaces undefined, `0` and
NaN. -/
def orDefaultNumber (n : Option JsNumber) (d : JsNumber) : JsNumber :=
  if truthyNum n then n.getD d else d

/-! ## Data model (`bulkOrder.model.js`) -/

abbrev UserId := String
abbrev ProductId := String
abbrev OrderId := String

/-- One element of `products` in the schema. -/
structure LineItem where
  product : ProductId
  quantity : JsNumber
  size : Option String
  deriving DecidableEq, Repr

/-- A document of the `bulkOrder` collection (`bulkOrderSchema`, with the `createdAt`
and `updatedAt` of `timestamps: true`). -/
structure BulkOrderDoc where
  id : OrderId
  user : UserId
  name : String
  phone : String
  email : String
  buyerType : String
  products : List LineItem
  address : String
  status : String
  adminNotes : String
  rejectionReason : String
  totalQuantity : JsNumber
  approvedBy : Option UserId
  approvedAt : Option Nat
  submittedAt : Nat
  createdAt : Nat
  updatedAt : Nat
  deriving DecidableEq, Repr

/-- The collection of bulk orders, in insertion order. -/
abbrev Store := List BulkOrderDoc

/-- The `enum` of `buyerType`. -/
def buyerTypes : List String := ["Shop", "Solo", "Wholesale"]

/-- The `enum` of `status`, also the list both controllers test with `includes`. -/
def statuses : List String := ["Requested", "Approved", "Rejected"]

/-- The query `findById`: the first document with the id; `none` stands for `null`. -/
def findById (id : OrderId) (store : Store) : Option BulkOrderDoc :=
  store.find? (fun doc => doc.id == id)

/-- A hexadecimal digit. -/
def isHexDigit (c : Char) : Bool :=
  ('0'.toNat ≤ c.toNat && c.toNat ≤ '9'.toNat) ||
  ('a'.toNat ≤ c.toNat && c.toNat ≤ 'f'.toNat) ||
  ('A'.toNat ≤ c.toNat && c.toNat ≤ 'F'.toNat)

/-- The strings that the driver turns into an ObjectId: 24 hexadecimal digits. -/
def isObjectIdString (id : String) : Bool :=
  id.data.length == 24 && id.data.all isHexDigit

/-- Casting of the route parameter `orderId` to the type of `_id`, which Mongoose does
before it sends a query: a string of 24 hexadecimal digits casts. The `_id` of a stored
document is an ObjectId whatever its spelling in the embedding, so a string that names
a stored document casts as well. For any other string the query throws a `CastError`. -/
def castsToObjectId (store : Store) (id : OrderId) : Bool :=
  isObjectIdString id || store.any (fun doc => doc.id == id)

/-- The double quote character, as a string. -/
def quote : String := String.mk [Char.ofNat 34]

/-- The message of the `CastError` for the `_id` of a query on the model `bulkOrder`;
the catch block of a controller sends it with status 500. -/
def castErrorMessage (id : OrderId) : String :=
  "Cast to ObjectId failed for value " ++ quote ++ id ++ quote ++ " (type string) at path " ++
    quote ++ "_id" ++ quote ++ " for model " ++ quote ++ "bulkOrder" ++ quote

/-- The pre-save middleware: `totalQuantity` is recomputed from the line items when
there is at least one, by `reduce((total, item) => total + item.quantity, 0)`. -/
def preSave (doc : BulkOrderDoc) : BulkOrderDoc :=
  if doc.products.length > 0 then
    { doc with
      totalQuantity := doc.products.foldl (fun total item => jsAdd total item.quantity) 0 }
  else doc

/-- The schema validators that `save()` runs before the pre-save middleware:
`required` on the strings (an empty string is not accepted), the two `enum`s and
`min: 1` on every quantity. -/
def validateDoc (doc : BulkOrderDoc) : Bool :=
  doc.name != "" && doc.phone != "" && doc.email != "" && doc.address != "" &&
  buyerTypes.contains doc.buyerType && statuses.contains doc.status &&
  doc.products.all (fun item => decide (1 ≤ item.quantity))

/-! ## Requests and responses -/

/-- One element of `req.body.products` as the caller sends it. -/
structure LineItemInput where
  product : Option ProductId
  quantity : Option JsNumber
  size : Option String
  deriving DecidableEq, Repr

/-- The value of `req.body.products`: absent, a value that is not an array (with its
truthiness), or an array of items. -/
inductive ProductsField where
  | absent
  | nonArray (truthy : Bool)
  | array (items : List LineItemInput)
  deriving DecidableEq, Repr

/-- The body of `POST /create`. The first six fields are the ones `createBulkOrder`
destructures; the others are fields of the schema that a caller may send as well. -/
structure CreateBody where
  name : Option String
  phone : Option String
  email : Option String
  buyerType : Option String
  products : ProductsField
  address : Option String
  status : Option String
  adminNotes : Option String
  rejectionReason : Option String
  totalQuantity : Option JsNumber
  approvedBy : Option UserId
  approvedAt : Option Nat
  deriving DecidableEq, Repr

/-- The object `counts` of the dashboard: its keys with their values, in the order
the keys were added. -/
abbrev StatusCounts := List (String × Nat)

/-- The `pagination` object of a listing. -/
structure Pagination where
  page : Int
  limit : Int
  total : Nat
  pages : Int
  deriving DecidableEq, Repr

/-- The `data` of the analytics response. -/
structure AnalyticsData where
  statusCounts : StatusCounts
  recentOrders : Nat
  totalQuantity : JsNumber
  buyerTypes : List (String × Nat)
  totalOrders : Nat
  deriving DecidableEq, Repr

/-- The `data` of a response. -/
inductive Payload where
  | none
  | order (doc : BulkOrderDoc)
  | listing (orders : List BulkOrderDoc) (statusCounts : Option StatusCounts)
      (pagination : Pagination)
  | analytics (figures : AnalyticsData)
  deriving DecidableEq, Repr

/-- What a controller sends: `res.status(status).json(...)`. -/
structure Response where
  status : Nat
  message : String
  data : Payload
  error : Bool
  success : Bool
  deriving DecidableEq, Repr

/-- A failure response: `error: true, success: false`, no data. -/
def failure (status : Nat) (message : String) : Response :=
  { status := status, message := message, data := Payload.none, error := true, success := false }

/-- The clock and the id generator at the time of a request. -/
structure Env where
  now : Nat
  freshId : OrderId

/-! ## `createBulkOrder` -/

/-- The test `!item.product || !item.quantity || item.quantity < 1` of the loop. -/
def itemInvalid (item : LineItemInput) : Bool :=
  !truthyStr item.product || !truthyNum item.quantity ||
    (match item.quantity with
     | some q => decide (q < 1)
     | none => false)

/-- `Product.findById` against the catalog, given by the ids of its products. The
reference is taken as the text of an ObjectId, like the ids of the catalog. -/
def findProductById (catalog : List ProductId) (ref : ProductId) : Bool :=
  catalog.contains ref

/-- The loop over `products`: the first failing item ends the request with status 400;
the second component lists the catalog lookups made, in order. -/
def validateItems (catalog : List ProductId) :
    List LineItemInput → Option Response × List ProductId
  | [] => (none, [])
  | item :: rest =>
    if itemInvalid item then
      (some (failure 400 "Each product must have valid product ID and quantity"), [])
    else
      let ref := item.product.getD ""
      if !findProductById catalog ref then
        (some (failure 400 ("Product with ID " ++ ref ++ " not found")), [ref])
      else
        let r := validateItems catalog rest
        (r.1, ref :: r.2)

/-- Casting of one submitted item to the sub-document of the schema. -/
def castItem (item : LineItemInput) : Option LineItem :=
  match item.product, item.quantity with
  | some p, some q => some { product := p, quantity := q, size := item.size }
  | _, _ => none

/-- Casting of the submitted array; `none` when an item lacks a required path. -/
def castItems : List LineItemInput → Option (List LineItem)
  | [] => some []
  | item :: rest =>
    match castItem item, castItems rest with
    | some cast, some others => some (cast :: others)
    | _, _ => none

/-- The document `new BulkOrder(...)` builds from the destructured fields: the
setters of the schema (`trim`, `lowercase`) applied, the defaults filled in. -/
def newBulkOrder (env : Env) (userId : UserId) (name phone email buyerType address : String)
    (products : List LineItem) : BulkOrderDoc :=
  { id := env.freshId
    user := userId
    name := jsTrim name
    phone := jsTrim phone
    email := toLowerCase (jsTrim email)
    buyerType := buyerType
    products := products
    address := jsTrim address
    status := "Requested"
    adminNotes := ""
    rejectionReason := ""
    totalQuantity := 0
    approvedBy := none
    approvedAt := none
    submittedAt := env.now
    createdAt := env.now
    updatedAt := env.now }

/-- What `createBulkOrder` does: its response, the collection afterwards and the
catalog lookups it made. -/
structure CreateResult where
  response : Response
  store : Store
  lookups : List ProductId
  deriving DecidableEq, Repr

/-- The message of the validation error that `save()` throws; the catch block sends
it with status 500. -/
def validationFailed : String := "bulkOrder validation failed"

/-- The controller `createBulkOrder`. -/
def createBulkOrder (env : Env) (catalog : List ProductId) (store : Store)
    (userId : UserId) (body : CreateBody) : CreateResult :=
  let productsTruthy : Bool :=
    match body.products with
    | ProductsField.absent => false
    | ProductsField.nonArray t => t
    | ProductsField.array _ => true
  if !truthyStr body.name || !truthyStr body.phone || !truthyStr body.email ||
      !truthyStr body.buyerType || !productsTruthy || !truthyStr body.address then
    { response := failure 400 "All fields are required", store := store, lookups := [] }
  else
    match body.products with
    | ProductsField.array (first :: others) =>
      let items := first :: others
      match validateItems catalog items with
      | (some bad, looked) => { response := bad, store := store, lookups := looked }
      | (none, looked) =>
        match castItems items with
        | none => { response := failure 500 validationFailed, store := store, lookups := looked }
        | some products =>
          let bulkOrder := newBulkOrder env userId (body.name.getD "") (body.phone.getD "")
            (body.email.getD "") (body.buyerType.getD "") (body.address.getD "") products
          if validateDoc bulkOrder then
            let savedOrder := preSave bulkOrder
            { response :=
                { status := 201
                  message := "Bulk order request submitted successfully. Our team will contact you soon."
                  data := Payload.order savedOrder
                  error := false
                  success := true }
              store := store ++ [savedOrder]
              lookups := looked }
          else
            { response := failure 500 validationFailed, store := store, lookups := looked }
    | _ =>
      { response := failure 400 "At least one product must be selected", store := store,
        lookups := [] }

/-! ## `updateBulkOrderStatus` -/

/-- The body of `PUT /admin/update-status/:orderId`. -/
structure UpdateBody where
  status : Option String
  adminNotes : Option String
  rejectionReason : Option String
  deriving DecidableEq, Repr

/-- The object `updateData`; a field that the controller did not add is `none`. -/
structure UpdateData where
  status : String
  adminNotes : Option String
  rejectionReason : Option String
  approvedBy : Option UserId
  approvedAt : Option Nat
  deriving DecidableEq, Repr

/-- The construction of `updateData` from the validated status and the body. -/
def buildUpdateData (env : Env) (adminId : UserId) (status : String) (body : UpdateBody) :
    UpdateData :=
  { status := status
    adminNotes := if truthyStr body.adminNotes then body.adminNotes else none
    rejectionReason :=
      if status == "Rejected" && truthyStr body.rejectionReason then body.rejectionReason
      else none
    approvedBy := if status == "Approved" then some adminId else none
    approvedAt := if status == "Approved" then some env.now else none }

/-- The write of `findByIdAndUpdate` on the document found: every field present in
`updateData` is set, through the setter of its schema path (`trim` on `adminNotes`
and `rejectionReason`), and `timestamps` sets `updatedAt`. -/
def applyUpdate (env : Env) (u : UpdateData) (doc : BulkOrderDoc) : BulkOrderDoc :=
  { doc with
    status := u.status
    adminNotes := (u.adminNotes.map jsTrim).getD doc.adminNotes
    rejectionReason := (u.rejectionReason.map jsTrim).getD doc.rejectionReason
    approvedBy := match u.approvedBy with
      | some a => some a
      | none => doc.approvedBy
    approvedAt := match u.approvedAt with
      | some t => some t
      | none => doc.approvedAt
    updatedAt := env.now }

/-- The operation `findByIdAndUpdate(id, update, { new: true })`: the first document
with the id is replaced by its update, which is returned; `none` stands for `null`. -/
def findByIdAndUpdate (id : OrderId) (f : BulkOrderDoc → BulkOrderDoc) :
    Store → Option BulkOrderDoc × Store
  | [] => (none, [])
  | doc :: rest =>
    if doc.id == id then (some (f doc), f doc :: rest)
    else
      let r := findByIdAndUpdate id f rest
      (r.1, doc :: r.2)

/-- The argument of `sendEmail`. -/
structure Email where
  sendTo : String
  subject : String
  html : String
  deriving DecidableEq, Repr

/-- A run of spaces: the indentation inside the template literals. -/
def spaces (n : Nat) : String :=
  String.mk (List.replicate n ' ')

/-- The notification that `updateBulkOrderStatus` composes for the updated order. -/
def composeEmail (status : String) (body : UpdateBody) (bulkOrder : BulkOrderDoc) : Email :=
  let head :=
    "\n" ++ spaces 16 ++ "<h2>Bulk Order Update</h2>\n" ++
    spaces 16 ++ "<p>Hello " ++ bulkOrder.name ++ ",</p>\n" ++
    spaces 16 ++ "<p>Your bulk order request has been <strong>" ++ toLowerCase status ++
      "</strong>.</p>\n" ++
    spaces 16 ++ "<p><strong>Order ID:</strong> " ++ bulkOrder.id ++ "</p>\n" ++
    spaces 16 ++ "<p><strong>Status:</strong> " ++ status ++ "</p>\n" ++ spaces 12
  let middle :=
    if status == "Approved" then
      "\n" ++ spaces 20 ++
      "<p>Great news! Your bulk order has been approved. Our team will contact you soon to discuss the details and next steps.</p>\n" ++
      spaces 20 ++
      (if truthyStr body.adminNotes then
        "<p><strong>Notes:</strong> " ++ body.adminNotes.getD "" ++ "</p>"
       else "") ++
      "\n" ++ spaces 16
    else if status == "Rejected" then
      "\n" ++ spaces 20 ++
      "<p>We regret to inform you that your bulk order request has been declined.</p>\n" ++
      spaces 20 ++
      (if truthyStr body.rejectionReason then
        "<p><strong>Reason:</strong> " ++ body.rejectionReason.getD "" ++ "</p>"
       else "") ++
      "\n" ++ spaces 16
    else ""
  let tail :=
    "\n" ++ spaces 16 ++ "<p>Thank you for your interest in our products.</p>\n" ++
    spaces 16 ++ "<p>Best regards,<br>Casual Clothings Team</p>\n" ++ spaces 12
  { sendTo := bulkOrder.email
    subject := "Bulk Order " ++ status ++ " - " ++ bulkOrder.id
    html := head ++ middle ++ tail }

/-- What `updateBulkOrderStatus` does: its response, the collection afterwards, the
emails it tried to send and what it wrote with `console.error`. -/
structure UpdateResult where
  response : Response
  store : Store
  emails : List Email
  logged : List String
  deriving DecidableEq, Repr

/-- The controller `updateBulkOrderStatus`. The mail transport `sendEmail` answers
each message with `Except.ok` when the send resolves and with `Except.error` when it
throws. An `orderId` that does not cast makes `findByIdAndUpdate` throw, and the outer
catch block answers with status 500. -/
def updateBulkOrderStatus (env : Env) (sendEmail : Email → Except String Unit)
    (store : Store) (adminId : UserId) (orderId : OrderId) (body : UpdateBody) :
    UpdateResult :=
  let status := body.status.getD ""
  if !(body.status.isSome && statuses.contains status) then
    { response := failure 400 "Invalid status. Must be 'Requested', 'Approved', or 'Rejected'"
      store := store, emails := [], logged := [] }
  else if !castsToObjectId store orderId then
    { response := failure 500 (castErrorMessage orderId), store := store, emails := [],
      logged := [] }
  else
    let updateData := buildUpdateData env adminId status body
    match findByIdAndUpdate orderId (applyUpdate env updateData) store with
    | (none, _) =>
      { response := failure 404 "Bulk order not found", store := store, emails := [],
        logged := [] }
    | (some bulkOrder, updated) =>
      let email := composeEmail status body bulkOrder
      let logged :=
        match sendEmail email with
        | Except.ok _ => []
        | Except.error emailError => ["Error sending notification email: " ++ emailError]
      { response :=
          { status := 200
            message := "Bulk order " ++ toLowerCase status ++ " successfully"
            data := Payload.order bulkOrder
            error := false
            success := true }
        store := updated
        emails := [email]
        logged := logged }

/-! ## `deleteBulkOrder` -/

/-- The operation `findByIdAndDelete`: the first document with the id is removed and
returned; `none` stands for `null`. -/
def findByIdAndDelete (id : OrderId) : Store → Option BulkOrderDoc × Store
  | [] => (none, [])
  | doc :: rest =>
    if doc.id == id then (some doc, rest)
    else
      let r := findByIdAndDelete id rest
      (r.1, doc :: r.2)

/-- The controller `deleteBulkOrder`: its response and the collection afterwards. An
`orderId` that does not cast makes `findByIdAndDelete` throw, and the catch block
answers with status 500. -/
def deleteBulkOrder (store : Store) (orderId : OrderId) : Response × Store :=
  if !castsToObjectId store orderId then (failure 500 (castErrorMessage orderId), store)
  else
    match findByIdAndDelete orderId store with
    | (none, _) => (failure 404 "Bulk order not found", store)
    | (some _, remaining) =>
      ({ status := 200, message := "Bulk order deleted successfully", data := Payload.none,
         error := false, success := true }, remaining)

/-! ## `getUserBulkOrders` and `getAllBulkOrders` -/

/-- The value of a character as a digit, for radix up to 36. -/
def digitValue (c : Char) : Option Nat :=
  if '0'.toNat ≤ c.toNat ∧ c.toNat ≤ '9'.toNat then some (c.toNat - '0'.toNat)
  else if 'a'.toNat ≤ c.toNat ∧ c.toNat ≤ 'z'.toNat then some (c.toNat - 'a'.toNat + 10)
  else if 'A'.toNat ≤ c.toNat ∧ c.toNat ≤ 'Z'.toNat then some (c.toNat - 'A'.toNat + 10)
  else none

/-- The value of the longest prefix of digits of the radix; `acc` is the value read so
far, `none` while no digit was read. -/
def readDigits (radix : Nat) : List Char → Option Nat → Option Nat
  | [], acc => acc
  | c :: cs, acc =>
    match digitValue c with
    | some d => if d < radix then readDigits radix cs (some (acc.getD 0 * radix + d)) else acc
    | none => acc

/-- The `parseInt` of JavaScript with no radix argument, on the characters left after
the leading white space; `none` stands for `NaN`. -/
def parseIntChars (cs : List Char) : Option Int :=
  let negative := cs.head? == some '-'
  let unsigned := if cs.head? == some '-' || cs.head? == some '+' then cs.tail else cs
  let magnitude :=
    match unsigned with
    | '0' :: 'x' :: hex => readDigits 16 hex none
    | '0' :: 'X' :: hex => readDigits 16 hex none
    | _ => readDigits 10 unsigned none
  magnitude.map (fun n => if negative then -(n : Int) else (n : Int))

/-- The call `parseInt(v)` on a query parameter, a string or undefined. -/
def parseInt : Option String → Option Int
  | none => none
  | some s => parseIntChars (s.data.dropWhile isJsWhiteSpace)

/-- The expression `n || d` on a number: `d` replaces `NaN` and `0`. -/
def orDefault (n : Option Int) (d : Int) : Int :=
  match n with
  | some v => if v = 0 then d else v
  | none => d

/-- The expression `Math.ceil(total / limit)` for a divisor other than zero. -/
def ceilDiv (total limit : Int) : Int :=
  -(Int.fdiv (-total) limit)

/-- The query string of the two listings. -/
structure ListQuery where
  page : Option String
  limit : Option String
  status : Option String
  deriving DecidableEq, Repr

/-- The order of `sort({ submittedAt: -1 })`: newest submission first, the documents
with the same `submittedAt` in the order in which the query met them. -/
def sortNewestFirst (orders : List BulkOrderDoc) : List BulkOrderDoc :=
  orders.insertionSort (fun a b => b.submittedAt ≤ a.submittedAt)

/-- The cursor `find(filter).sort({ submittedAt: -1 }).skip(skip).limit(limit)` on the
documents that match the filter. The database refuses a negative skip (`none`, the
query throws); a negative limit counts as its absolute value. -/
def findPage (matching : List BulkOrderDoc) (skip limit : Int) : Option (List BulkOrderDoc) :=
  if skip < 0 then none
  else some (((sortNewestFirst matching).drop skip.toNat).take limit.natAbs)

/-- The message of the error the database throws for a negative skip. -/
def skipRefused : String := "Skip value must be non-negative"

/-- The documents that match the filter `{ user: userId }`. -/
def ordersOfUser (store : Store) (userId : UserId) : List BulkOrderDoc :=
  store.filter (fun doc => doc.user == userId)

/-- The controller `getUserBulkOrders`. -/
def getUserBulkOrders (store : Store) (userId : UserId) (query : ListQuery) : Response :=
  let page := orDefault (parseInt query.page) 1
  let limit := orDefault (parseInt query.limit) 10
  let skip := (page - 1) * limit
  let matching := ordersOfUser store userId
  match findPage matching skip limit with
  | none => failure 500 skipRefused
  | some bulkOrders =>
    let total := matching.length
    { status := 200
      message := "Bulk orders retrieved successfully"
      data := Payload.listing bulkOrders none
        { page := page, limit := limit, total := total, pages := ceilDiv total limit }
      error := false
      success := true }

/-- Assignment `counts[key] = value` on the object of counts. -/
def setCount (key : String) (value : Nat) : StatusCounts → StatusCounts
  | [] => [(key, value)]
  | (k, v) :: rest =>
    if k == key then (k, value) :: rest else (k, v) :: setCount key value rest

/-- The aggregation that groups the orders by status and counts each group. -/
def groupByStatus (store : Store) : List (String × Nat) :=
  let keys := store.map (fun doc => doc.status)
  keys.dedup.map (fun k => (k, keys.count k))

/-- The object `counts`: the three statuses at zero, then every group written in. -/
def statusCountsOf (store : Store) : StatusCounts :=
  (groupByStatus store).foldl (fun counts item => setCount item.1 item.2 counts)
    [("Requested", 0), ("Approved", 0), ("Rejected", 0)]

/-- The documents that match the filter `getAllBulkOrders` builds: the orders of the
status asked for when it is one of the three, every order otherwise. -/
def ordersMatching (store : Store) (status : Option String) : List BulkOrderDoc :=
  if truthyStr status && statuses.contains (status.getD "") then
    store.filter (fun doc => doc.status == status.getD "")
  else store

/-- The controller `getAllBulkOrders`. -/
def getAllBulkOrders (store : Store) (query : ListQuery) : Response :=
  let page := orDefault (parseInt query.page) 1
  let limit := orDefault (parseInt query.limit) 10
  let skip := (page - 1) * limit
  let matching := ordersMatching store query.status
  match findPage matching skip limit with
  | none => failure 500 skipRefused
  | some bulkOrders =>
    let total := matching.length
    { status := 200
      message := "Bulk orders retrieved successfully"
      data := Payload.listing bulkOrders (some (statusCountsOf store))
        { page := page, limit := limit, total := total, pages := ceilDiv total limit }
      error := false
      success := true }

/-! ## `getBulkOrderDetails` -/

/-- The query `findOne({ _id: orderId, user: userId })`: the first document with the
id and the requester; `none` stands for `null`. -/
def findOwned (orderId : OrderId) (userId : UserId) (store : Store) : Option BulkOrderDoc :=
  store.find? (fun doc => doc.id == orderId && doc.user == userId)

/-- The controller `getBulkOrderDetails`. An `orderId` that does not cast makes
`findOne` throw, and the catch block answers with status 500. -/
def getBulkOrderDetails (store : Store) (userId : UserId) (orderId : OrderId) : Response :=
  if !castsToObjectId store orderId then failure 500 (castErrorMessage orderId)
  else
    match findOwned orderId userId store with
    | none => failure 404 "Bulk order not found"
    | some bulkOrder =>
      { status := 200
        message := "Bulk order details retrieved successfully"
        data := Payload.order bulkOrder
        error := false
        success := true }

/-! ## `getBulkOrderAnalytics` -/

/-- Thirty days in milliseconds: `30 * 24 * 60 * 60 * 1000`. -/
def thirtyDays : Int := 30 * 24 * 60 * 60 * 1000

/-- The aggregation that groups the orders by buyer type and counts each group. -/
def groupByBuyerType (store : Store) : List (String × Nat) :=
  let keys := store.map (fun doc => doc.buyerType)
  keys.dedup.map (fun k => (k, keys.count k))

/-- The aggregation that sums `totalQuantity` in one group: a list with the result of
the accumulator `$sum`, empty when the collection is empty. -/
def sumTotalQuantity (store : Store) : List JsNumber :=
  if store.isEmpty then [] else [sumNumbers (store.map (fun doc => doc.totalQuantity))]

/-- The controller `getBulkOrderAnalytics`. -/
def getBulkOrderAnalytics (env : Env) (store : Store) : Response :=
  let thirtyDaysAgo : Int := (env.now : Int) - thirtyDays
  let counts := statusCountsOf store
  let recentOrders :=
    (store.filter (fun doc => decide (thirtyDaysAgo ≤ (doc.submittedAt : Int)))).length
  { status := 200
    message := "Analytics retrieved successfully"
    data := Payload.analytics
      { statusCounts := counts
        recentOrders := recentOrders
        totalQuantity := orDefaultNumber (sumTotalQuantity store).head? 0
        buyerTypes := groupByBuyerType store
        totalOrders := (counts.map (fun entry => entry.2)).foldl (fun a b => a + b) 0 }
    error := false
    success := true }

/-! ## Reachable states -/

/-- The states of the collection that the three mutating controllers produce from the
empty collection. The id generator gives a new order an id that no stored order has. -/
inductive Reachable : Store → Prop where
  | empty : Reachable []
  | create (env : Env) (catalog : List ProductId) (store : Store) (userId : UserId)
      (body : CreateBody) (hfresh : findById env.freshId store = none) :
      Reachable store → Reachable (createBulkOrder env catalog store userId body).store
  | update (env : Env) (sendEmail : Email → Except String Unit) (store : Store)
      (adminId : UserId) (orderId : OrderId) (body : UpdateBody) :
      Reachable store →
      Reachable (updateBulkOrderStatus env sendEmail store adminId orderId body).store
  | delete (store : Store) (orderId : OrderId) :
      Reachable store → Reachable (deleteBulkOrder store orderId).2

/-! ## Pages of a listing -/

/-- The `orders` of the response of a listing; empty for a response without a listing. -/
def listedOrders (response : Response) : List BulkOrderDoc :=
  match response.data with
  | Payload.listing orders _ _ => orders
  | _ => []

/-! ## Sample data -/

/-- A clock reading and a fresh id. -/
def sampleEnv : Env :=
  { now := 1700000000000, freshId := "665f1c2ab3d4e5f601234567" }

/-- A catalog of two products. -/
def sampleCatalog : List ProductId := ["p1", "p2"]

/-- A submission of two line items whose body also carries `status`, `totalQuantity`,
`approvedBy` and `approvedAt`. -/
def sampleBody : CreateBody :=
  { name := some " Ann ", phone := some "555-0100", email := some "Ann@Shop.example"
    buyerType := some "Shop"
    products := ProductsField.array
      [{ product := some "p1", quantity := some 2, size := none },
       { product := some "p2", quantity := some 3, size := some "M" }]
    address := some "1 Main Street", status := some "Approved", adminNotes := none
    rejectionReason := none, totalQuantity := some 99, approvedBy := some "u9"
    approvedAt := some 5 }

/-- The submission `sampleBody` with other line items. -/
def sampleBodyWith (items : List LineItemInput) : CreateBody :=
  { sampleBody with products := ProductsField.array items }

/-- A stored order: the `n`-th of a requester, submitted at time `1000 + n`. -/
def sampleOrder (user : UserId) (n : Nat) : BulkOrderDoc :=
  { id := String.mk (user.data ++ [Char.ofNat (97 + n)]), user := user, name := "Ann"
    phone := "555-0100", email := "ann@shop.example", buyerType := "Shop"
    products := [{ product := "p1", quantity := 2, size := none }], address := "1 Main Street"
    status := "Requested", adminNotes := "", rejectionReason := "", totalQuantity := 2
    approvedBy := none, approvedAt := none, submittedAt := 1000 + n, createdAt := 1000 + n
    updatedAt := 1000 + n }

/-- A mail transport that delivers every message. -/
def mailDelivers : Email → Except String Unit :=
  fun _ => Except.ok ()

/-- A mail transport that throws on every message. -/
def mailThrows : Email → Except String Unit :=
  fun _ => Except.error "connection refused"

/-- An update request that rejects an order with a reason padded with spaces. -/
def sampleRejection : UpdateBody :=
  { status := some "Rejected", adminNotes := none, rejectionReason := some " out of stock " }

/-- An update request that approves an order. -/
def sampleApproval : UpdateBody :=
  { status := some "Approved", adminNotes := some "call the buyer", rejectionReason := none }

/-- Fifteen orders of the requester `u1` and two of `u2`. -/
def fifteenOrders : Store :=
  (List.range 15).map (sampleOrder "u1") ++ [sampleOrder "u2" 0, sampleOrder "u2" 1]

/-- The query string `?page=2&limit=10`. -/
def secondPage : ListQuery :=
  { page := some "2", limit := some "10", status := none }

/-- The collection after the sample submission on the empty collection. -/
def createdStore : Store :=
  (createBulkOrder sampleEnv sampleCatalog [] "u1" sampleBody).store

/-- The collection after the administrator `u9` approved the sample order. -/
def approvedStore : Store :=
  (updateBulkOrderStatus sampleEnv mailDelivers createdStore "u9" sampleEnv.freshId
    sampleApproval).store

/-- The collection after the approved sample order was rejected, one second later. -/
def rejectedAfterApproval : Store :=
  (updateBulkOrderStatus { sampleEnv with now := sampleEnv.now + 1000 } mailDelivers
    approvedStore "u9" sampleEnv.freshId sampleRejection).store

/-- The fifteen orders of the requester `u1` alone. -/
def ordersOfOne : Store :=
  (List.range 15).map (sampleOrder "u1")

/-- A collection of schema-valid orders: two Requested, one Approved, none Rejected. -/
def mixedStore : Store :=
  [sampleOrder "u1" 0, { sampleOrder "u1" 1 with status := "Approved" }, sampleOrder "u2" 0]

/-- An update request back to Requested whose notes are three spaces. -/
def blankNotes : UpdateBody :=
  { status := some "Requested", adminNotes := some "   ", rejectionReason := none }

/-- An approval that also carries a rejection reason. -/
def approvalWithReason : UpdateBody :=
  { status := some "Approved", adminNotes := none, rejectionReason := some "too large" }

/-- The clock thirty-one days after `sampleEnv`. -/
def laterEnv : Env :=
  { now := sampleEnv.now + 31 * 24 * 60 * 60 * 1000, freshId := "665f1c2ab3d4e5f601234568" }

/-- An update request back to Requested, without annotations. -/
def backToRequested : UpdateBody :=
  { status := some "Requested", adminNotes := none, rejectionReason := none }

/-- The query string `?status=Approved`. -/
def approvedOnly : ListQuery :=
  { page := none, limit := none, status := some "Approved" }

/-- The query string `?status=Shipped`. -/
def shippedOnly : ListQuery :=
  { page := none, limit := none, status := some "Shipped" }

/-- A submission of three line items with the quantities `9007199254740992`, which is
`2 ^ 53`, 1 and 1. -/
def largeBody : CreateBody :=
  sampleBodyWith
    [{ product := some "p1", quantity := some 9007199254740992, size := none },
     { product := some "p2", quantity := some 1, size := none },
     { product := some "p1", quantity := some 1, size := some "L" }]

/-- The collection after the large submission on the empty collection. -/
def largeStore : Store :=
  (createBulkOrder sampleEnv sampleCatalog [] "u1" largeBody).store

/-- A submission of two line items with the quantities `1.5` and `2.25`. -/
def fractionalBody : CreateBody :=
  sampleBodyWith
    [{ product := some "p1", quantity := some (JsNumber.finite (mkRat 3 2)), size := none },
     { product := some "p2", quantity := some (JsNumber.finite (mkRat 9 4)), size := none }]

/-- The clock of `sampleEnv` with another fresh id: a second request in the same
millisecond. -/
def sameInstantEnv : Env :=
  { now := sampleEnv.now, freshId := "665f1c2ab3d4e5f601234569" }

/-- The collection after a submission of the one quantity `9007199254740992` and, in the
same millisecond, a submission of the one quantity 1. -/
def unevenStore : Store :=
  (createBulkOrder sameInstantEnv sampleCatalog
    (createBulkOrder sampleEnv sampleCatalog [] "u1"
      (sampleBodyWith
        [{ product := some "p1", quantity := some 9007199254740992, size := none }])).store
    "u2" (sampleBodyWith [{ product := some "p2", quantity := some 1, size := none }])).store

/-- The collection after two sample submissions in the same millisecond. -/
def twinStore : Store :=
  (createBulkOrder sameInstantEnv sampleCatalog createdStore "u1" sampleBody).store

/-- A collection of three orders with three different `submittedAt`. -/
def staggeredStore : Store :=
  [sampleOrder "u1" 0, sampleOrder "u1" 1, sampleOrder "u2" 2]

/-- The query string `?page=p&limit=1`. -/
def pageOfOne (p : String) : ListQuery :=
  { page := some p, limit := some "1", status := none }

/-- The query parameter `page` for the page number `p`. -/
def pageNumber (p : Nat) : Option String :=
  some (toString p)

/-! ## Lemmas on the arithmetic of Numbers -/

/-- With enough fuel, `log2Fuel` brackets `n` between two consecutive powers of two. -/
theorem log2Fuel_spec (fuel n : Nat) (hpos : 0 < n) (hfuel : n ≤ fuel) :
    2 ^ log2Fuel fuel n ≤ n ∧ n < 2 ^ (log2Fuel fuel n + 1) := by
  induction fuel generalizing n with
  | zero => omega
  | succ fuel ih =>
    unfold log2Fuel
    by_cases h : n < 2
    · simp only [h, if_true]
      constructor <;> simp <;> omega
    · simp only [h, if_false]
      have := ih (n / 2) (by omega) (by omega)
      rw [pow_succ, pow_succ]
      rw [pow_succ] at this
      constructor <;> omega

/-- The value `log2 n` is the exponent of the largest power of two that is at most `n`. -/
theorem log2_spec (n : Nat) (hpos : 0 < n) : 2 ^ log2 n ≤ n ∧ n < 2 ^ (log2 n + 1) :=
  log2Fuel_spec n n hpos (Nat.le_refl n)

/-- A multiple of the divisor is rounded to its exact quotient. -/
theorem roundHalfEven_multiple (m d : Nat) (hd : 0 < d) : roundHalfEven (m * d) d = m := by
  unfold roundHalfEven
  have h1 : m * d % d = 0 := Nat.mul_mod_left m d
  have h2 : m * d / d = m := Nat.mul_div_cancel m hd
  simp [h1, h2, hd]

/-- A positive integer up to `2 ^ 53` is a double: rounding keeps it. -/
theorem roundMagnitude_natCast (m : Nat) (hpos : 0 < m) (hle : m ≤ 2 ^ 53) :
    roundMagnitude m 1 = some (m : ℚ) := by
  have hspec := log2_spec m hpos
  have hone : log2 1 = 0 := by decide
  have hfloor : floorLog2 m 1 = (log2 m : Int) := by
    unfold floorLog2
    simp only [hone, Nat.zero_le, if_true, Nat.sub_zero, one_mul, hspec.1]
  have hlog : log2 m ≤ 53 := by
    by_contra hgt
    have : 2 ^ 54 ≤ 2 ^ log2 m := Nat.pow_le_pow_right (by decide) (by omega)
    have h54 : (2 : Nat) ^ 53 < 2 ^ 54 := by norm_num
    omega
  unfold roundMagnitude
  simp only [hfloor]
  have hmax : max (log2 m : Int) (-1022) = (log2 m : Int) := by omega
  rw [hmax]
  by_cases hk : (0 : Int) ≤ (log2 m : Int) - 52
  · simp only [hk, if_true, one_mul]
    have hcases : log2 m = 52 ∨ log2 m = 53 := by omega
    rcases hcases with h52 | h53
    · have hz : ((log2 m : Int) - 52).toNat = 0 := by omega
      rw [hz]
      have hr : roundHalfEven m (2 ^ 0) = m := by
        have := roundHalfEven_multiple m 1 (by decide)
        simpa using this
      rw [hr]
      have hno : ¬ ((1024 : Int) ≤ (log2 m : Int) ∨ ((log2 m : Int) = 1023 ∧ m = 2 ^ 53)) := by
        omega
      rw [if_neg hno]
      simp
    · have hz : ((log2 m : Int) - 52).toNat = 1 := by omega
      rw [hz]
      have hm : m = 2 ^ 53 := by
        have := hspec.1
        rw [h53] at this
        omega
      have hr : roundHalfEven m (2 ^ 1) = 2 ^ 52 := by
        rw [hm]
        have := roundHalfEven_multiple (2 ^ 52) 2 (by decide)
        simpa using this
      rw [hr]
      have hno : ¬ ((1024 : Int) ≤ (log2 m : Int) ∨ ((log2 m : Int) = 1023 ∧ 2 ^ 52 = 2 ^ 53)) := by
        omega
      simp only [hno, if_false]
      rw [hm]
      norm_num
  · simp only [hk, if_false]
    have hr : roundHalfEven (m * 2 ^ (-((log2 m : Int) - 52)).toNat) 1 =
        m * 2 ^ (-((log2 m : Int) - 52)).toNat := by
      have := roundHalfEven_multiple (m * 2 ^ (-((log2 m : Int) - 52)).toNat) 1 (by decide)
      simpa using this
    rw [hr]
    congr 1
    rw [Rat.mkRat_eq_div]
    push_cast
    field_simp

/-- A natural number up to `2 ^ 53` is a double: rounding keeps it. -/
theorem roundFraction_natCast (m : Nat) (hle : m ≤ 2 ^ 53) :
    roundFraction (m : Int) 1 = JsNumber.finite (m : ℚ) := by
  unfold roundFraction
  by_cases hz : m = 0
  · subst hz
    simp
  · have hpos : 0 < m := Nat.pos_of_ne_zero hz
    have hne : ((m : Int) = 0) = False := by simp [hz]
    have hposi : (0 : Int) < (m : Int) := by omega
    simp only [hne, if_false, Int.natAbs_ofNat, roundMagnitude_natCast m hpos hle, hposi, if_true]

/-- The addition of two natural numbers whose sum is at most `2 ^ 53` is exact. -/
theorem jsAdd_natCast (a b : Nat) (hle : a + b ≤ 2 ^ 53) :
    jsAdd (JsNumber.finite (a : ℚ)) (JsNumber.finite (b : ℚ)) =
      JsNumber.finite ((a + b : Nat) : ℚ) := by
  unfold jsAdd
  simp only [Rat.num_natCast, Rat.den_natCast, Nat.cast_one, mul_one]
  have h := roundFraction_natCast (a + b) hle
  have hcast : ((a + b : Nat) : Int) = (a : Int) + (b : Int) := by push_cast; rfl
  rw [hcast] at h
  exact h

/-- The left-to-right addition of natural numbers whose sum is at most `2 ^ 53` is
exact. -/
theorem foldl_jsAdd_natCast (counts : List Nat) (start : Nat)
    (hle : start + counts.sum ≤ 2 ^ 53) :
    (counts.map (fun k : Nat => JsNumber.finite (k : ℚ))).foldl jsAdd (JsNumber.finite (start : ℚ)) =
      JsNumber.finite ((start + counts.sum : Nat) : ℚ) := by
  induction counts generalizing start with
  | nil => simp
  | cons k rest ih =>
    simp only [List.map_cons, List.foldl_cons, List.sum_cons] at hle ⊢
    rw [jsAdd_natCast start k (by omega), ih (start + k) (by omega)]
    congr 2
    omega

/-- The denominator of `exactSum` is positive. -/
theorem exactSum_den_pos (values : List ℚ) : 0 < (exactSum values).2 := by
  induction values with
  | nil => decide
  | cons q rest ih =>
    simp only [exactSum]
    exact Nat.mul_pos q.den_pos ih

/-- The fraction that `exactSum` returns is the sum of the list. -/
theorem exactSum_eq (values : List ℚ) :
    ((exactSum values).1 : ℚ) / ((exactSum values).2 : ℚ) = values.sum := by
  induction values with
  | nil => simp [exactSum]
  | cons q rest ih =>
    have hd : ((exactSum rest).2 : ℚ) ≠ 0 := by
      exact_mod_cast (exactSum_den_pos rest).ne.symm
    have hq : (q.den : ℚ) ≠ 0 := by exact_mod_cast q.den_pos.ne.symm
    simp only [exactSum, List.sum_cons]
    rw [← ih]
    conv_rhs => rw [← Rat.num_div_den q]
    push_cast
    field_simp

/-- The exact sum of natural numbers is their sum, with denominator one. -/
theorem exactSum_natCast (counts : List Nat) :
    exactSum (counts.map (fun k : Nat => (k : ℚ))) = (((counts.sum : Nat) : Int), 1) := by
  induction counts with
  | nil => rfl
  | cons k rest ih =>
    simp only [List.map_cons, exactSum, ih, Rat.num_natCast, Rat.den_natCast, List.sum_cons]
    simp

/-- The accumulator `$sum` over natural numbers whose sum is at most `2 ^ 53` is exact. -/
theorem sumNumbers_natCast (counts : List Nat) (hle : counts.sum ≤ 2 ^ 53) :
    sumNumbers (counts.map (fun k : Nat => JsNumber.finite (k : ℚ))) =
      JsNumber.finite ((counts.sum : Nat) : ℚ) := by
  have hnan : (counts.map (fun k : Nat => JsNumber.finite (k : ℚ))).contains JsNumber.nan = false := by
    simp
  have hpos : (counts.map (fun k : Nat => JsNumber.finite (k : ℚ))).contains JsNumber.posInf = false := by
    simp
  have hneg : (counts.map (fun k : Nat => JsNumber.finite (k : ℚ))).contains JsNumber.negInf = false := by
    simp
  have hvalues : (counts.map (fun k : Nat => JsNumber.finite (k : ℚ))).filterMap finiteValue =
      counts.map (fun k : Nat => (k : ℚ)) := by
    clear hle hnan hpos hneg
    induction counts with
    | nil => rfl
    | cons k rest ih =>
      simp only [List.map_cons, List.filterMap_cons, finiteValue]
      rw [ih]
  unfold sumNumbers
  simp only [hnan, hpos, hneg, Bool.false_and, Bool.or_self, Bool.false_eq_true, if_false,
    hvalues, exactSum_natCast]
  exact roundFraction_natCast counts.sum hle

/-! ## Lemmas on `createBulkOrder` -/

/-- The reduction of the pre-save middleware is the left-to-right addition of the
quantities, starting from `0`. -/
theorem foldl_quantity_eq_foldl (items : List LineItem) (start : JsNumber) :
    items.foldl (fun total item => jsAdd total item.quantity) start =
      (items.map LineItem.quantity).foldl jsAdd start := by
  induction items generalizing start with
  | nil => rfl
  | cons item rest ih => simp only [List.foldl_cons, List.map_cons, ih]

/-- After the pre-save middleware the total is the left-to-right addition of the
quantities, as soon as there is a line item; the other fields are kept. -/
theorem preSave_totalQuantity (doc : BulkOrderDoc) (h : doc.products ≠ []) :
    (preSave doc).totalQuantity = (doc.products.map LineItem.quantity).foldl jsAdd 0 ∧
      (preSave doc).products = doc.products ∧ (preSave doc).status = doc.status ∧
      (preSave doc).approvedBy = doc.approvedBy ∧ (preSave doc).approvedAt = doc.approvedAt := by
  have hlen : 0 < doc.products.length := List.length_pos.mpr h
  simp [preSave, hlen, foldl_quantity_eq_foldl]

/-- A response that the loop over the items produces is a failure with status 400. -/
theorem validateItems_some (catalog : List ProductId) (items : List LineItemInput)
    (bad : Response) (h : (validateItems catalog items).1 = some bad) :
    bad.status = 400 ∧ bad.success = false ∧ bad.error = true ∧ bad.data = Payload.none := by
  induction items with
  | nil => simp [validateItems] at h
  | cons item rest ih =>
    by_cases h1 : itemInvalid item = true
    · simp only [validateItems, h1, if_true, Option.some.injEq] at h
      subst h
      simp [failure]
    · by_cases h2 : findProductById catalog (item.product.getD "") = true
      · simp only [validateItems, h1, h2, Bool.not_true, if_false, Bool.false_eq_true] at h
        exact ih h
      · simp only [Bool.not_eq_true] at h1 h2
        simp [validateItems, h1, h2] at h
        subst h
        simp [failure]

/-- When the loop over the items ends without a response, every item passed the test
of the loop and its product reference was found in the catalog. -/
theorem validateItems_none (catalog : List ProductId) (items : List LineItemInput)
    (h : (validateItems catalog items).1 = none) :
    ∀ item ∈ items, itemInvalid item = false ∧ ∃ ref, item.product = some ref ∧ ref ∈ catalog := by
  induction items with
  | nil => simp
  | cons item rest ih =>
    by_cases h1 : itemInvalid item = true
    · simp [validateItems, h1] at h
    · by_cases h2 : findProductById catalog (item.product.getD "") = true
      · simp only [validateItems, h1, h2, Bool.not_true, if_false, Bool.false_eq_true] at h
        intro x hx
        rcases List.mem_cons.mp hx with rfl | hx
        · refine ⟨by simpa using h1, ?_⟩
          have hp : truthyStr x.product = true := by
            simp only [itemInvalid, Bool.or_eq_true, Bool.not_eq_true', not_or] at h1
            simpa using h1.1.1
          cases hprod : x.product with
          | none => simp [hprod, truthyStr] at hp
          | some ref =>
            refine ⟨ref, rfl, ?_⟩
            simpa [findProductById, hprod] using h2
        · exact ih h x hx
      · simp only [Bool.not_eq_true] at h2
        simp [validateItems, h1, h2] at h

/-- The casting of the items keeps the quantities, in order. -/
theorem castItems_quantities (items : List LineItemInput) (products : List LineItem)
    (h : castItems items = some products) :
    products.map (fun item => some item.quantity) = items.map (fun item => item.quantity) ∧
      products.length = items.length := by
  induction items generalizing products with
  | nil =>
    simp only [castItems, Option.some.injEq] at h
    subst h
    simp
  | cons item rest ih =>
    unfold castItems at h
    cases hc : castItem item with
    | none => simp [hc] at h
    | some cast =>
      cases hr : castItems rest with
      | none => simp [hc, hr] at h
      | some others =>
        simp only [hc, hr, Option.some.injEq] at h
        subst h
        have hq : item.quantity = some cast.quantity := by
          unfold castItem at hc
          split at hc
          · simp only [Option.some.injEq] at hc
            subst hc
            assumption
          · simp at hc
        have := ih others hr
        simp [hq, this.1, this.2]

/-- The two outcomes of `createBulkOrder`: a failure with status 400 or 500 that leaves
the collection as it was, or the insertion of one document built from the body. -/
theorem createBulkOrder_cases (env : Env) (catalog : List ProductId) (store : Store)
    (userId : UserId) (body : CreateBody) :
    ((createBulkOrder env catalog store userId body).store = store ∧
      (createBulkOrder env catalog store userId body).response.success = false ∧
      (createBulkOrder env catalog store userId body).response.error = true ∧
      (createBulkOrder env catalog store userId body).response.data = Payload.none ∧
      ((createBulkOrder env catalog store userId body).response.status = 400 ∨
        ((createBulkOrder env catalog store userId body).response.status = 500 ∧
          ∃ items, body.products = ProductsField.array items ∧
            (validateItems catalog items).1 = none))) ∨
    (∃ items products,
      body.products = ProductsField.array items ∧ items ≠ [] ∧
      (validateItems catalog items).1 = none ∧ castItems items = some products ∧
      (createBulkOrder env catalog store userId body).response.status = 201 ∧
      (createBulkOrder env catalog store userId body).response.success = true ∧
      (createBulkOrder env catalog store userId body).response.data =
        Payload.order (preSave (newBulkOrder env userId (body.name.getD "") (body.phone.getD "")
          (body.email.getD "") (body.buyerType.getD "") (body.address.getD "") products)) ∧
      (createBulkOrder env catalog store userId body).store =
        store ++ [preSave (newBulkOrder env userId (body.name.getD "") (body.phone.getD "")
          (body.email.getD "") (body.buyerType.getD "") (body.address.getD "") products)]) := by
  unfold createBulkOrder
  simp only []
  split_ifs with hreq
  · left
    simp [failure]
  · split
    · rename_i first others hprod
      split
      · rename_i bad looked hval
        left
        have hb := validateItems_some catalog (first :: others) bad (by rw [hval])
        simp [hb.1, hb.2.1, hb.2.2.1, hb.2.2.2]
      · rename_i looked hval
        have hnone : (validateItems catalog (first :: others)).1 = none := by rw [hval]
        split
        · left
          refine ⟨rfl, rfl, rfl, rfl, Or.inr ⟨rfl, first :: others, hprod, hnone⟩⟩
        · rename_i products hcast
          split_ifs with hdoc
          · right
            exact ⟨first :: others, products, hprod, by simp, hnone, hcast, rfl, rfl, rfl, rfl⟩
          · left
            refine ⟨rfl, rfl, rfl, rfl, Or.inr ⟨rfl, first :: others, hprod, hnone⟩⟩
    · left
      simp [failure]

/-! ## Lemmas on `updateBulkOrderStatus` and `deleteBulkOrder` -/

/-- The id of a stored document casts. -/
theorem castsToObjectId_found (id : OrderId) (store : Store) (doc : BulkOrderDoc)
    (h : findById id store = some doc) : castsToObjectId store id = true := by
  have hmem : doc ∈ store := List.mem_of_find?_eq_some h
  have hid := List.find?_some h
  simp only [castsToObjectId, Bool.or_eq_true, List.any_eq_true]
  exact Or.inr ⟨doc, hmem, hid⟩

/-- An id that no stored document has casts exactly when it is 24 hexadecimal digits. -/
theorem castsToObjectId_missing (id : OrderId) (store : Store)
    (h : findById id store = none) : castsToObjectId store id = isObjectIdString id := by
  have hall := List.find?_eq_none.mp h
  have hany : store.any (fun doc => doc.id == id) = false := by
    rw [List.any_eq_false]
    intro doc hdoc
    exact hall doc hdoc
  simp [castsToObjectId, hany]

/-- When no document has the id, `findByIdAndUpdate` returns `null` and writes nothing. -/
theorem findByIdAndUpdate_missing (id : OrderId) (f : BulkOrderDoc → BulkOrderDoc)
    (store : Store) (h : findById id store = none) :
    findByIdAndUpdate id f store = (none, store) := by
  induction store with
  | nil => rfl
  | cons doc rest ih =>
    by_cases hid : (doc.id == id) = true
    · simp [findById, List.find?_cons, hid] at h
    · simp only [Bool.not_eq_true] at hid
      have hrest : findById id rest = none := by
        simpa [findById, List.find?_cons, hid] using h
      simp [findByIdAndUpdate, hid, ih hrest]

/-- When a document has the id, `findByIdAndUpdate` returns its update, and the update
is the document with that id afterwards (the update keeps the id). -/
theorem findByIdAndUpdate_found (id : OrderId) (f : BulkOrderDoc → BulkOrderDoc)
    (hf : ∀ doc, (f doc).id = doc.id) (store : Store) (doc : BulkOrderDoc)
    (h : findById id store = some doc) :
    (findByIdAndUpdate id f store).1 = some (f doc) ∧
      findById id (findByIdAndUpdate id f store).2 = some (f doc) := by
  induction store with
  | nil => simp [findById] at h
  | cons first rest ih =>
    by_cases hid : (first.id == id) = true
    · have hsame : first = doc := by
        simpa [findById, List.find?_cons, hid] using h
      subst hsame
      have hid2 : ((f first).id == id) = true := by rw [hf first]; exact hid
      simp [findByIdAndUpdate, hid, findById, List.find?_cons, hid2]
    · simp only [Bool.not_eq_true] at hid
      have hrest : findById id rest = some doc := by
        simpa [findById, List.find?_cons, hid] using h
      have := ih hrest
      simp only [findByIdAndUpdate, hid, Bool.false_eq_true, if_false]
      refine ⟨this.1, ?_⟩
      simpa [findById, List.find?_cons, hid] using this.2

/-- The write of `findByIdAndUpdate` keeps the id of the document. -/
theorem applyUpdate_id (env : Env) (u : UpdateData) (doc : BulkOrderDoc) :
    (applyUpdate env u doc).id = doc.id := rfl

/-- When no document has the id, `findByIdAndDelete` returns `null` and removes nothing. -/
theorem findByIdAndDelete_missing (id : OrderId) (store : Store)
    (h : findById id store = none) : findByIdAndDelete id store = (none, store) := by
  induction store with
  | nil => rfl
  | cons doc rest ih =>
    by_cases hid : (doc.id == id) = true
    · simp [findById, List.find?_cons, hid] at h
    · simp only [Bool.not_eq_true] at hid
      have hrest : findById id rest = none := by
        simpa [findById, List.find?_cons, hid] using h
      simp [findByIdAndDelete, hid, ih hrest]

/-- The run of `updateBulkOrderStatus` on a valid status and an existing order: the
order is written, one email is attempted, and the response is the success response
with the updated order whatever the mail transport answers. -/
theorem updateBulkOrderStatus_found (env : Env) (sendEmail : Email → Except String Unit)
    (store : Store) (adminId : UserId) (orderId : OrderId) (body : UpdateBody)
    (status : String) (doc : BulkOrderDoc)
    (hstatus : body.status = some status) (hvalid : status ∈ statuses)
    (hfound : findById orderId store = some doc) :
    (updateBulkOrderStatus env sendEmail store adminId orderId body).response =
      { status := 200
        message := "Bulk order " ++ toLowerCase status ++ " successfully"
        data := Payload.order (applyUpdate env (buildUpdateData env adminId status body) doc)
        error := false
        success := true } ∧
    (updateBulkOrderStatus env sendEmail store adminId orderId body).store =
      (findByIdAndUpdate orderId (applyUpdate env (buildUpdateData env adminId status body))
        store).2 ∧
    findById orderId (updateBulkOrderStatus env sendEmail store adminId orderId body).store =
      some (applyUpdate env (buildUpdateData env adminId status body) doc) ∧
    (updateBulkOrderStatus env sendEmail store adminId orderId body).emails =
      [composeEmail status body
        (applyUpdate env (buildUpdateData env adminId status body) doc)] := by
  have hupd := findByIdAndUpdate_found orderId
    (applyUpdate env (buildUpdateData env adminId status body))
    (applyUpdate_id env (buildUpdateData env adminId status body)) store doc hfound
  have hcontains : statuses.contains status = true := by simpa using hvalid
  have hpair : findByIdAndUpdate orderId
      (applyUpdate env (buildUpdateData env adminId status body)) store =
      (some (applyUpdate env (buildUpdateData env adminId status body) doc),
        (findByIdAndUpdate orderId (applyUpdate env (buildUpdateData env adminId status body))
          store).2) := by
    rw [← hupd.1]
  have hrun : updateBulkOrderStatus env sendEmail store adminId orderId body =
      { response :=
          { status := 200
            message := "Bulk order " ++ toLowerCase status ++ " successfully"
            data := Payload.order (applyUpdate env (buildUpdateData env adminId status body) doc)
            error := false
            success := true }
        store := (findByIdAndUpdate orderId
          (applyUpdate env (buildUpdateData env adminId status body)) store).2
        emails := [composeEmail status body
          (applyUpdate env (buildUpdateData env adminId status body) doc)]
        logged :=
          match sendEmail (composeEmail status body
            (applyUpdate env (buildUpdateData env adminId status body) doc)) with
          | Except.ok _ => []
          | Except.error emailError => ["Error sending notification email: " ++ emailError] } := by
    unfold updateBulkOrderStatus
    simp only [hstatus, Option.getD_some, Option.isSome_some, hcontains, Bool.and_self,
      Bool.not_true, Bool.false_eq_true, if_false,
      castsToObjectId_found orderId store doc hfound]
    rw [hpair]
  rw [hrun]
  exact ⟨rfl, rfl, hupd.2, rfl⟩

/-- Trimming keeps a list of characters that neither starts nor ends with white space. -/
theorem trimChars_eq_self (cs : List Char)
    (hhead : ∀ c, cs.head? = some c → isJsWhiteSpace c = false)
    (hlast : ∀ c, cs.getLast? = some c → isJsWhiteSpace c = false) : trimChars cs = cs := by
  have hdrop : ∀ l : List Char, (∀ c, l.head? = some c → isJsWhiteSpace c = false) →
      l.dropWhile isJsWhiteSpace = l := by
    intro l hl
    cases l with
    | nil => rfl
    | cons c rest => simp [List.dropWhile_cons, hl c rfl]
  unfold trimChars
  rw [hdrop cs hhead, hdrop cs.reverse (by simpa [List.head?_reverse] using hlast)]
  exact List.reverse_reverse cs

/-! ## Claims on `createBulkOrder` -/

set_option maxRecDepth 100000 in
/-- C1, as stated, fails: the submission with the quantities `9007199254740992`, 1 and
1 is accepted, and the pre-save middleware adds them as Numbers, from left to right:
`9007199254740992 + 1` is rounded back to `9007199254740992` each time. The persisted
`totalQuantity` is `9007199254740992`, while the sum of the three quantities is
`9007199254740994`. -/
theorem createBulkOrder_totalQuantity_counterexample :
    (createBulkOrder sampleEnv sampleCatalog [] "u1" largeBody).response.status = 201 ∧
    (createBulkOrder sampleEnv sampleCatalog [] "u1" largeBody).response.success = true ∧
    largeStore.map (fun doc => doc.products.map LineItem.quantity) =
      [[9007199254740992, 1, 1]] ∧
    largeStore.map (fun doc => doc.totalQuantity) = [9007199254740992] ∧
    (9007199254740992 : ℚ) + 1 + 1 = 9007199254740994 ∧
    largeStore.map (fun doc => doc.totalQuantity) ≠ [9007199254740994] :=
  ⟨by decide, by decide, by decide, by decide, by norm_num, by decide⟩

/-- C1, amended: when `createBulkOrder` accepts a submission, it persists exactly one
order, whose line items carry the submitted quantities in order and whose
`totalQuantity` is the sum of the quantities of its line items as the addition of
Numbers computes it, from left to right, starting from 0. When the quantities are
natural numbers whose sum is at most `2 ^ 53`, this is their sum. -/
theorem createBulkOrder_totalQuantity (env : Env) (catalog : List ProductId) (store : Store)
    (userId : UserId) (body : CreateBody)
    (haccept : (createBulkOrder env catalog store userId body).response.success = true) :
    ∃ saved items,
      (createBulkOrder env catalog store userId body).store = store ++ [saved] ∧
      (createBulkOrder env catalog store userId body).response.data = Payload.order saved ∧
      body.products = ProductsField.array items ∧
      saved.products.map (fun item => some item.quantity) =
        items.map (fun item => item.quantity) ∧
      saved.totalQuantity = (saved.products.map LineItem.quantity).foldl jsAdd 0 ∧
      ∀ counts : List Nat,
        saved.products.map LineItem.quantity =
          counts.map (fun k : Nat => JsNumber.finite (k : ℚ)) →
        counts.sum ≤ 2 ^ 53 →
        saved.totalQuantity = JsNumber.finite ((counts.sum : Nat) : ℚ) := by
  rcases createBulkOrder_cases env catalog store userId body with hfail | hok
  · rw [hfail.2.1] at haccept
    exact absurd haccept (by decide)
  · obtain ⟨items, products, hprod, hne, _, hcast, _, _, hdata, hstore⟩ := hok
    have hq := castItems_quantities items products hcast
    have hne2 : products ≠ [] := by
      intro h
      rw [h] at hq
      exact hne (List.length_eq_zero.mp hq.2.symm)
    have hpre := preSave_totalQuantity (newBulkOrder env userId (body.name.getD "")
      (body.phone.getD "") (body.email.getD "") (body.buyerType.getD "")
      (body.address.getD "") products) hne2
    have htotal : (preSave (newBulkOrder env userId (body.name.getD "")
        (body.phone.getD "") (body.email.getD "") (body.buyerType.getD "")
        (body.address.getD "") products)).totalQuantity =
        ((preSave (newBulkOrder env userId (body.name.getD "")
          (body.phone.getD "") (body.email.getD "") (body.buyerType.getD "")
          (body.address.getD "") products)).products.map LineItem.quantity).foldl jsAdd 0 := by
      rw [hpre.1, hpre.2.1]
    refine ⟨_, items, hstore, hdata, hprod, ?_, htotal, ?_⟩
    · rw [hpre.2.1]
      exact hq.1
    · intro counts hcounts hle
      rw [htotal, hcounts]
      have h := foldl_jsAdd_natCast counts 0 (by omega)
      rw [Nat.zero_add] at h
      exact h

/-- The sample submission is accepted and its two quantities, 2 and 3, give the total 5;
the submission of the quantities `1.5` and `2.25` is accepted with the total `3.75`. -/
theorem createBulkOrder_totalQuantity_witness :
    (createBulkOrder sampleEnv sampleCatalog [] "u1" sampleBody).response.success = true ∧
    (createBulkOrder sampleEnv sampleCatalog [] "u1" sampleBody).store.map
      (fun doc => (doc.products.map LineItem.quantity, doc.totalQuantity)) = [([2, 3], 5)] ∧
    (createBulkOrder sampleEnv sampleCatalog [] "u1" fractionalBody).store.map
      (fun doc => doc.totalQuantity) = [JsNumber.finite (mkRat 15 4)] ∧
    ∃ saved items,
      (createBulkOrder sampleEnv sampleCatalog [] "u1" sampleBody).store = [] ++ [saved] ∧
      (createBulkOrder sampleEnv sampleCatalog [] "u1" sampleBody).response.data =
        Payload.order saved ∧
      sampleBody.products = ProductsField.array items ∧
      saved.products.map (fun item => some item.quantity) =
        items.map (fun item => item.quantity) ∧
      saved.totalQuantity = (saved.products.map LineItem.quantity).foldl jsAdd 0 ∧
      saved.totalQuantity = JsNumber.finite (((([2, 3] : List Nat).sum : Nat)) : ℚ) := by
  obtain ⟨saved, items, hstore, hdata, hprod, hq, htotal, hexact⟩ :=
    createBulkOrder_totalQuantity sampleEnv sampleCatalog [] "u1" sampleBody (by decide)
  refine ⟨by decide, by decide, by decide, saved, items, hstore, hdata, hprod, hq, htotal, ?_⟩
  apply hexact [2, 3] _ (by norm_num)
  have hsaved : saved = ((createBulkOrder sampleEnv sampleCatalog [] "u1" sampleBody).store).getLast
      (by decide) := by
    simp [hstore]
  rw [hsaved]
  decide

/-- C2: when a line item, at any position, carries a product reference that is not in
the catalog, `createBulkOrder` fails with status 400 and the collection is the one
before the call. -/
theorem createBulkOrder_unresolved_product (env : Env) (catalog : List ProductId)
    (store : Store) (userId : UserId) (body : CreateBody) (items : List LineItemInput)
    (item : LineItemInput) (ref : ProductId)
    (hitems : body.products = ProductsField.array items) (hmem : item ∈ items)
    (href : item.product = some ref) (hunresolved : ref ∉ catalog) :
    (createBulkOrder env catalog store userId body).response.success = false ∧
    (createBulkOrder env catalog store userId body).response.error = true ∧
    (createBulkOrder env catalog store userId body).response.data = Payload.none ∧
    (createBulkOrder env catalog store userId body).response.status = 400 ∧
    (createBulkOrder env catalog store userId body).store = store := by
  have hpassed : ∀ items2, body.products = ProductsField.array items2 →
      (validateItems catalog items2).1 = none → False := by
    intro items2 hprod hval
    rw [hitems] at hprod
    injection hprod with hsame
    subst hsame
    obtain ⟨_, ref2, href2, hin⟩ := validateItems_none catalog items hval item hmem
    rw [href] at href2
    injection href2 with hsame
    subst hsame
    exact hunresolved hin
  rcases createBulkOrder_cases env catalog store userId body with hfail | hok
  · refine ⟨hfail.2.1, hfail.2.2.1, hfail.2.2.2.1, ?_, hfail.1⟩
    rcases hfail.2.2.2.2 with h400 | ⟨_, items2, hprod, hval⟩
    · exact h400
    · exact (hpassed items2 hprod hval).elim
  · obtain ⟨items2, products, hprod, _, hval, _⟩ := hok
    exact (hpassed items2 hprod hval).elim

/-- A submission whose second item names a product that the catalog lacks. -/
theorem createBulkOrder_unresolved_product_witness :
    (sampleBodyWith
        [{ product := some "p1", quantity := some 2, size := none },
         { product := some "p7", quantity := some 1, size := none }]).products =
      ProductsField.array
        [{ product := some "p1", quantity := some 2, size := none },
         { product := some "p7", quantity := some 1, size := none }] ∧
    "p7" ∉ sampleCatalog ∧
    (createBulkOrder sampleEnv sampleCatalog [sampleOrder "u1" 0] "u1"
      (sampleBodyWith
        [{ product := some "p1", quantity := some 2, size := none },
         { product := some "p7", quantity := some 1, size := none }])).response.status = 400 ∧
    (createBulkOrder sampleEnv sampleCatalog [sampleOrder "u1" 0] "u1"
      (sampleBodyWith
        [{ product := some "p1", quantity := some 2, size := none },
         { product := some "p7", quantity := some 1, size := none }])).store =
      [sampleOrder "u1" 0] :=
  ⟨rfl, by decide,
    (createBulkOrder_unresolved_product sampleEnv sampleCatalog [sampleOrder "u1" 0] "u1"
      (sampleBodyWith
        [{ product := some "p1", quantity := some 2, size := none },
         { product := some "p7", quantity := some 1, size := none }])
      [{ product := some "p1", quantity := some 2, size := none },
       { product := some "p7", quantity := some 1, size := none }]
      { product := some "p7", quantity := some 1, size := none } "p7"
      rfl (by decide) rfl (by decide)).2.2.2⟩

/-- C3: a submission with every other field present and an empty list of line items is
answered with the validation error of status 400, and the collection is unchanged. -/
theorem createBulkOrder_empty_items (env : Env) (catalog : List ProductId) (store : Store)
    (userId : UserId) (body : CreateBody)
    (hname : truthyStr body.name = true) (hphone : truthyStr body.phone = true)
    (hemail : truthyStr body.email = true) (hbuyer : truthyStr body.buyerType = true)
    (haddress : truthyStr body.address = true)
    (hempty : body.products = ProductsField.array []) :
    (createBulkOrder env catalog store userId body).response =
      failure 400 "At least one product must be selected" ∧
    (createBulkOrder env catalog store userId body).store = store ∧
    (createBulkOrder env catalog store userId body).lookups = [] := by
  simp [createBulkOrder, hname, hphone, hemail, hbuyer, haddress, hempty]

/-- The sample submission with its line items emptied. -/
theorem createBulkOrder_empty_items_witness :
    truthyStr (sampleBodyWith []).name = true ∧
    (sampleBodyWith []).products = ProductsField.array [] ∧
    (createBulkOrder sampleEnv sampleCatalog [sampleOrder "u1" 0] "u1"
        (sampleBodyWith [])).response =
      failure 400 "At least one product must be selected" ∧
    (createBulkOrder sampleEnv sampleCatalog [sampleOrder "u1" 0] "u1"
        (sampleBodyWith [])).store = [sampleOrder "u1" 0] :=
  have h := createBulkOrder_empty_items sampleEnv sampleCatalog [sampleOrder "u1" 0] "u1"
    (sampleBodyWith []) (by decide) (by decide) (by decide) (by decide) (by decide) rfl
  ⟨by decide, rfl, h.1, h.2.1⟩

/-- C4: the order that `createBulkOrder` creates has status Requested and null `approvedBy`
and `approvedAt`, whatever the body carries in its own `status`, `approvedBy`,
`approvedAt` and `totalQuantity`. -/
theorem createBulkOrder_initial_state (env : Env) (catalog : List ProductId) (store : Store)
    (userId : UserId) (body : CreateBody)
    (hcreated : (createBulkOrder env catalog store userId body).store ≠ store) :
    ∃ saved,
      (createBulkOrder env catalog store userId body).store = store ++ [saved] ∧
      (createBulkOrder env catalog store userId body).response.data = Payload.order saved ∧
      saved.status = "Requested" ∧ saved.approvedBy = none ∧ saved.approvedAt = none := by
  rcases createBulkOrder_cases env catalog store userId body with hfail | hok
  · exact absurd hfail.1 hcreated
  · obtain ⟨items, products, _, hne, _, hcast, _, _, hdata, hstore⟩ := hok
    have hq := castItems_quantities items products hcast
    have hne2 : products ≠ [] := by
      intro h
      rw [h] at hq
      exact hne (List.length_eq_zero.mp hq.2.symm)
    have hpre := preSave_totalQuantity (newBulkOrder env userId (body.name.getD "")
      (body.phone.getD "") (body.email.getD "") (body.buyerType.getD "")
      (body.address.getD "") products) hne2
    refine ⟨_, hstore, hdata, ?_, ?_, ?_⟩
    · rw [hpre.2.2.1]; rfl
    · rw [hpre.2.2.2.1]; rfl
    · rw [hpre.2.2.2.2]; rfl

/-- The sample submission asks for status Approved, an approver and an approval date in
its body; the order created from it has none of them. -/
theorem createBulkOrder_initial_state_witness :
    sampleBody.status = some "Approved" ∧ sampleBody.approvedBy = some "u9" ∧
    sampleBody.approvedAt = some 5 ∧ sampleBody.totalQuantity = some 99 ∧
    (createBulkOrder sampleEnv sampleCatalog [sampleOrder "u2" 0] "u1" sampleBody).store ≠
      [sampleOrder "u2" 0] ∧
    ∃ saved,
      (createBulkOrder sampleEnv sampleCatalog [sampleOrder "u2" 0] "u1" sampleBody).store =
        [sampleOrder "u2" 0] ++ [saved] ∧
      (createBulkOrder sampleEnv sampleCatalog [sampleOrder "u2" 0] "u1" sampleBody).response.data =
        Payload.order saved ∧
      saved.status = "Requested" ∧ saved.approvedBy = none ∧ saved.approvedAt = none :=
  ⟨rfl, rfl, rfl, rfl, by decide,
    createBulkOrder_initial_state sampleEnv sampleCatalog [sampleOrder "u2" 0] "u1" sampleBody
      (by decide)⟩

/-! ## Claims on `updateBulkOrderStatus` and `deleteBulkOrder` -/

/-- C5: an update with status Approved of an existing order answers with success and
leaves the stored order with status Approved, `approvedBy` the acting administrator and
`approvedAt` the time of the call, both non-null. -/
theorem updateBulkOrderStatus_approved (env : Env) (sendEmail : Email → Except String Unit)
    (store : Store) (adminId : UserId) (orderId : OrderId) (body : UpdateBody)
    (doc : BulkOrderDoc) (hfound : findById orderId store = some doc)
    (hstatus : body.status = some "Approved") :
    ∃ updated,
      findById orderId (updateBulkOrderStatus env sendEmail store adminId orderId body).store =
        some updated ∧
      (updateBulkOrderStatus env sendEmail store adminId orderId body).response.data =
        Payload.order updated ∧
      (updateBulkOrderStatus env sendEmail store adminId orderId body).response.status = 200 ∧
      updated.status = "Approved" ∧ updated.approvedBy = some adminId ∧
      updated.approvedAt = some env.now := by
  have h := updateBulkOrderStatus_found env sendEmail store adminId orderId body "Approved" doc
    hstatus (by decide) hfound
  refine ⟨_, h.2.2.1, ?_, ?_, rfl, ?_, ?_⟩
  · rw [h.1]
  · rw [h.1]
  · simp [applyUpdate, buildUpdateData]
  · simp [applyUpdate, buildUpdateData]

/-- The approval of the one stored order by the administrator `u9`. -/
theorem updateBulkOrderStatus_approved_witness :
    findById "u1a" [sampleOrder "u1" 0] = some (sampleOrder "u1" 0) ∧
    ∃ updated,
      findById "u1a" (updateBulkOrderStatus sampleEnv mailDelivers [sampleOrder "u1" 0] "u9"
        "u1a" sampleApproval).store = some updated ∧
      (updateBulkOrderStatus sampleEnv mailDelivers [sampleOrder "u1" 0] "u9" "u1a"
        sampleApproval).response.data = Payload.order updated ∧
      (updateBulkOrderStatus sampleEnv mailDelivers [sampleOrder "u1" 0] "u9" "u1a"
        sampleApproval).response.status = 200 ∧
      updated.status = "Approved" ∧ updated.approvedBy = some "u9" ∧
      updated.approvedAt = some sampleEnv.now :=
  ⟨by decide,
    updateBulkOrderStatus_approved sampleEnv mailDelivers [sampleOrder "u1" 0] "u9" "u1a"
      sampleApproval (sampleOrder "u1" 0) (by decide) rfl⟩

/-- C6, as stated, fails: rejecting the stored order with the reason " out of stock "
stores the reason "out of stock", not the supplied string. -/
theorem updateBulkOrderStatus_rejected_reason_counterexample :
    (findById "u1a" (updateBulkOrderStatus sampleEnv mailDelivers [sampleOrder "u1" 0] "u9"
        "u1a" sampleRejection).store).map (fun doc => (doc.status, doc.rejectionReason)) =
      some ("Rejected", "out of stock") ∧
    sampleRejection.rejectionReason = some " out of stock " ∧
    (findById "u1a" (updateBulkOrderStatus sampleEnv mailDelivers [sampleOrder "u1" 0] "u9"
        "u1a" sampleRejection).store).map (fun doc => doc.rejectionReason) ≠
      sampleRejection.rejectionReason := by
  decide

/-- C6, amended: an update with status Rejected of an existing order that supplies a
non-empty reason leaves the stored order with status Rejected and with the supplied
reason trimmed of its leading and trailing white space (the `trim` setter of the
schema path); a reason that neither starts nor ends with white space is stored as it
is. -/
theorem updateBulkOrderStatus_rejected_reason (env : Env)
    (sendEmail : Email → Except String Unit) (store : Store) (adminId : UserId)
    (orderId : OrderId) (body : UpdateBody) (doc : BulkOrderDoc) (reason : String)
    (hfound : findById orderId store = some doc) (hstatus : body.status = some "Rejected")
    (hreason : body.rejectionReason = some reason) (hnonempty : reason ≠ "") :
    ∃ updated,
      findById orderId (updateBulkOrderStatus env sendEmail store adminId orderId body).store =
        some updated ∧
      (updateBulkOrderStatus env sendEmail store adminId orderId body).response.data =
        Payload.order updated ∧
      updated.status = "Rejected" ∧ updated.rejectionReason = jsTrim reason ∧
      ((∀ c, reason.data.head? = some c → isJsWhiteSpace c = false) →
        (∀ c, reason.data.getLast? = some c → isJsWhiteSpace c = false) →
        updated.rejectionReason = reason) := by
  have h := updateBulkOrderStatus_found env sendEmail store adminId orderId body "Rejected" doc
    hstatus (by decide) hfound
  have hstored : (applyUpdate env (buildUpdateData env adminId "Rejected" body) doc).rejectionReason
      = jsTrim reason := by
    simp [applyUpdate, buildUpdateData, hreason, truthyStr, hnonempty]
  refine ⟨_, h.2.2.1, ?_, rfl, hstored, ?_⟩
  · rw [h.1]
  · intro hhead hlast
    rw [hstored]
    unfold jsTrim
    rw [trimChars_eq_self reason.data hhead hlast]

/-- The rejection of the one stored order with the reason " out of stock ". -/
theorem updateBulkOrderStatus_rejected_reason_witness :
    findById "u1a" [sampleOrder "u1" 0] = some (sampleOrder "u1" 0) ∧
    ∃ updated,
      findById "u1a" (updateBulkOrderStatus sampleEnv mailDelivers [sampleOrder "u1" 0] "u9"
        "u1a" sampleRejection).store = some updated ∧
      (updateBulkOrderStatus sampleEnv mailDelivers [sampleOrder "u1" 0] "u9" "u1a"
        sampleRejection).response.data = Payload.order updated ∧
      updated.status = "Rejected" ∧ updated.rejectionReason = jsTrim " out of stock " ∧
      ((∀ c, " out of stock ".data.head? = some c → isJsWhiteSpace c = false) →
        (∀ c, " out of stock ".data.getLast? = some c → isJsWhiteSpace c = false) →
        updated.rejectionReason = " out of stock ") :=
  ⟨by decide,
    updateBulkOrderStatus_rejected_reason sampleEnv mailDelivers [sampleOrder "u1" 0] "u9" "u1a"
      sampleRejection (sampleOrder "u1" 0) " out of stock " (by decide) rfl rfl (by decide)⟩

/-- C7: when the mail transport throws, an update with a valid status of an existing
order still stores the new status and still answers with the success response carrying
the updated order: response and collection are those of the run in which the send
succeeds, and the failure is only logged. -/
theorem updateBulkOrderStatus_mail_failure (env : Env)
    (sendEmail : Email → Except String Unit) (store : Store) (adminId : UserId)
    (orderId : OrderId) (body : UpdateBody) (status : String) (doc : BulkOrderDoc)
    (hfound : findById orderId store = some doc) (hstatus : body.status = some status)
    (hvalid : status ∈ statuses)
    (hthrows : ∀ email, ∃ reason, sendEmail email = Except.error reason) :
    (updateBulkOrderStatus env sendEmail store adminId orderId body).response =
      (updateBulkOrderStatus env mailDelivers store adminId orderId body).response ∧
    (updateBulkOrderStatus env sendEmail store adminId orderId body).store =
      (updateBulkOrderStatus env mailDelivers store adminId orderId body).store ∧
    (updateBulkOrderStatus env sendEmail store adminId orderId body).response.status = 200 ∧
    (updateBulkOrderStatus env sendEmail store adminId orderId body).response.success = true ∧
    (updateBulkOrderStatus env sendEmail store adminId orderId body).emails.length = 1 ∧
    (updateBulkOrderStatus env sendEmail store adminId orderId body).logged ≠ [] ∧
    ∃ updated,
      findById orderId (updateBulkOrderStatus env sendEmail store adminId orderId body).store =
        some updated ∧
      (updateBulkOrderStatus env sendEmail store adminId orderId body).response.data =
        Payload.order updated ∧
      updated.status = status := by
  have h := updateBulkOrderStatus_found env sendEmail store adminId orderId body status doc
    hstatus hvalid hfound
  have hok := updateBulkOrderStatus_found env mailDelivers store adminId orderId body status doc
    hstatus hvalid hfound
  have hcontains : statuses.contains status = true := by simpa using hvalid
  have hupd := findByIdAndUpdate_found orderId
    (applyUpdate env (buildUpdateData env adminId status body))
    (applyUpdate_id env (buildUpdateData env adminId status body)) store doc hfound
  have hlogged : (updateBulkOrderStatus env sendEmail store adminId orderId body).logged ≠ [] := by
    obtain ⟨reason, hreason⟩ := hthrows (composeEmail status body
      (applyUpdate env (buildUpdateData env adminId status body) doc))
    have hpair : findByIdAndUpdate orderId
        (applyUpdate env (buildUpdateData env adminId status body)) store =
        (some (applyUpdate env (buildUpdateData env adminId status body) doc),
          (findByIdAndUpdate orderId (applyUpdate env (buildUpdateData env adminId status body))
            store).2) := by
      rw [← hupd.1]
    unfold updateBulkOrderStatus
    simp only [hstatus, Option.getD_some, Option.isSome_some, hcontains, Bool.and_self,
      Bool.not_true, Bool.false_eq_true, if_false,
      castsToObjectId_found orderId store doc hfound]
    rw [hpair]
    simp [hreason]
  refine ⟨by rw [h.1, hok.1], by rw [h.2.1, hok.2.1], by rw [h.1], by rw [h.1],
    by rw [h.2.2.2]; rfl, hlogged, _, h.2.2.1, by rw [h.1], rfl⟩

/-- The approval of the one stored order while the mail transport throws. -/
theorem updateBulkOrderStatus_mail_failure_witness :
    findById "u1a" [sampleOrder "u1" 0] = some (sampleOrder "u1" 0) ∧
    (updateBulkOrderStatus sampleEnv mailThrows [sampleOrder "u1" 0] "u9" "u1a"
        sampleApproval).response =
      (updateBulkOrderStatus sampleEnv mailDelivers [sampleOrder "u1" 0] "u9" "u1a"
        sampleApproval).response ∧
    (updateBulkOrderStatus sampleEnv mailThrows [sampleOrder "u1" 0] "u9" "u1a"
        sampleApproval).store =
      (updateBulkOrderStatus sampleEnv mailDelivers [sampleOrder "u1" 0] "u9" "u1a"
        sampleApproval).store ∧
    (updateBulkOrderStatus sampleEnv mailThrows [sampleOrder "u1" 0] "u9" "u1a"
        sampleApproval).response.status = 200 :=
  have h := updateBulkOrderStatus_mail_failure sampleEnv mailThrows [sampleOrder "u1" 0] "u9"
    "u1a" sampleApproval "Approved" (sampleOrder "u1" 0) (by decide) rfl (by decide)
    (fun _ => ⟨"connection refused", rfl⟩)
  ⟨by decide, h.1, h.2.1, h.2.2.1⟩

/-- C8: an update whose status is absent or is not one of Requested, Approved and
Rejected is answered with the validation error of status 400; the collection is
unchanged and no email is attempted. -/
theorem updateBulkOrderStatus_invalid_status (env : Env)
    (sendEmail : Email → Except String Unit) (store : Store) (adminId : UserId)
    (orderId : OrderId) (body : UpdateBody)
    (hinvalid : ∀ status, body.status = some status → status ∉ statuses) :
    (updateBulkOrderStatus env sendEmail store adminId orderId body).response =
      failure 400 "Invalid status. Must be 'Requested', 'Approved', or 'Rejected'" ∧
    (updateBulkOrderStatus env sendEmail store adminId orderId body).store = store ∧
    (updateBulkOrderStatus env sendEmail store adminId orderId body).emails = [] := by
  cases hs : body.status with
  | none => simp [updateBulkOrderStatus, hs]
  | some status =>
    have hnot : status ∉ statuses := hinvalid status hs
    simp [updateBulkOrderStatus, hs, hnot]

/-- An update of an existing order with the status "Shipped". -/
theorem updateBulkOrderStatus_invalid_status_witness :
    "Shipped" ∉ statuses ∧
    (updateBulkOrderStatus sampleEnv mailDelivers [sampleOrder "u1" 0] "u9" "u1a"
        { status := some "Shipped", adminNotes := some "note", rejectionReason := none }).response =
      failure 400 "Invalid status. Must be 'Requested', 'Approved', or 'Rejected'" ∧
    (updateBulkOrderStatus sampleEnv mailDelivers [sampleOrder "u1" 0] "u9" "u1a"
        { status := some "Shipped", adminNotes := some "note", rejectionReason := none }).store =
      [sampleOrder "u1" 0] ∧
    (updateBulkOrderStatus sampleEnv mailDelivers [sampleOrder "u1" 0] "u9" "u1a"
        { status := some "Shipped", adminNotes := some "note", rejectionReason := none }).emails =
      [] :=
  ⟨by decide,
    updateBulkOrderStatus_invalid_status sampleEnv mailDelivers [sampleOrder "u1" 0] "u9" "u1a"
      { status := some "Shipped", adminNotes := some "note", rejectionReason := none }
      (fun status hs => by
        injection hs with hs
        subst hs
        decide)⟩

/-- C9, as stated, fails: the id `u1z` resolves to no stored order and is not the text
of an ObjectId, so `findByIdAndDelete` throws a `CastError` and `deleteBulkOrder` answers
with status 500 and the message of that error, not with the not-found failure of status
404. -/
theorem deleteBulkOrder_missing_counterexample :
    findById "u1z" [sampleOrder "u1" 0, sampleOrder "u1" 1] = none ∧
    (deleteBulkOrder [sampleOrder "u1" 0, sampleOrder "u1" 1] "u1z").1 =
      failure 500 (castErrorMessage "u1z") ∧
    (deleteBulkOrder [sampleOrder "u1" 0, sampleOrder "u1" 1] "u1z").1.status = 500 ∧
    (deleteBulkOrder [sampleOrder "u1" 0, sampleOrder "u1" 1] "u1z").1.status ≠ 404 := by
  decide

/-- C9, amended: for an order id that no stored order has, `deleteBulkOrder` never
answers with success and leaves the collection unchanged: its answer is a failure
without data, the not-found failure of status 404 when the id is the text of an
ObjectId (24 hexadecimal digits), and the failure of status 500 with the message of the
`CastError` when it is not. -/
theorem deleteBulkOrder_missing (store : Store) (orderId : OrderId)
    (hmissing : findById orderId store = none) :
    (deleteBulkOrder store orderId).1.success = false ∧
    (deleteBulkOrder store orderId).1.error = true ∧
    (deleteBulkOrder store orderId).1.data = Payload.none ∧
    (deleteBulkOrder store orderId).1.status ≠ 200 ∧
    (deleteBulkOrder store orderId).2 = store ∧
    (isObjectIdString orderId = true →
      (deleteBulkOrder store orderId).1 = failure 404 "Bulk order not found" ∧
      (deleteBulkOrder store orderId).1.status = 404) ∧
    (isObjectIdString orderId = false →
      (deleteBulkOrder store orderId).1 = failure 500 (castErrorMessage orderId) ∧
      (deleteBulkOrder store orderId).1.status = 500) := by
  have hcast := castsToObjectId_missing orderId store hmissing
  cases hid : isObjectIdString orderId with
  | true =>
    rw [hid] at hcast
    simp [deleteBulkOrder, hcast, findByIdAndDelete_missing orderId store hmissing, failure]
  | false =>
    rw [hid] at hcast
    simp [deleteBulkOrder, hcast, failure]

/-- The deletion of two ids that the collection of two orders does not hold: the text
of an ObjectId is answered with status 404, the malformed `u1z` with status 500, and
the collection is the same after both. -/
theorem deleteBulkOrder_missing_witness :
    findById "665f1c2ab3d4e5f6012345ff" [sampleOrder "u1" 0, sampleOrder "u1" 1] = none ∧
    isObjectIdString "665f1c2ab3d4e5f6012345ff" = true ∧
    (deleteBulkOrder [sampleOrder "u1" 0, sampleOrder "u1" 1] "665f1c2ab3d4e5f6012345ff").1 =
      failure 404 "Bulk order not found" ∧
    (deleteBulkOrder [sampleOrder "u1" 0, sampleOrder "u1" 1] "665f1c2ab3d4e5f6012345ff").2 =
      [sampleOrder "u1" 0, sampleOrder "u1" 1] ∧
    (deleteBulkOrder [sampleOrder "u1" 0, sampleOrder "u1" 1] "665f1c2ab3d4e5f6012345ff").1.success =
      false :=
  have h := deleteBulkOrder_missing [sampleOrder "u1" 0, sampleOrder "u1" 1]
    "665f1c2ab3d4e5f6012345ff" (by decide)
  ⟨by decide, by decide, (h.2.2.2.2.2.1 (by decide)).1, h.2.2.2.2.1, h.1⟩

/-! ## Claims on the listings -/

/-- The expression `Math.ceil(total / limit)` of the controllers is the ceiling of the
quotient, for a positive limit. -/
theorem ceilDiv_eq_ceil (total : Nat) (limit : Int) (hlimit : 1 ≤ limit) :
    ceilDiv total limit = ⌈((total : ℚ) / (limit : ℚ))⌉ := by
  have hnat : ((limit.toNat : ℤ) : ℤ) = limit := Int.toNat_of_nonneg (by omega)
  have hfloor := Rat.floor_intCast_div_natCast (-(total : ℤ)) limit.toNat
  have hcast : ((limit.toNat : ℕ) : ℚ) = (limit : ℚ) := by
    have hq : (((limit.toNat : ℤ)) : ℚ) = (limit : ℚ) := congrArg Int.cast hnat
    rwa [Int.cast_natCast] at hq
  rw [hcast, hnat] at hfloor
  unfold ceilDiv
  rw [Int.fdiv_eq_ediv _ (by omega), ← hfloor]
  have hneg : ((-(total : ℤ) : ℤ) : ℚ) / (limit : ℚ) = -(((total : ℚ)) / (limit : ℚ)) := by
    push_cast
    ring
  rw [hneg, Int.floor_neg, neg_neg]

/-- The page that the cursor returns for a skip that is not negative and a positive
limit. -/
theorem findPage_length (matching : List BulkOrderDoc) (skip limit : Int) (hskip : 0 ≤ skip)
    (hlimit : 1 ≤ limit) :
    ∃ orders, findPage matching skip limit = some orders ∧
      (orders.length : Int) = min limit (max 0 ((matching.length : Int) - skip)) := by
  refine ⟨((sortNewestFirst matching).drop skip.toNat).take limit.natAbs, ?_, ?_⟩
  · simp [findPage, not_lt.mpr hskip]
  · simp only [List.length_take, List.length_drop, sortNewestFirst, List.length_insertionSort]
    omega

/-- C10: for a page `p ≥ 1` and a page size `l ≥ 1`, each of the two listings answers with
`min l (max 0 (n - (p - 1) * l))` orders, where `n` is the number of orders that match its
filter, and reports `total = n` and `pages = ⌈n / l⌉`. -/
theorem listing_pagination (store : Store) (userId : UserId) (query : ListQuery) (p l : Int)
    (hpage : parseInt query.page = some p) (hp : 1 ≤ p)
    (hlimit : parseInt query.limit = some l) (hl : 1 ≤ l) :
    (∃ orders pagination,
      (getUserBulkOrders store userId query).status = 200 ∧
      (getUserBulkOrders store userId query).data = Payload.listing orders none pagination ∧
      (orders.length : Int) =
        min l (max 0 (((ordersOfUser store userId).length : Int) - (p - 1) * l)) ∧
      pagination.page = p ∧ pagination.limit = l ∧
      pagination.total = (ordersOfUser store userId).length ∧
      pagination.pages = ⌈(((ordersOfUser store userId).length : ℚ) / (l : ℚ))⌉) ∧
    (∃ orders pagination,
      (getAllBulkOrders store query).status = 200 ∧
      (getAllBulkOrders store query).data =
        Payload.listing orders (some (statusCountsOf store)) pagination ∧
      (orders.length : Int) =
        min l (max 0 (((ordersMatching store query.status).length : Int) - (p - 1) * l)) ∧
      pagination.page = p ∧ pagination.limit = l ∧
      pagination.total = (ordersMatching store query.status).length ∧
      pagination.pages = ⌈(((ordersMatching store query.status).length : ℚ) / (l : ℚ))⌉) := by
  have hp0 : p ≠ 0 := by omega
  have hl0 : l ≠ 0 := by omega
  have hskip : 0 ≤ (p - 1) * l := mul_nonneg (by omega) (by omega)
  constructor
  · obtain ⟨orders, hfind, hlen⟩ := findPage_length (ordersOfUser store userId) ((p - 1) * l) l
      hskip hl
    refine ⟨orders, Pagination.mk p l (ordersOfUser store userId).length
      (ceilDiv (ordersOfUser store userId).length l), ?_, ?_, hlen, rfl, rfl, rfl,
      ceilDiv_eq_ceil _ l hl⟩
    · simp [getUserBulkOrders, hpage, hlimit, orDefault, hp0, hl0, hfind]
    · simp [getUserBulkOrders, hpage, hlimit, orDefault, hp0, hl0, hfind]
  · obtain ⟨orders, hfind, hlen⟩ := findPage_length (ordersMatching store query.status)
      ((p - 1) * l) l hskip hl
    refine ⟨orders, Pagination.mk p l (ordersMatching store query.status).length
      (ceilDiv (ordersMatching store query.status).length l), ?_, ?_, hlen, rfl, rfl, rfl,
      ceilDiv_eq_ceil _ l hl⟩
    · simp [getAllBulkOrders, hpage, hlimit, orDefault, hp0, hl0, hfind]
    · simp [getAllBulkOrders, hpage, hlimit, orDefault, hp0, hl0, hfind]

/-- Page 2 with limit 10: the requester `u1` has 15 orders and receives the 5 oldest of
them with `pages = 2`; the listing of all 17 orders returns 7 of them with `pages = 2`. -/
theorem listing_pagination_witness :
    parseInt secondPage.page = some 2 ∧ parseInt secondPage.limit = some 10 ∧
    (ordersOfUser fifteenOrders "u1").length = 15 ∧
    (ordersMatching fifteenOrders secondPage.status).length = 17 ∧
    (getUserBulkOrders fifteenOrders "u1" secondPage).data =
      Payload.listing ((List.range 5).reverse.map (sampleOrder "u1")) none
        (Pagination.mk 2 10 15 2) ∧
    (∃ orders pagination,
      (getUserBulkOrders fifteenOrders "u1" secondPage).status = 200 ∧
      (getUserBulkOrders fifteenOrders "u1" secondPage).data =
        Payload.listing orders none pagination ∧
      (orders.length : Int) =
        min 10 (max 0 (((ordersOfUser fifteenOrders "u1").length : Int) - (2 - 1) * 10)) ∧
      pagination.page = 2 ∧ pagination.limit = 10 ∧
      pagination.total = (ordersOfUser fifteenOrders "u1").length ∧
      pagination.pages = ⌈(((ordersOfUser fifteenOrders "u1").length : ℚ) / ((10 : Int) : ℚ))⌉) ∧
    (∃ orders pagination,
      (getAllBulkOrders fifteenOrders secondPage).status = 200 ∧
      (getAllBulkOrders fifteenOrders secondPage).data =
        Payload.listing orders (some (statusCountsOf fifteenOrders)) pagination ∧
      (orders.length : Int) =
        min 10 (max 0 (((ordersMatching fifteenOrders secondPage.status).length : Int) -
          (2 - 1) * 10)) ∧
      pagination.page = 2 ∧ pagination.limit = 10 ∧
      pagination.total = (ordersMatching fifteenOrders secondPage.status).length ∧
      pagination.pages =
        ⌈(((ordersMatching fifteenOrders secondPage.status).length : ℚ) / ((10 : Int) : ℚ))⌉) :=
  ⟨by decide, by decide, by decide, by decide, by decide,
    listing_pagination fifteenOrders "u1" secondPage 2 10 (by decide) (by decide) (by decide)
      (by decide)⟩

/-! ## Claims on the validation of `createBulkOrder` -/

/-- C11: when one of `name`, `phone`, `email`, `buyerType`, `address` or the list of
line items is absent, `createBulkOrder` answers with the validation error of status 400,
looks nothing up in the catalog and leaves the collection as it was. -/
theorem createBulkOrder_missing_field (env : Env) (catalog : List ProductId) (store : Store)
    (userId : UserId) (body : CreateBody)
    (habsent : body.name = none ∨ body.phone = none ∨ body.email = none ∨
      body.buyerType = none ∨ body.address = none ∨ body.products = ProductsField.absent) :
    (createBulkOrder env catalog store userId body).response =
      failure 400 "All fields are required" ∧
    (createBulkOrder env catalog store userId body).lookups = [] ∧
    (createBulkOrder env catalog store userId body).store = store := by
  rcases habsent with h | h | h | h | h | h <;>
    simp [createBulkOrder, h, truthyStr]

/-- The sample submission without its phone number, against a catalog that holds
every product it names. -/
theorem createBulkOrder_missing_field_witness :
    ({ sampleBody with phone := none } : CreateBody).phone = none ∧
    (createBulkOrder sampleEnv sampleCatalog [sampleOrder "u1" 0] "u1"
        { sampleBody with phone := none }).response = failure 400 "All fields are required" ∧
    (createBulkOrder sampleEnv sampleCatalog [sampleOrder "u1" 0] "u1"
        { sampleBody with phone := none }).lookups = [] ∧
    (createBulkOrder sampleEnv sampleCatalog [sampleOrder "u1" 0] "u1"
        { sampleBody with phone := none }).store = [sampleOrder "u1" 0] :=
  ⟨rfl, createBulkOrder_missing_field sampleEnv sampleCatalog [sampleOrder "u1" 0] "u1"
    { sampleBody with phone := none } (Or.inr (Or.inl rfl))⟩

/-- C12: when a line item, at any position, lacks its product reference or has a
quantity that is missing, zero or below 1, `createBulkOrder` answers with a failure of
status 400 and leaves the collection as it was, whatever the other items are. -/
theorem createBulkOrder_invalid_item (env : Env) (catalog : List ProductId) (store : Store)
    (userId : UserId) (body : CreateBody) (items : List LineItemInput) (item : LineItemInput)
    (hitems : body.products = ProductsField.array items) (hmem : item ∈ items)
    (hbad : item.product = none ∨ item.quantity = none ∨
      ∃ q, item.quantity = some q ∧ q < 1) :
    (createBulkOrder env catalog store userId body).response.success = false ∧
    (createBulkOrder env catalog store userId body).response.error = true ∧
    (createBulkOrder env catalog store userId body).response.status = 400 ∧
    (createBulkOrder env catalog store userId body).store = store := by
  have hinvalid : itemInvalid item = true := by
    rcases hbad with h | h | ⟨q, h, hq⟩
    · simp [itemInvalid, h, truthyStr]
    · simp [itemInvalid, h, truthyNum]
    · simp [itemInvalid, h, hq]
  have hpassed : ∀ items2, body.products = ProductsField.array items2 →
      (validateItems catalog items2).1 = none → False := by
    intro items2 hprod hval
    rw [hitems] at hprod
    injection hprod with hsame
    subst hsame
    have := (validateItems_none catalog items hval item hmem).1
    rw [hinvalid] at this
    exact absurd this (by decide)
  rcases createBulkOrder_cases env catalog store userId body with hfail | hok
  · refine ⟨hfail.2.1, hfail.2.2.1, ?_, hfail.1⟩
    rcases hfail.2.2.2.2 with h400 | ⟨_, items2, hprod, hval⟩
    · exact h400
    · exact (hpassed items2 hprod hval).elim
  · obtain ⟨items2, products, hprod, _, hval, _⟩ := hok
    exact (hpassed items2 hprod hval).elim

/-- A submission whose second item has the quantity 0, after a valid first item. -/
theorem createBulkOrder_invalid_item_witness :
    (sampleBodyWith
        [{ product := some "p1", quantity := some 2, size := none },
         { product := some "p2", quantity := some 0, size := none }]).products =
      ProductsField.array
        [{ product := some "p1", quantity := some 2, size := none },
         { product := some "p2", quantity := some 0, size := none }] ∧
    (createBulkOrder sampleEnv sampleCatalog [sampleOrder "u1" 0] "u1"
      (sampleBodyWith
        [{ product := some "p1", quantity := some 2, size := none },
         { product := some "p2", quantity := some 0, size := none }])).response.status = 400 ∧
    (createBulkOrder sampleEnv sampleCatalog [sampleOrder "u1" 0] "u1"
      (sampleBodyWith
        [{ product := some "p1", quantity := some 2, size := none },
         { product := some "p2", quantity := some 0, size := none }])).store =
      [sampleOrder "u1" 0] :=
  ⟨rfl,
    (createBulkOrder_invalid_item sampleEnv sampleCatalog [sampleOrder "u1" 0] "u1"
      (sampleBodyWith
        [{ product := some "p1", quantity := some 2, size := none },
         { product := some "p2", quantity := some 0, size := none }])
      [{ product := some "p1", quantity := some 2, size := none },
       { product := some "p2", quantity := some 0, size := none }]
      { product := some "p2", quantity := some 0, size := none }
      rfl (by decide) (Or.inr (Or.inr ⟨0, rfl, by decide⟩))).2.2⟩

/-! ## Reachable states -/

/-- A document of the collection after `findByIdAndUpdate` is a document of the
collection before, or the update of one that had the id. -/
theorem findByIdAndUpdate_mem (id : OrderId) (f : BulkOrderDoc → BulkOrderDoc) (store : Store)
    (doc : BulkOrderDoc) (h : doc ∈ (findByIdAndUpdate id f store).2) :
    doc ∈ store ∨ ∃ old ∈ store, old.id = id ∧ doc = f old := by
  induction store with
  | nil => simp [findByIdAndUpdate] at h
  | cons first rest ih =>
    by_cases hid : (first.id == id) = true
    · simp only [findByIdAndUpdate, hid, if_true, List.mem_cons] at h
      rcases h with h | h
      · exact Or.inr ⟨first, List.mem_cons_self _ _, by simpa using hid, h⟩
      · exact Or.inl (List.mem_cons_of_mem _ h)
    · simp only [Bool.not_eq_true] at hid
      simp only [findByIdAndUpdate, hid, Bool.false_eq_true, if_false, List.mem_cons] at h
      rcases h with h | h
      · exact Or.inl (h ▸ List.mem_cons_self _ _)
      · rcases ih h with hin | ⟨old, hold, hoid, hdoc⟩
        · exact Or.inl (List.mem_cons_of_mem _ hin)
        · exact Or.inr ⟨old, List.mem_cons_of_mem _ hold, hoid, hdoc⟩

/-- A document of the collection after `findByIdAndDelete` was in it before. -/
theorem findByIdAndDelete_mem (id : OrderId) (store : Store) (doc : BulkOrderDoc)
    (h : doc ∈ (findByIdAndDelete id store).2) : doc ∈ store := by
  induction store with
  | nil => simp [findByIdAndDelete] at h
  | cons first rest ih =>
    by_cases hid : (first.id == id) = true
    · simp only [findByIdAndDelete, hid, if_true] at h
      exact List.mem_cons_of_mem _ h
    · simp only [Bool.not_eq_true] at hid
      simp only [findByIdAndDelete, hid, Bool.false_eq_true, if_false, List.mem_cons] at h
      rcases h with h | h
      · exact h ▸ List.mem_cons_self _ _
      · exact List.mem_cons_of_mem _ (ih h)

/-- The collection after `updateBulkOrderStatus`: the one before, or the one that
`findByIdAndUpdate` leaves for a status among the three. -/
theorem updateBulkOrderStatus_store (env : Env) (sendEmail : Email → Except String Unit)
    (store : Store) (adminId : UserId) (orderId : OrderId) (body : UpdateBody) :
    (updateBulkOrderStatus env sendEmail store adminId orderId body).store = store ∨
    ∃ status, body.status = some status ∧ status ∈ statuses ∧
      (updateBulkOrderStatus env sendEmail store adminId orderId body).store =
        (findByIdAndUpdate orderId (applyUpdate env (buildUpdateData env adminId status body))
          store).2 := by
  cases hs : body.status with
  | none =>
    left
    simp [updateBulkOrderStatus, hs]
  | some status =>
    by_cases hv : status ∈ statuses
    · cases hfind : findById orderId store with
      | none =>
        left
        by_cases hc : castsToObjectId store orderId = true
        · simp [updateBulkOrderStatus, hs, hv, hc,
            findByIdAndUpdate_missing orderId _ store hfind]
        · simp [updateBulkOrderStatus, hs, hv, hc]
      | some doc =>
        right
        exact ⟨status, rfl, hv,
          (updateBulkOrderStatus_found env sendEmail store adminId orderId body status doc hs hv
            hfind).2.1⟩
    · left
      simp [updateBulkOrderStatus, hs, hv]

/-- A document of the collection after `deleteBulkOrder` was in it before. -/
theorem deleteBulkOrder_mem (store : Store) (orderId : OrderId) (doc : BulkOrderDoc)
    (h : doc ∈ (deleteBulkOrder store orderId).2) : doc ∈ store := by
  unfold deleteBulkOrder at h
  split_ifs at h with hc
  · exact h
  · split at h
    · exact h
    · rename_i found remaining hdel
      have hrem : remaining = (findByIdAndDelete orderId store).2 := by rw [hdel]
      rw [hrem] at h
      exact findByIdAndDelete_mem orderId store doc h

/-- A property of documents that holds of every document `createBulkOrder` saves and
that every write of `updateBulkOrderStatus` keeps holds of every document of every
reachable collection. -/
theorem reachable_invariant (P : BulkOrderDoc → Prop)
    (hcreate : ∀ (env : Env) (userId : UserId) (name phone email buyerType address : String)
      (products : List LineItem), products ≠ [] →
      P (preSave (newBulkOrder env userId name phone email buyerType address products)))
    (hupdate : ∀ (env : Env) (adminId : UserId) (status : String) (body : UpdateBody)
      (doc : BulkOrderDoc), status ∈ statuses → P doc →
      P (applyUpdate env (buildUpdateData env adminId status body) doc))
    (store : Store) (hreach : Reachable store) : ∀ doc ∈ store, P doc := by
  induction hreach with
  | empty => simp
  | create env catalog store userId body _ _ ih =>
    rcases createBulkOrder_cases env catalog store userId body with hfail | hok
    · rw [hfail.1]
      exact ih
    · obtain ⟨items, products, _, hne, _, hcast, _, _, _, hstore⟩ := hok
      have hq := castItems_quantities items products hcast
      have hne2 : products ≠ [] := by
        intro h
        rw [h] at hq
        exact hne (List.length_eq_zero.mp hq.2.symm)
      rw [hstore]
      intro doc hdoc
      rcases List.mem_append.mp hdoc with h | h
      · exact ih doc h
      · rw [List.mem_singleton.mp h]
        exact hcreate env userId _ _ _ _ _ products hne2
  | update env sendEmail store adminId orderId body _ ih =>
    rcases updateBulkOrderStatus_store env sendEmail store adminId orderId body with h | h
    · rw [h]
      exact ih
    · obtain ⟨status, _, hv, hstore⟩ := h
      rw [hstore]
      intro doc hdoc
      rcases findByIdAndUpdate_mem orderId _ store doc hdoc with hin | ⟨old, hold, _, hnew⟩
      · exact ih doc hin
      · rw [hnew]
        exact hupdate env adminId status body old hv (ih old hold)
  | delete store orderId _ ih =>
    intro doc hdoc
    exact ih doc (deleteBulkOrder_mem store orderId doc hdoc)

/-- The collection after the sample submission is reachable. -/
theorem createdStore_reachable : Reachable createdStore :=
  Reachable.create sampleEnv sampleCatalog [] "u1" sampleBody rfl Reachable.empty

/-- The collection after the approval of the sample order is reachable. -/
theorem approvedStore_reachable : Reachable approvedStore :=
  Reachable.update sampleEnv mailDelivers createdStore "u9" sampleEnv.freshId sampleApproval
    createdStore_reachable

/-- The collection after the rejection of the approved sample order is reachable. -/
theorem rejectedAfterApproval_reachable : Reachable rejectedAfterApproval :=
  Reachable.update { sampleEnv with now := sampleEnv.now + 1000 } mailDelivers approvedStore "u9"
    sampleEnv.freshId sampleRejection approvedStore_reachable

/-! ## Claims on the reachable states -/

/-- The collection after the large submission is reachable. -/
theorem largeStore_reachable : Reachable largeStore :=
  Reachable.create sampleEnv sampleCatalog [] "u1" largeBody rfl Reachable.empty

/-- In every reachable collection the `totalQuantity` of every stored order is the
left-to-right addition of the quantities of its line items, starting from 0. -/
theorem reachable_total_foldl (store : Store) (hreach : Reachable store) :
    ∀ doc ∈ store, doc.totalQuantity = (doc.products.map LineItem.quantity).foldl jsAdd 0 := by
  refine reachable_invariant
    (fun doc => doc.totalQuantity = (doc.products.map LineItem.quantity).foldl jsAdd 0)
    ?_ ?_ store hreach
  · intro env userId name phone email buyerType address products hne
    have h := preSave_totalQuantity
      (newBulkOrder env userId name phone email buyerType address products) hne
    show (preSave (newBulkOrder env userId name phone email buyerType address
      products)).totalQuantity = _
    rw [h.1, h.2.1]
  · intro env adminId status body doc _ hdoc
    exact hdoc

set_option maxRecDepth 100000 in
/-- C13, as stated, fails: the collection after the submission of the quantities
`9007199254740992`, 1 and 1 is reachable, and its order is stored with the
`totalQuantity` `9007199254740992`, while the sum of its quantities is
`9007199254740994`. -/
theorem reachable_totalQuantity_counterexample :
    Reachable largeStore ∧
    largeStore.map (fun doc => doc.products.map LineItem.quantity) =
      [[9007199254740992, 1, 1]] ∧
    largeStore.map (fun doc => doc.totalQuantity) = [9007199254740992] ∧
    (9007199254740992 : ℚ) + 1 + 1 = 9007199254740994 ∧
    largeStore.map (fun doc => doc.totalQuantity) ≠ [9007199254740994] :=
  ⟨largeStore_reachable, by decide, by decide, by norm_num, by decide⟩

/-- C13, amended: in every collection reachable from the empty one through
`createBulkOrder`, `updateBulkOrderStatus` and `deleteBulkOrder`, the `totalQuantity` of
every stored order is a function of its line items alone: the sum of their quantities
as the addition of Numbers computes it, from left to right, starting from 0. When the
quantities are natural numbers whose sum is at most `2 ^ 53`, this is their sum. -/
theorem reachable_totalQuantity (store : Store) (hreach : Reachable store) :
    ∀ doc ∈ store,
      doc.totalQuantity = (doc.products.map LineItem.quantity).foldl jsAdd 0 ∧
      ∀ counts : List Nat,
        doc.products.map LineItem.quantity =
          counts.map (fun k : Nat => JsNumber.finite (k : ℚ)) →
        counts.sum ≤ 2 ^ 53 →
        doc.totalQuantity = JsNumber.finite ((counts.sum : Nat) : ℚ) := by
  intro doc hdoc
  have htotal := reachable_total_foldl store hreach doc hdoc
  refine ⟨htotal, ?_⟩
  intro counts hcounts hle
  rw [htotal, hcounts]
  have h := foldl_jsAdd_natCast counts 0 (by omega)
  rw [Nat.zero_add] at h
  exact h

/-- The sample submission carries `totalQuantity: 99` in its body; after it and an
approval, the stored total is still the sum 5 of the quantities 2 and 3. -/
theorem reachable_totalQuantity_witness :
    Reachable approvedStore ∧ sampleBody.totalQuantity = some 99 ∧
    approvedStore.map (fun doc => (doc.products.map LineItem.quantity, doc.totalQuantity)) =
      [([2, 3], 5)] ∧
    ∀ doc ∈ approvedStore,
      doc.totalQuantity = (doc.products.map LineItem.quantity).foldl jsAdd 0 ∧
      doc.totalQuantity = JsNumber.finite (((([2, 3] : List Nat).sum : Nat)) : ℚ) := by
  refine ⟨approvedStore_reachable, rfl, by decide, ?_⟩
  intro doc hdoc
  have h := reachable_totalQuantity approvedStore approvedStore_reachable doc hdoc
  refine ⟨h.1, h.2 [2, 3] ?_ (by norm_num)⟩
  have hall : ∀ stored ∈ approvedStore, stored.products.map LineItem.quantity =
      ([2, 3] : List Nat).map (fun k : Nat => JsNumber.finite (k : ℚ)) := by
    decide
  exact hall doc hdoc

/-- C14, as stated, fails: the sample order, approved and then rejected, is stored with
status Rejected and still carries the approver and the date of its approval. -/
theorem reachable_approval_fields_counterexample :
    Reachable rejectedAfterApproval ∧
    rejectedAfterApproval.map (fun doc => (doc.status, doc.approvedBy, doc.approvedAt)) =
      [("Rejected", some "u9", some sampleEnv.now)] :=
  ⟨rejectedAfterApproval_reachable, by decide⟩

/-- C14, amended: in every reachable collection, an order whose status is Approved has
`approvedBy` and `approvedAt` non-null, and in every order `approvedBy` is null exactly
when `approvedAt` is null. -/
theorem reachable_approval_fields (store : Store) (hreach : Reachable store) :
    ∀ doc ∈ store,
      (doc.status = "Approved" → doc.approvedBy ≠ none ∧ doc.approvedAt ≠ none) ∧
      (doc.approvedBy = none ↔ doc.approvedAt = none) := by
  refine reachable_invariant
    (fun doc => (doc.status = "Approved" → doc.approvedBy ≠ none ∧ doc.approvedAt ≠ none) ∧
      (doc.approvedBy = none ↔ doc.approvedAt = none)) ?_ ?_ store hreach
  · intro env userId name phone email buyerType address products hne
    have h := preSave_totalQuantity
      (newBulkOrder env userId name phone email buyerType address products) hne
    rw [h.2.2.1, h.2.2.2.1, h.2.2.2.2]
    simp [newBulkOrder]
  · intro env adminId status body doc _ hdoc
    by_cases hs : status = "Approved"
    · subst hs
      simp [applyUpdate, buildUpdateData]
    · have hne : (status == "Approved") = false := by simpa using hs
      simpa [applyUpdate, buildUpdateData, hne, hs] using hdoc.2

/-- The approved sample order has its approver and the date of its approval. -/
theorem reachable_approval_fields_witness :
    Reachable approvedStore ∧
    approvedStore.map (fun doc => (doc.status, doc.approvedBy, doc.approvedAt)) =
      [("Approved", some "u9", some sampleEnv.now)] ∧
    ∀ doc ∈ approvedStore,
      (doc.status = "Approved" → doc.approvedBy ≠ none ∧ doc.approvedAt ≠ none) ∧
      (doc.approvedBy = none ↔ doc.approvedAt = none) :=
  ⟨approvedStore_reachable, by decide,
    reachable_approval_fields approvedStore approvedStore_reachable⟩

/-- C15: in every reachable collection the status of every stored order is Requested,
Approved or Rejected. -/
theorem reachable_status (store : Store) (hreach : Reachable store) :
    ∀ doc ∈ store,
      doc.status = "Requested" ∨ doc.status = "Approved" ∨ doc.status = "Rejected" := by
  refine reachable_invariant
    (fun doc => doc.status = "Requested" ∨ doc.status = "Approved" ∨ doc.status = "Rejected")
    ?_ ?_ store hreach
  · intro env userId name phone email buyerType address products hne
    have h := preSave_totalQuantity
      (newBulkOrder env userId name phone email buyerType address products) hne
    rw [h.2.2.1]
    exact Or.inl rfl
  · intro env adminId status body doc hv _
    have hstatus : (applyUpdate env (buildUpdateData env adminId status body) doc).status =
        status := rfl
    rw [hstatus]
    simpa [statuses] using hv

/-- The sample order, created with `status: "Approved"` in its body, approved and then
rejected: its stored status is one of the three. -/
theorem reachable_status_witness :
    Reachable rejectedAfterApproval ∧
    ∀ doc ∈ rejectedAfterApproval,
      doc.status = "Requested" ∨ doc.status = "Approved" ∨ doc.status = "Rejected" :=
  ⟨rejectedAfterApproval_reachable,
    reachable_status rejectedAfterApproval rejectedAfterApproval_reachable⟩

/-! ## Claim on the frame of `updateBulkOrderStatus` -/

/-- The write of `findByIdAndUpdate` replaces the document found, in place, and touches
no other document. -/
theorem findByIdAndUpdate_frame (id : OrderId) (f : BulkOrderDoc → BulkOrderDoc)
    (store : Store) (target : BulkOrderDoc) (h : findById id store = some target) :
    ∃ before after, store = before ++ target :: after ∧ (∀ doc ∈ before, doc.id ≠ id) ∧
      target.id = id ∧ (findByIdAndUpdate id f store).2 = before ++ f target :: after := by
  induction store with
  | nil => simp [findById] at h
  | cons first rest ih =>
    by_cases hid : (first.id == id) = true
    · have hsame : first = target := by
        simpa [findById, List.find?_cons, hid] using h
      subst hsame
      exact ⟨[], rest, rfl, by simp, by simpa using hid, by simp [findByIdAndUpdate, hid]⟩
    · simp only [Bool.not_eq_true] at hid
      have hrest : findById id rest = some target := by
        simpa [findById, List.find?_cons, hid] using h
      obtain ⟨before, after, hsplit, hbefore, htarget, hwrite⟩ := ih hrest
      refine ⟨first :: before, after, by rw [hsplit]; rfl, ?_, htarget, ?_⟩
      · intro doc hdoc
        rcases List.mem_cons.mp hdoc with rfl | hdoc
        · simpa using hid
        · exact hbefore doc hdoc
      · simp [findByIdAndUpdate, hid, hwrite]

/-- C16: `updateBulkOrderStatus` leaves the collection as it was, or replaces in place the
one order that has the id by an order that differs from it at most in `status`,
`adminNotes`, `rejectionReason`, `approvedBy`, `approvedAt` and the `updatedAt` of the
timestamps: requester, contact snapshot, buyer type, line items, `totalQuantity` and
`submittedAt` are the same, and every other order is unchanged. -/
theorem updateBulkOrderStatus_frame (env : Env) (sendEmail : Email → Except String Unit)
    (store : Store) (adminId : UserId) (orderId : OrderId) (body : UpdateBody) :
    (updateBulkOrderStatus env sendEmail store adminId orderId body).store = store ∨
    ∃ before target after updated,
      store = before ++ target :: after ∧
      (updateBulkOrderStatus env sendEmail store adminId orderId body).store =
        before ++ updated :: after ∧
      target.id = orderId ∧ (∀ doc ∈ before, doc.id ≠ orderId) ∧
      updated =
        { target with
          status := updated.status, adminNotes := updated.adminNotes
          rejectionReason := updated.rejectionReason, approvedBy := updated.approvedBy
          approvedAt := updated.approvedAt, updatedAt := updated.updatedAt } ∧
      updated.id = target.id ∧ updated.user = target.user ∧ updated.name = target.name ∧
      updated.phone = target.phone ∧ updated.email = target.email ∧
      updated.address = target.address ∧ updated.buyerType = target.buyerType ∧
      updated.products = target.products ∧ updated.totalQuantity = target.totalQuantity ∧
      updated.submittedAt = target.submittedAt := by
  rcases updateBulkOrderStatus_store env sendEmail store adminId orderId body with h | h
  · exact Or.inl h
  · obtain ⟨status, _, _, hstore⟩ := h
    cases hfind : findById orderId store with
    | none =>
      left
      rw [hstore, findByIdAndUpdate_missing orderId _ store hfind]
    | some target =>
      right
      obtain ⟨before, after, hsplit, hbefore, htarget, hwrite⟩ :=
        findByIdAndUpdate_frame orderId
          (applyUpdate env (buildUpdateData env adminId status body)) store target hfind
      exact ⟨before, target, after, applyUpdate env (buildUpdateData env adminId status body)
        target, hsplit, by rw [hstore, hwrite], htarget, hbefore, rfl, rfl, rfl, rfl, rfl, rfl,
        rfl, rfl, rfl, rfl, rfl⟩

/-- The approval of the sample order: the collection changes, and the order written in
place keeps its requester, line items, `totalQuantity` and `submittedAt`. -/
theorem updateBulkOrderStatus_frame_witness :
    approvedStore ≠ createdStore ∧
    ∃ before target after updated,
      createdStore = before ++ target :: after ∧ approvedStore = before ++ updated :: after ∧
      updated.user = target.user ∧ updated.products = target.products ∧
      updated.totalQuantity = target.totalQuantity ∧
      updated.submittedAt = target.submittedAt := by
  refine ⟨by decide, ?_⟩
  rcases updateBulkOrderStatus_frame sampleEnv mailDelivers createdStore "u9" sampleEnv.freshId
    sampleApproval with
    h | ⟨before, target, after, updated, h1, h2, _, _, _, _, hu, _, _, _, _, _, hp, ht, hs⟩
  · exact absurd h (by decide)
  · exact ⟨before, target, after, updated, h1, h2, hu, hp, ht, hs⟩

/-! ## Claims on the listings and on `getBulkOrderDetails` -/

/-- The page that the cursor returns is in the order newest submission first, and each
of its documents matches the filter. -/
theorem findPage_sorted (matching : List BulkOrderDoc) (skip limit : Int)
    (orders : List BulkOrderDoc) (h : findPage matching skip limit = some orders) :
    orders.Pairwise (fun a b => b.submittedAt ≤ a.submittedAt) ∧ ∀ doc ∈ orders, doc ∈ matching := by
  haveI : IsTotal BulkOrderDoc (fun a b => b.submittedAt ≤ a.submittedAt) :=
    ⟨fun a b => Nat.le_total _ _⟩
  haveI : IsTrans BulkOrderDoc (fun a b => b.submittedAt ≤ a.submittedAt) :=
    ⟨fun a b c hab hbc => Nat.le_trans hbc hab⟩
  unfold findPage at h
  split_ifs at h with hskip
  simp only [Option.some.injEq] at h
  subst h
  have hsub : (((sortNewestFirst matching).drop skip.toNat).take limit.natAbs).Sublist
      (sortNewestFirst matching) :=
    (List.take_sublist _ _).trans (List.drop_sublist _ _)
  have hsorted : (sortNewestFirst matching).Pairwise
      (fun a b => b.submittedAt ≤ a.submittedAt) :=
    List.sorted_insertionSort (fun a b : BulkOrderDoc => b.submittedAt ≤ a.submittedAt) matching
  constructor
  · exact List.Pairwise.sublist hsub hsorted
  · intro doc hdoc
    exact (List.perm_insertionSort _ matching).mem_iff.mp (hsub.subset hdoc)

/-- The orders that `getUserBulkOrders` lists are a page of the orders of the caller. -/
theorem getUserBulkOrders_listing (store : Store) (userId : UserId) (query : ListQuery)
    (orders : List BulkOrderDoc) (counts : Option StatusCounts) (pagination : Pagination)
    (h : (getUserBulkOrders store userId query).data = Payload.listing orders counts pagination) :
    findPage (ordersOfUser store userId)
        ((orDefault (parseInt query.page) 1 - 1) * orDefault (parseInt query.limit) 10)
        (orDefault (parseInt query.limit) 10) = some orders ∧
      pagination.total = (ordersOfUser store userId).length := by
  unfold getUserBulkOrders at h
  simp only [] at h
  split at h
  · simp [failure] at h
  · rename_i found hfound
    simp only [Payload.listing.injEq] at h
    obtain ⟨horders, _, hpag⟩ := h
    subst horders
    exact ⟨hfound, by rw [← hpag]⟩

/-- The orders that `getAllBulkOrders` lists are a page of the orders that match its
filter. -/
theorem getAllBulkOrders_listing (store : Store) (query : ListQuery)
    (orders : List BulkOrderDoc) (counts : Option StatusCounts) (pagination : Pagination)
    (h : (getAllBulkOrders store query).data = Payload.listing orders counts pagination) :
    findPage (ordersMatching store query.status)
        ((orDefault (parseInt query.page) 1 - 1) * orDefault (parseInt query.limit) 10)
        (orDefault (parseInt query.limit) 10) = some orders ∧
      pagination.total = (ordersMatching store query.status).length ∧
      counts = some (statusCountsOf store) := by
  unfold getAllBulkOrders at h
  simp only [] at h
  split at h
  · simp [failure] at h
  · rename_i found hfound
    simp only [Payload.listing.injEq] at h
    obtain ⟨horders, hcounts, hpag⟩ := h
    subst horders
    exact ⟨hfound, by rw [← hpag], hcounts.symm⟩

/-- C17: a list of orders that `getUserBulkOrders` or `getAllBulkOrders` returns is in
the order newest submission first: of any two of its orders the earlier one has the
greater or equal `submittedAt`, in particular of any two consecutive ones. -/
theorem listing_newest_first (store : Store) (userId : UserId) (query : ListQuery)
    (orders : List BulkOrderDoc) (counts : Option StatusCounts) (pagination : Pagination)
    (hlisted :
      (getUserBulkOrders store userId query).data = Payload.listing orders counts pagination ∨
      (getAllBulkOrders store query).data = Payload.listing orders counts pagination) :
    orders.Pairwise (fun a b => b.submittedAt ≤ a.submittedAt) ∧
    ∀ (i : Nat) (a b : BulkOrderDoc), orders[i]? = some a → orders[i + 1]? = some b →
      b.submittedAt ≤ a.submittedAt := by
  have hpair : orders.Pairwise (fun a b => b.submittedAt ≤ a.submittedAt) := by
    rcases hlisted with h | h
    · exact (findPage_sorted _ _ _ orders
        (getUserBulkOrders_listing store userId query orders counts pagination h).1).1
    · exact (findPage_sorted _ _ _ orders
        (getAllBulkOrders_listing store query orders counts pagination h).1).1
  refine ⟨hpair, ?_⟩
  intro i a b ha hb
  obtain ⟨hi, hai⟩ := List.getElem?_eq_some.mp ha
  obtain ⟨hj, hbj⟩ := List.getElem?_eq_some.mp hb
  have := List.pairwise_iff_getElem.mp hpair i (i + 1) hi hj (Nat.lt_succ_self i)
  rw [hai, hbj] at this
  exact this

/-- The second page of ten of the fifteen orders of `u1`: the five oldest, newest
first. -/
theorem listing_newest_first_witness :
    (getUserBulkOrders fifteenOrders "u1" secondPage).data =
      Payload.listing ((List.range 5).reverse.map (sampleOrder "u1")) none
        (Pagination.mk 2 10 15 2) ∧
    ((List.range 5).reverse.map (sampleOrder "u1")).map (fun doc => doc.submittedAt) =
      [1004, 1003, 1002, 1001, 1000] ∧
    ((List.range 5).reverse.map (sampleOrder "u1")).Pairwise
      (fun a b => b.submittedAt ≤ a.submittedAt) :=
  ⟨by decide, by decide,
    (listing_newest_first fifteenOrders "u1" secondPage
      ((List.range 5).reverse.map (sampleOrder "u1")) none (Pagination.mk 2 10 15 2)
      (Or.inl (by decide))).1⟩

/-- C18: the orders that `getUserBulkOrders` lists are stored orders of the caller, the
total it reports is the number of the orders of the caller, and its response is the
same on every collection that holds the same orders of the caller. -/
theorem getUserBulkOrders_only_own (store other : Store) (userId : UserId) (query : ListQuery)
    (orders : List BulkOrderDoc) (counts : Option StatusCounts) (pagination : Pagination)
    (hlisted :
      (getUserBulkOrders store userId query).data = Payload.listing orders counts pagination)
    (hsame : ordersOfUser other userId = ordersOfUser store userId) :
    (∀ doc ∈ orders, doc.user = userId ∧ doc ∈ store) ∧
    pagination.total = (store.filter (fun doc => doc.user == userId)).length ∧
    getUserBulkOrders other userId query = getUserBulkOrders store userId query := by
  have h := getUserBulkOrders_listing store userId query orders counts pagination hlisted
  refine ⟨?_, h.2, ?_⟩
  · intro doc hdoc
    have hmem := (findPage_sorted _ _ _ orders h.1).2 doc hdoc
    have hfilter := List.mem_filter.mp hmem
    exact ⟨by simpa using hfilter.2, hfilter.1⟩
  · unfold getUserBulkOrders
    rw [hsame]

/-- The second page of the orders of `u1` is the same with and without the two orders
of `u2` in the collection. -/
theorem getUserBulkOrders_only_own_witness :
    ordersOfUser ordersOfOne "u1" = ordersOfUser fifteenOrders "u1" ∧
    ordersOfOne ≠ fifteenOrders ∧
    (∀ doc ∈ (List.range 5).reverse.map (sampleOrder "u1"),
      doc.user = "u1" ∧ doc ∈ fifteenOrders) ∧
    (Pagination.mk 2 10 15 2).total =
      (fifteenOrders.filter (fun doc => doc.user == "u1")).length ∧
    getUserBulkOrders ordersOfOne "u1" secondPage =
      getUserBulkOrders fifteenOrders "u1" secondPage :=
  ⟨by decide, by decide,
    getUserBulkOrders_only_own fifteenOrders ordersOfOne "u1" secondPage
      ((List.range 5).reverse.map (sampleOrder "u1")) none (Pagination.mk 2 10 15 2)
      (by decide) (by decide)⟩

/-- C19, as stated, fails: no stored order has the id `zz`, which is not the text of an
ObjectId, so `findOne` throws a `CastError` and `getBulkOrderDetails` answers with status
500, while the order `u2a` of another requester is answered with the not-found failure
of status 404: the two answers differ. -/
theorem getBulkOrderDetails_owner_only_counterexample :
    findById "zz" fifteenOrders = none ∧
    getBulkOrderDetails fifteenOrders "u1" "zz" = failure 500 (castErrorMessage "zz") ∧
    (getBulkOrderDetails fifteenOrders "u1" "zz").status = 500 ∧
    getBulkOrderDetails fifteenOrders "u1" "u2a" = failure 404 "Bulk order not found" ∧
    getBulkOrderDetails fifteenOrders "u1" "u2a" ≠ getBulkOrderDetails fifteenOrders "u1" "zz" := by
  decide

/-- C19, amended: `getBulkOrderDetails` returns an order exactly when a stored order has
the id and the caller as requester, and it is then such an order. Otherwise the answer
is the not-found failure of status 404 when the id is held by an order of another
requester or is the text of an ObjectId (24 hexadecimal digits) that no order has, the
same in both cases, and the failure of status 500 with the message of the `CastError`
when no order has the id and it is not the text of an ObjectId. -/
theorem getBulkOrderDetails_owner_only (store : Store) (userId : UserId) (orderId : OrderId) :
    ((∃ doc ∈ store, doc.id = orderId ∧ doc.user = userId) ↔
      ∃ doc, (getBulkOrderDetails store userId orderId).data = Payload.order doc) ∧
    ((getBulkOrderDetails store userId orderId = failure 404 "Bulk order not found" ∧
        (¬ ∃ doc ∈ store, doc.id = orderId ∧ doc.user = userId) ∧
        ((∃ doc ∈ store, doc.id = orderId) ∨ isObjectIdString orderId = true)) ∨
      (getBulkOrderDetails store userId orderId = failure 500 (castErrorMessage orderId) ∧
        (¬ ∃ doc ∈ store, doc.id = orderId) ∧ isObjectIdString orderId = false) ∨
      ∃ doc ∈ store, doc.id = orderId ∧ doc.user = userId ∧
        (getBulkOrderDetails store userId orderId).status = 200 ∧
        (getBulkOrderDetails store userId orderId).success = true ∧
        (getBulkOrderDetails store userId orderId).data = Payload.order doc) := by
  by_cases hc : castsToObjectId store orderId = true
  · cases hfind : findOwned orderId userId store with
    | none =>
      have hnone : ¬ ∃ doc ∈ store, doc.id = orderId ∧ doc.user = userId := by
        rintro ⟨doc, hdoc, hid, huser⟩
        have := List.find?_eq_none.mp hfind doc hdoc
        simp [hid, huser] at this
      have hresp : getBulkOrderDetails store userId orderId =
          failure 404 "Bulk order not found" := by
        simp [getBulkOrderDetails, hc, hfind]
      have hwhy : (∃ doc ∈ store, doc.id = orderId) ∨ isObjectIdString orderId = true := by
        simp only [castsToObjectId, Bool.or_eq_true, List.any_eq_true, beq_iff_eq] at hc
        rcases hc with h | h
        · exact Or.inr h
        · exact Or.inl h
      refine ⟨⟨fun h => (hnone h).elim, ?_⟩, Or.inl ⟨hresp, hnone, hwhy⟩⟩
      rintro ⟨doc, hdoc⟩
      rw [hresp] at hdoc
      simp [failure] at hdoc
    | some found =>
      have hmem : found ∈ store := List.mem_of_find?_eq_some hfind
      have hp := List.find?_some hfind
      simp only [Bool.and_eq_true, beq_iff_eq] at hp
      have hresp : (getBulkOrderDetails store userId orderId).data = Payload.order found := by
        simp [getBulkOrderDetails, hc, hfind]
      refine ⟨⟨fun _ => ⟨found, hresp⟩, fun _ => ⟨found, hmem, hp.1, hp.2⟩⟩,
        Or.inr (Or.inr ⟨found, hmem, hp.1, hp.2, ?_, ?_, hresp⟩)⟩
      · simp [getBulkOrderDetails, hc, hfind]
      · simp [getBulkOrderDetails, hc, hfind]
  · have hfalse : castsToObjectId store orderId = false := by simpa using hc
    have hparts : isObjectIdString orderId = false ∧
        ¬ ∃ doc ∈ store, doc.id = orderId := by
      simp only [castsToObjectId, Bool.or_eq_false_iff, List.any_eq_false, beq_iff_eq] at hfalse
      refine ⟨hfalse.1, ?_⟩
      rintro ⟨doc, hdoc, hid⟩
      exact hfalse.2 doc hdoc hid
    have hresp : getBulkOrderDetails store userId orderId =
        failure 500 (castErrorMessage orderId) := by
      simp [getBulkOrderDetails, hfalse]
    refine ⟨⟨?_, ?_⟩, Or.inr (Or.inl ⟨hresp, hparts.2, hparts.1⟩)⟩
    · rintro ⟨doc, hdoc, hid, _⟩
      exact (hparts.2 ⟨doc, hdoc, hid⟩).elim
    · rintro ⟨doc, hdoc⟩
      rw [hresp] at hdoc
      simp [failure] at hdoc

/-- The concrete answers of `getBulkOrderDetails` on the collection of seventeen orders:
the order `u2a` of the requester `u2` is not found by `u1`, with the answer given for
the text of an ObjectId that no order has, and is returned to `u2`. -/
theorem getBulkOrderDetails_owner_only_witness :
    getBulkOrderDetails fifteenOrders "u1" "u2a" = failure 404 "Bulk order not found" ∧
    getBulkOrderDetails fifteenOrders "u1" "u2a" =
      getBulkOrderDetails fifteenOrders "u1" "665f1c2ab3d4e5f6012345ff" ∧
    (getBulkOrderDetails fifteenOrders "u2" "u2a").data = Payload.order (sampleOrder "u2" 0) ∧
    ((∃ doc ∈ fifteenOrders, doc.id = "u2a" ∧ doc.user = "u1") ↔
      ∃ doc, (getBulkOrderDetails fifteenOrders "u1" "u2a").data = Payload.order doc) :=
  ⟨by decide, by decide, by decide, (getBulkOrderDetails_owner_only fifteenOrders "u1" "u2a").1⟩

/-! ## Claim on the status counts -/

/-- Writing groups whose keys are among the three statuses into an object that has the
three keys keeps the three keys, each with the value written last for it. -/
theorem foldl_setCount_three (groups : List (String × Nat)) (a b c : Nat)
    (hkeys : ∀ g ∈ groups, g.1 ∈ statuses) :
    groups.foldl (fun counts item => setCount item.1 item.2 counts)
        [("Requested", a), ("Approved", b), ("Rejected", c)] =
      [("Requested", groups.foldl (fun acc item => if item.1 = "Requested" then item.2 else acc) a),
       ("Approved", groups.foldl (fun acc item => if item.1 = "Approved" then item.2 else acc) b),
       ("Rejected", groups.foldl (fun acc item => if item.1 = "Rejected" then item.2 else acc) c)] := by
  induction groups generalizing a b c with
  | nil => rfl
  | cons g rest ih =>
    have hrest : ∀ x ∈ rest, x.1 ∈ statuses := fun x hx => hkeys x (List.mem_cons_of_mem _ hx)
    have hg : g.1 = "Requested" ∨ g.1 = "Approved" ∨ g.1 = "Rejected" := by
      simpa [statuses] using hkeys g (List.mem_cons_self _ _)
    obtain ⟨k, v⟩ := g
    simp only at hg
    rcases hg with rfl | rfl | rfl
    · simp only [List.foldl_cons]
      have hset : setCount "Requested" v [("Requested", a), ("Approved", b), ("Rejected", c)] =
          [("Requested", v), ("Approved", b), ("Rejected", c)] := by
        simp [setCount]
      rw [hset, ih v b c hrest]
      simp
    · simp only [List.foldl_cons]
      have hset : setCount "Approved" v [("Requested", a), ("Approved", b), ("Rejected", c)] =
          [("Requested", a), ("Approved", v), ("Rejected", c)] := by
        simp [setCount]
      rw [hset, ih a v c hrest]
      simp
    · simp only [List.foldl_cons]
      have hset : setCount "Rejected" v [("Requested", a), ("Approved", b), ("Rejected", c)] =
          [("Requested", a), ("Approved", b), ("Rejected", v)] := by
        simp [setCount]
      rw [hset, ih a b v hrest]
      simp

/-- The value written last for a key by groups that carry, for each key, a value that
depends on the key alone. -/
theorem foldl_lastWrite (value : String → Nat) (keys : List String) (key : String) (start : Nat) :
    (keys.map (fun k => (k, value k))).foldl
        (fun acc item => if item.1 = key then item.2 else acc) start =
      if key ∈ keys then value key else start := by
  induction keys generalizing start with
  | nil => simp
  | cons k rest ih =>
    simp only [List.map_cons, List.foldl_cons, ih, List.mem_cons]
    by_cases hk : k = key
    · subst hk
      by_cases hin : k ∈ rest <;> simp [hin]
    · have hk2 : ¬ key = k := fun h => hk h.symm
      by_cases hin : key ∈ rest <;> simp [hin, hk, hk2]

/-- The object `counts` on a collection whose orders have statuses of the schema: the
three keys, each with the number of orders of that status. -/
theorem statusCountsOf_eq (store : Store) (hschema : ∀ doc ∈ store, doc.status ∈ statuses) :
    statusCountsOf store =
      [("Requested", store.countP (fun doc => doc.status == "Requested")),
       ("Approved", store.countP (fun doc => doc.status == "Approved")),
       ("Rejected", store.countP (fun doc => doc.status == "Rejected"))] := by
  have hkeys : ∀ g ∈ groupByStatus store, g.1 ∈ statuses := by
    intro g hg
    simp only [groupByStatus, List.mem_map, List.mem_dedup] at hg
    obtain ⟨k, ⟨doc, hdoc, hk⟩, rfl⟩ := hg
    rw [← hk]
    exact hschema doc hdoc
  have hcount : ∀ key : String,
      (groupByStatus store).foldl (fun acc item => if item.1 = key then item.2 else acc) 0 =
        store.countP (fun doc => doc.status == key) := by
    intro key
    have h := foldl_lastWrite (fun k => (store.map (fun doc => doc.status)).count k)
      (store.map (fun doc => doc.status)).dedup key 0
    simp only [groupByStatus]
    rw [h]
    have hmap : (store.map (fun doc => doc.status)).count key =
        store.countP (fun doc => doc.status == key) := by
      rw [List.count_eq_countP, List.countP_map]
      rfl
    by_cases hin : key ∈ (store.map (fun doc => doc.status)).dedup
    · rw [if_pos hin, hmap]
    · rw [if_neg hin, ← hmap]
      exact (List.count_eq_zero_of_not_mem (fun hmem => hin (List.mem_dedup.mpr hmem))).symm
  unfold statusCountsOf
  rw [foldl_setCount_three (groupByStatus store) 0 0 0 hkeys, hcount, hcount, hcount]

/-- C20: on a collection whose orders have statuses of the schema, the `statusCounts` of
`getBulkOrderAnalytics` and of `getAllBulkOrders` has exactly the keys Requested,
Approved and Rejected, each with the number of stored orders of that status (0 when
there is none). -/
theorem statusCounts_exact (env : Env) (store : Store) (query : ListQuery)
    (hschema : ∀ doc ∈ store, doc.status ∈ statuses) :
    (∃ figures, (getBulkOrderAnalytics env store).data = Payload.analytics figures ∧
      figures.statusCounts =
        [("Requested", store.countP (fun doc => doc.status == "Requested")),
         ("Approved", store.countP (fun doc => doc.status == "Approved")),
         ("Rejected", store.countP (fun doc => doc.status == "Rejected"))]) ∧
    (∀ orders counts pagination,
      (getAllBulkOrders store query).data = Payload.listing orders counts pagination →
      counts = some
        [("Requested", store.countP (fun doc => doc.status == "Requested")),
         ("Approved", store.countP (fun doc => doc.status == "Approved")),
         ("Rejected", store.countP (fun doc => doc.status == "Rejected"))]) := by
  have hcounts := statusCountsOf_eq store hschema
  constructor
  · exact ⟨_, rfl, hcounts⟩
  · intro orders counts pagination hlisted
    rw [(getAllBulkOrders_listing store query orders counts pagination hlisted).2.2, hcounts]

/-- Two Requested orders, one Approved and no Rejected one: the counts are 2, 1 and 0,
in the analytics and in the listing of all orders. -/
theorem statusCounts_exact_witness :
    (∀ doc ∈ mixedStore, doc.status ∈ statuses) ∧
    (getBulkOrderAnalytics sampleEnv mixedStore).status = 200 ∧
    (getAllBulkOrders mixedStore secondPage).status = 200 ∧
    [("Requested", mixedStore.countP (fun doc => doc.status == "Requested")),
      ("Approved", mixedStore.countP (fun doc => doc.status == "Approved")),
      ("Rejected", mixedStore.countP (fun doc => doc.status == "Rejected"))] =
      [("Requested", 2), ("Approved", 1), ("Rejected", 0)] ∧
    (∃ figures, (getBulkOrderAnalytics sampleEnv mixedStore).data = Payload.analytics figures ∧
      figures.statusCounts =
        [("Requested", mixedStore.countP (fun doc => doc.status == "Requested")),
         ("Approved", mixedStore.countP (fun doc => doc.status == "Approved")),
         ("Rejected", mixedStore.countP (fun doc => doc.status == "Rejected"))]) ∧
    (∀ orders counts pagination,
      (getAllBulkOrders mixedStore secondPage).data = Payload.listing orders counts pagination →
      counts = some
        [("Requested", mixedStore.countP (fun doc => doc.status == "Requested")),
         ("Approved", mixedStore.countP (fun doc => doc.status == "Approved")),
         ("Rejected", mixedStore.countP (fun doc => doc.status == "Rejected"))]) :=
  ⟨by decide, by decide, by decide, by decide,
    statusCounts_exact sampleEnv mixedStore secondPage (by decide)⟩

/-! ## Claims on `getBulkOrderAnalytics` -/

/-- The collection of the two uneven submissions is reachable. -/
theorem unevenStore_reachable : Reachable unevenStore :=
  Reachable.create sameInstantEnv sampleCatalog _ "u2" _ (by decide)
    (Reachable.create sampleEnv sampleCatalog [] "u1" _ rfl Reachable.empty)

/-- The figure `totalQuantity` of the analytics is the result of the accumulator `$sum`
over the stored totals, with `0` in the place of a result that is `0` or NaN. -/
theorem analytics_total_eq (env : Env) (store : Store) :
    (getBulkOrderAnalytics env store).data = Payload.analytics
      { statusCounts := statusCountsOf store
        recentOrders := (store.filter (fun doc =>
          decide ((env.now : Int) - thirtyDays ≤ (doc.submittedAt : Int)))).length
        totalQuantity :=
          orDefaultNumber (some (sumNumbers (store.map (fun doc => doc.totalQuantity)))) 0
        buyerTypes := groupByBuyerType store
        totalOrders :=
          ((statusCountsOf store).map (fun entry => entry.2)).foldl (fun a b => a + b) 0 } := by
  cases store with
  | nil =>
    simp only [getBulkOrderAnalytics, sumTotalQuantity, List.isEmpty_nil, if_true,
      List.head?_nil, List.map_nil]
    rfl
  | cons first rest =>
    simp only [getBulkOrderAnalytics, sumTotalQuantity, List.isEmpty_cons, Bool.false_eq_true,
      if_false, List.head?_cons]

/-- The expression `n || 0` keeps a natural number. -/
theorem orDefaultNumber_natCast (k : Nat) :
    orDefaultNumber (some (JsNumber.finite (k : ℚ))) 0 = JsNumber.finite (k : ℚ) := by
  by_cases hk : k = 0
  · subst hk
    rfl
  · have hne : (JsNumber.finite (k : ℚ) != 0) = true := by
      simp only [bne_iff_ne, ne_eq]
      intro h
      have h2 : (k : ℚ) = ((0 : Nat) : ℚ) := JsNumber.finite.inj h
      exact hk (by exact_mod_cast h2)
    have hnan : (JsNumber.finite (k : ℚ) != JsNumber.nan) = true := by
      simp
    simp [orDefaultNumber, truthyNum, hne, hnan]

set_option maxRecDepth 100000 in
/-- C21, as stated, fails, in both of its parts. The reachable collection of two orders
with the totals `9007199254740992` and 1 has the figure `9007199254740992`, not the sum
`9007199254740993` of the two stored totals, which is no Number. The reachable
collection of the one order with the quantities `9007199254740992`, 1 and 1 has the
figure `9007199254740992`, not the sum `9007199254740994` of its quantities. -/
theorem analytics_totalQuantity_counterexample :
    Reachable unevenStore ∧
    unevenStore.map (fun doc => doc.totalQuantity) = [9007199254740992, 1] ∧
    (getBulkOrderAnalytics laterEnv unevenStore).data =
      Payload.analytics
        { statusCounts := [("Requested", 2), ("Approved", 0), ("Rejected", 0)]
          recentOrders := 0, totalQuantity := 9007199254740992
          buyerTypes := [("Shop", 2)], totalOrders := 2 } ∧
    (9007199254740992 : ℚ) + 1 = 9007199254740993 ∧
    (9007199254740992 : JsNumber) ≠ 9007199254740993 ∧
    Reachable largeStore ∧
    largeStore.map (fun doc => doc.products.map LineItem.quantity) =
      [[9007199254740992, 1, 1]] ∧
    (getBulkOrderAnalytics laterEnv largeStore).data =
      Payload.analytics
        { statusCounts := [("Requested", 1), ("Approved", 0), ("Rejected", 0)]
          recentOrders := 0, totalQuantity := 9007199254740992
          buyerTypes := [("Shop", 1)], totalOrders := 1 } ∧
    (9007199254740992 : ℚ) + 1 + 1 = 9007199254740994 ∧
    (9007199254740992 : JsNumber) ≠ 9007199254740994 :=
  ⟨unevenStore_reachable, by decide, by decide, by norm_num, by decide,
    largeStore_reachable, by decide, by decide, by norm_num, by decide⟩

/-- C21, amended: the `totalQuantity` of `getBulkOrderAnalytics` is 0 on the empty
collection. When the stored totals are natural numbers whose sum is at most `2 ^ 53`,
it is the sum of `totalQuantity` over the stored orders; on a reachable collection
whose quantities are natural numbers with a sum, over all line items of all stored
orders, of at most `2 ^ 53`, it is that sum. In general it is the one Number that the
accumulator `$sum` returns for the stored totals, with 0 for a result of 0 or NaN. -/
theorem analytics_totalQuantity (env : Env) (store : Store) :
    ∃ figures, (getBulkOrderAnalytics env store).data = Payload.analytics figures ∧
      (getBulkOrderAnalytics env store).status = 200 ∧
      figures.totalQuantity =
        orDefaultNumber (some (sumNumbers (store.map (fun doc => doc.totalQuantity)))) 0 ∧
      (store = [] → figures.totalQuantity = 0) ∧
      (∀ totals : List Nat,
        store.map (fun doc => doc.totalQuantity) =
          totals.map (fun k : Nat => JsNumber.finite (k : ℚ)) →
        totals.sum ≤ 2 ^ 53 →
        figures.totalQuantity = JsNumber.finite ((totals.sum : Nat) : ℚ)) ∧
      (Reachable store → ∀ counts : List (List Nat),
        store.map (fun doc => doc.products.map LineItem.quantity) =
          counts.map (fun row => row.map (fun k : Nat => JsNumber.finite (k : ℚ))) →
        (counts.map List.sum).sum ≤ 2 ^ 53 →
        figures.totalQuantity = JsNumber.finite (((counts.map List.sum).sum : Nat) : ℚ)) := by
  have hexact : ∀ totals : List Nat,
      store.map (fun doc => doc.totalQuantity) =
        totals.map (fun k : Nat => JsNumber.finite (k : ℚ)) →
      totals.sum ≤ 2 ^ 53 →
      orDefaultNumber (some (sumNumbers (store.map (fun doc => doc.totalQuantity)))) 0 =
        JsNumber.finite ((totals.sum : Nat) : ℚ) := by
    intro totals htotals hle
    rw [htotals, sumNumbers_natCast totals hle, orDefaultNumber_natCast]
  refine ⟨_, analytics_total_eq env store, rfl, rfl, ?_, hexact, ?_⟩
  · intro hempty
    rw [hempty]
    rfl
  · intro hreach counts hcounts hle
    have hinv := reachable_total_foldl store hreach
    have hrows : ∀ (docs : List BulkOrderDoc) (rows : List (List Nat)),
        (∀ doc ∈ docs, doc.totalQuantity =
          (doc.products.map LineItem.quantity).foldl jsAdd 0) →
        docs.map (fun doc => doc.products.map LineItem.quantity) =
          rows.map (fun row => row.map (fun k : Nat => JsNumber.finite (k : ℚ))) →
        (rows.map List.sum).sum ≤ 2 ^ 53 →
        docs.map (fun doc => doc.totalQuantity) =
          (rows.map List.sum).map (fun k : Nat => JsNumber.finite (k : ℚ)) := by
      intro docs
      induction docs with
      | nil =>
        intro rows _ hmap _
        cases rows with
        | nil => rfl
        | cons row rest => simp at hmap
      | cons doc docs ih =>
        intro rows hall hmap hbound
        cases rows with
        | nil => simp at hmap
        | cons row rest =>
          simp only [List.map_cons, List.cons.injEq, List.sum_cons] at hmap hbound ⊢
          refine ⟨?_, ih rest (fun d hd => hall d (List.mem_cons_of_mem _ hd)) hmap.2
            (by omega)⟩
          rw [hall doc (List.mem_cons_self _ _), hmap.1]
          have h := foldl_jsAdd_natCast row 0 (by omega)
          rw [Nat.zero_add] at h
          exact h
    exact hexact (counts.map List.sum) (hrows store counts hinv hcounts hle) hle

/-- The analytics after the sample submission and its approval: the total is 5, the
sum of the quantities 2 and 3, and it is 0 on the empty collection. -/
theorem analytics_totalQuantity_witness :
    Reachable approvedStore ∧
    (getBulkOrderAnalytics sampleEnv approvedStore).data =
      Payload.analytics
        { statusCounts := [("Requested", 0), ("Approved", 1), ("Rejected", 0)]
          recentOrders := 1, totalQuantity := 5, buyerTypes := [("Shop", 1)], totalOrders := 1 } ∧
    (getBulkOrderAnalytics sampleEnv []).data =
      Payload.analytics
        { statusCounts := [("Requested", 0), ("Approved", 0), ("Rejected", 0)]
          recentOrders := 0, totalQuantity := 0, buyerTypes := [], totalOrders := 0 } ∧
    ∃ figures, (getBulkOrderAnalytics sampleEnv approvedStore).data = Payload.analytics figures ∧
      (getBulkOrderAnalytics sampleEnv approvedStore).status = 200 ∧
      figures.totalQuantity = JsNumber.finite (((([5] : List Nat).sum : Nat)) : ℚ) ∧
      figures.totalQuantity =
        JsNumber.finite ((((([[2, 3]] : List (List Nat)).map List.sum).sum : Nat)) : ℚ) := by
  obtain ⟨figures, hdata, hstatus, _, _, htotals, hcounts⟩ :=
    analytics_totalQuantity sampleEnv approvedStore
  exact ⟨approvedStore_reachable, by decide, by decide, figures, hdata, hstatus,
    htotals [5] (by decide) (by norm_num),
    hcounts approvedStore_reachable [[2, 3]] (by decide) (by norm_num)⟩

/-- C22: the `recentOrders` of `getBulkOrderAnalytics` is the number of stored orders
whose `submittedAt` is at or after the time of the call minus thirty days, and thirty
days are 2,592,000,000 milliseconds. -/
theorem analytics_recentOrders (env : Env) (store : Store) :
    thirtyDays = 2592000000 ∧
    ∃ figures, (getBulkOrderAnalytics env store).data = Payload.analytics figures ∧
      figures.recentOrders =
        store.countP (fun doc => decide ((env.now : Int) - 2592000000 ≤ (doc.submittedAt : Int))) := by
  have hdays : thirtyDays = 2592000000 := by decide
  refine ⟨hdays, _, rfl, ?_⟩
  simp only [List.countP_eq_length_filter, hdays]

/-- Thirty-one days after the sample order was submitted it is no longer recent; at the
time of its submission it is. -/
theorem analytics_recentOrders_witness :
    (createdStore.map (fun doc => doc.submittedAt) = [sampleEnv.now]) ∧
    laterEnv.now = sampleEnv.now + 2592000000 + 86400000 ∧
    createdStore.countP
      (fun doc => decide ((laterEnv.now : Int) - 2592000000 ≤ (doc.submittedAt : Int))) = 0 ∧
    createdStore.countP
      (fun doc => decide ((sampleEnv.now : Int) - 2592000000 ≤ (doc.submittedAt : Int))) = 1 ∧
    ∃ figures, (getBulkOrderAnalytics laterEnv createdStore).data = Payload.analytics figures ∧
      figures.recentOrders =
        createdStore.countP
          (fun doc => decide ((laterEnv.now : Int) - 2592000000 ≤ (doc.submittedAt : Int))) :=
  ⟨by decide, by decide, by decide, by decide,
    (analytics_recentOrders laterEnv createdStore).2⟩

/-! ## Claims on the annotations of `updateBulkOrderStatus` -/

/-- C23: an update with status Approved never writes a rejection reason: `updateData`
has no `rejectionReason`, whatever the request supplies, and the stored order keeps the
rejection reason it had. -/
theorem updateBulkOrderStatus_approved_ignores_reason (env : Env)
    (sendEmail : Email → Except String Unit) (store : Store) (adminId : UserId)
    (orderId : OrderId) (body : UpdateBody) (doc : BulkOrderDoc)
    (hfound : findById orderId store = some doc) (hstatus : body.status = some "Approved") :
    (buildUpdateData env adminId "Approved" body).rejectionReason = none ∧
    ∃ updated,
      findById orderId (updateBulkOrderStatus env sendEmail store adminId orderId body).store =
        some updated ∧
      (updateBulkOrderStatus env sendEmail store adminId orderId body).response.data =
        Payload.order updated ∧
      updated.status = "Approved" ∧ updated.rejectionReason = doc.rejectionReason := by
  have h := updateBulkOrderStatus_found env sendEmail store adminId orderId body "Approved" doc
    hstatus (by decide) hfound
  have hnone : (buildUpdateData env adminId "Approved" body).rejectionReason = none := by
    simp [buildUpdateData]
  refine ⟨hnone, _, h.2.2.1, by rw [h.1], rfl, ?_⟩
  simp [applyUpdate, hnone]

/-- The rejected sample order is approved again by a request that carries the reason
"too large": the stored reason stays "out of stock". -/
theorem updateBulkOrderStatus_approved_ignores_reason_witness :
    approvalWithReason.rejectionReason = some "too large" ∧
    (findById sampleEnv.freshId rejectedAfterApproval).map (fun doc => doc.rejectionReason) =
      some "out of stock" ∧
    (findById sampleEnv.freshId (updateBulkOrderStatus laterEnv mailDelivers
        rejectedAfterApproval "u9" sampleEnv.freshId approvalWithReason).store).map
      (fun doc => (doc.status, doc.rejectionReason)) = some ("Approved", "out of stock") ∧
    (buildUpdateData laterEnv "u9" "Approved" approvalWithReason).rejectionReason = none :=
  ⟨rfl, by decide, by decide,
    (updateBulkOrderStatus_approved_ignores_reason laterEnv mailDelivers rejectedAfterApproval
      "u9" sampleEnv.freshId approvalWithReason
      ((findById sampleEnv.freshId rejectedAfterApproval).getD (sampleOrder "u1" 0))
      (by decide) rfl).1⟩

/-- C24, as stated, fails: the approved sample order carries the notes "call the buyer";
an update whose notes are three spaces, a non-empty text, stores empty notes: the
stored notes are not the supplied text, and the notes already stored are cleared. -/
theorem updateBulkOrderStatus_adminNotes_counterexample :
    (findById sampleEnv.freshId approvedStore).map (fun doc => doc.adminNotes) =
      some "call the buyer" ∧
    blankNotes.adminNotes = some "   " ∧
    (updateBulkOrderStatus laterEnv mailDelivers approvedStore "u9" sampleEnv.freshId
      blankNotes).response.status = 200 ∧
    (findById sampleEnv.freshId (updateBulkOrderStatus laterEnv mailDelivers approvedStore "u9"
      sampleEnv.freshId blankNotes).store).map (fun doc => doc.adminNotes) = some "" := by
  decide

/-- C24, amended: for an existing order and each of the three statuses, an update that
supplies non-empty notes stores them trimmed of leading and trailing white space (the
`trim` setter of the schema path), so notes that neither start nor end with white space
are stored as supplied; an update whose notes are absent or empty leaves the stored
notes unchanged. -/
theorem updateBulkOrderStatus_adminNotes (env : Env) (sendEmail : Email → Except String Unit)
    (store : Store) (adminId : UserId) (orderId : OrderId) (body : UpdateBody)
    (status : String) (doc : BulkOrderDoc)
    (hfound : findById orderId store = some doc) (hstatus : body.status = some status)
    (hvalid : status ∈ statuses) :
    ∃ updated,
      findById orderId (updateBulkOrderStatus env sendEmail store adminId orderId body).store =
        some updated ∧
      (updateBulkOrderStatus env sendEmail store adminId orderId body).response.data =
        Payload.order updated ∧
      (∀ notes, body.adminNotes = some notes → notes ≠ "" →
        updated.adminNotes = jsTrim notes ∧
        ((∀ c, notes.data.head? = some c → isJsWhiteSpace c = false) →
          (∀ c, notes.data.getLast? = some c → isJsWhiteSpace c = false) →
          updated.adminNotes = notes)) ∧
      (body.adminNotes = none ∨ body.adminNotes = some "" →
        updated.adminNotes = doc.adminNotes) := by
  have h := updateBulkOrderStatus_found env sendEmail store adminId orderId body status doc
    hstatus hvalid hfound
  refine ⟨_, h.2.2.1, by rw [h.1], ?_, ?_⟩
  · intro notes hnotes hne
    have hstored : (applyUpdate env (buildUpdateData env adminId status body) doc).adminNotes =
        jsTrim notes := by
      simp [applyUpdate, buildUpdateData, hnotes, truthyStr, hne]
    refine ⟨hstored, ?_⟩
    intro hhead hlast
    rw [hstored]
    unfold jsTrim
    rw [trimChars_eq_self notes.data hhead hlast]
  · intro habsent
    rcases habsent with hnone | hempty
    · simp [applyUpdate, buildUpdateData, hnone, truthyStr]
    · simp [applyUpdate, buildUpdateData, hempty, truthyStr]

/-- The approval of the sample order with the notes "call the buyer", which are stored
as supplied, and its rejection without notes, which keeps them. -/
theorem updateBulkOrderStatus_adminNotes_witness :
    sampleApproval.adminNotes = some "call the buyer" ∧
    (findById sampleEnv.freshId approvedStore).map (fun doc => doc.adminNotes) =
      some "call the buyer" ∧
    sampleRejection.adminNotes = none ∧
    (findById sampleEnv.freshId rejectedAfterApproval).map (fun doc => doc.adminNotes) =
      some "call the buyer" ∧
    ∃ updated,
      findById sampleEnv.freshId (updateBulkOrderStatus sampleEnv mailDelivers createdStore "u9"
        sampleEnv.freshId sampleApproval).store = some updated ∧
      (updateBulkOrderStatus sampleEnv mailDelivers createdStore "u9" sampleEnv.freshId
        sampleApproval).response.data = Payload.order updated ∧
      (∀ notes, sampleApproval.adminNotes = some notes → notes ≠ "" →
        updated.adminNotes = jsTrim notes ∧
        ((∀ c, notes.data.head? = some c → isJsWhiteSpace c = false) →
          (∀ c, notes.data.getLast? = some c → isJsWhiteSpace c = false) →
          updated.adminNotes = notes)) ∧
      (sampleApproval.adminNotes = none ∨ sampleApproval.adminNotes = some "" →
        updated.adminNotes =
          ((findById sampleEnv.freshId createdStore).getD (sampleOrder "u1" 0)).adminNotes) :=
  ⟨rfl, by decide, rfl, by decide,
    updateBulkOrderStatus_adminNotes sampleEnv mailDelivers createdStore "u9" sampleEnv.freshId
      sampleApproval "Approved"
      ((findById sampleEnv.freshId createdStore).getD (sampleOrder "u1" 0))
      (by decide) rfl (by decide)⟩

/-! ## Claim on the notification of `updateBulkOrderStatus` -/

/-- C25: `updateBulkOrderStatus` attempts no email when the status is not one of the
three or no order has the id; otherwise it attempts exactly one, composed from the
order as stored after the write, sent to the contact email of the order, with the
subject `Bulk Order <status> - <order id>`; its body has the paragraph of the rejection
reason when the status is Rejected and a reason is supplied, and is otherwise the body
of the same request without a reason. -/
theorem updateBulkOrderStatus_notification (env : Env) (sendEmail : Email → Except String Unit)
    (store : Store) (adminId : UserId) (orderId : OrderId) (body : UpdateBody) :
    (((∀ status, body.status = some status → status ∉ statuses) ∨
        findById orderId store = none) ∧
      (updateBulkOrderStatus env sendEmail store adminId orderId body).emails = []) ∨
    ∃ status doc updated,
      body.status = some status ∧ status ∈ statuses ∧ findById orderId store = some doc ∧
      findById orderId (updateBulkOrderStatus env sendEmail store adminId orderId body).store =
        some updated ∧
      (updateBulkOrderStatus env sendEmail store adminId orderId body).emails =
        [composeEmail status body updated] ∧
      (composeEmail status body updated).sendTo = doc.email ∧
      (composeEmail status body updated).subject =
        "Bulk Order " ++ status ++ " - " ++ orderId ∧
      (status = "Rejected" → truthyStr body.rejectionReason = true →
        ∃ before after, (composeEmail status body updated).html =
          before ++ ("<p><strong>Reason:</strong> " ++ body.rejectionReason.getD "" ++ "</p>") ++
            after) ∧
      (¬ (status = "Rejected" ∧ truthyStr body.rejectionReason = true) →
        composeEmail status body updated =
          composeEmail status { body with rejectionReason := none } updated) := by
  cases hs : body.status with
  | none =>
    left
    exact ⟨Or.inl (fun status h => by simp at h), by simp [updateBulkOrderStatus, hs]⟩
  | some status =>
    by_cases hv : status ∈ statuses
    · cases hfind : findById orderId store with
      | none =>
        left
        refine ⟨Or.inr rfl, ?_⟩
        by_cases hc : castsToObjectId store orderId = true
        · simp [updateBulkOrderStatus, hs, hv, hc,
            findByIdAndUpdate_missing orderId _ store hfind]
        · simp [updateBulkOrderStatus, hs, hv, hc]
      | some doc =>
        right
        have h := updateBulkOrderStatus_found env sendEmail store adminId orderId body status doc
          hs hv hfind
        have hid : doc.id = orderId := by
          have := List.find?_some hfind
          simpa using this
        refine ⟨status, doc, _, rfl, hv, rfl, h.2.2.1, h.2.2.2, rfl, ?_, ?_, ?_⟩
        · show "Bulk Order " ++ status ++ " - " ++ doc.id = _
          rw [hid]
        · intro hrej htruthy
          subst hrej
          refine ⟨"\n" ++ spaces 16 ++ "<h2>Bulk Order Update</h2>\n" ++
              spaces 16 ++ "<p>Hello " ++ doc.name ++ ",</p>\n" ++
              spaces 16 ++ "<p>Your bulk order request has been <strong>" ++
              toLowerCase "Rejected" ++ "</strong>.</p>\n" ++
              spaces 16 ++ "<p><strong>Order ID:</strong> " ++ doc.id ++ "</p>\n" ++
              spaces 16 ++ "<p><strong>Status:</strong> " ++ "Rejected" ++ "</p>\n" ++ spaces 12 ++
              ("\n" ++ spaces 20 ++
              "<p>We regret to inform you that your bulk order request has been declined.</p>\n" ++
              spaces 20),
            "\n" ++ spaces 16 ++
              ("\n" ++ spaces 16 ++ "<p>Thank you for your interest in our products.</p>\n" ++
              spaces 16 ++ "<p>Best regards,<br>Casual Clothings Team</p>\n" ++ spaces 12), ?_⟩
          have hnotApproved : ("Rejected" == "Approved") = false := by decide
          have hrejected : ("Rejected" == "Rejected") = true := by decide
          simp only [composeEmail, hnotApproved, hrejected, htruthy, if_true, if_false,
            Bool.false_eq_true, String.append_assoc, applyUpdate]
        · intro hnot
          by_cases hrej : status = "Rejected"
          · have hfalsy : truthyStr body.rejectionReason = false := by
              cases htr : truthyStr body.rejectionReason with
              | false => rfl
              | true => exact absurd ⟨hrej, htr⟩ hnot
            have hnone : truthyStr (none : Option String) = false := rfl
            simp [composeEmail, hfalsy, hnone]
          · have hne : (status == "Rejected") = false := by simpa using hrej
            simp [composeEmail, hne]
    · left
      exact ⟨Or.inl (fun status2 h => by
        injection h with h
        subst h
        exact hv), by simp [updateBulkOrderStatus, hs, hv]⟩

/-- The rejection of the approved sample order: one email, to the contact email stored
on the order, with the status and the id in its subject; the update of an id that no
order has, and the update with the status "Shipped", attempt no email. -/
theorem updateBulkOrderStatus_notification_witness :
    (updateBulkOrderStatus sampleEnv mailDelivers approvedStore "u9" sampleEnv.freshId
        sampleRejection).emails.map (fun email => (email.sendTo, email.subject)) =
      [("ann@shop.example", "Bulk Order Rejected - 665f1c2ab3d4e5f601234567")] ∧
    (updateBulkOrderStatus sampleEnv mailDelivers approvedStore "u9" "u1z"
        sampleRejection).emails = [] ∧
    (updateBulkOrderStatus sampleEnv mailDelivers approvedStore "u9" sampleEnv.freshId
        { sampleRejection with status := some "Shipped" }).emails = [] ∧
    ((((∀ status, sampleRejection.status = some status → status ∉ statuses) ∨
          findById sampleEnv.freshId approvedStore = none) ∧
        (updateBulkOrderStatus sampleEnv mailDelivers approvedStore "u9" sampleEnv.freshId
          sampleRejection).emails = []) ∨
      ∃ status doc updated,
        sampleRejection.status = some status ∧ status ∈ statuses ∧
        findById sampleEnv.freshId approvedStore = some doc ∧
        findById sampleEnv.freshId (updateBulkOrderStatus sampleEnv mailDelivers approvedStore
          "u9" sampleEnv.freshId sampleRejection).store = some updated ∧
        (updateBulkOrderStatus sampleEnv mailDelivers approvedStore "u9" sampleEnv.freshId
          sampleRejection).emails = [composeEmail status sampleRejection updated] ∧
        (composeEmail status sampleRejection updated).sendTo = doc.email ∧
        (composeEmail status sampleRejection updated).subject =
          "Bulk Order " ++ status ++ " - " ++ sampleEnv.freshId ∧
        (status = "Rejected" → truthyStr sampleRejection.rejectionReason = true →
          ∃ before after, (composeEmail status sampleRejection updated).html =
            before ++
              ("<p><strong>Reason:</strong> " ++ sampleRejection.rejectionReason.getD "" ++
                "</p>") ++ after) ∧
        (¬ (status = "Rejected" ∧ truthyStr sampleRejection.rejectionReason = true) →
          composeEmail status sampleRejection updated =
            composeEmail status { sampleRejection with rejectionReason := none } updated)) :=
  ⟨by decide, by decide, by decide,
    updateBulkOrderStatus_notification sampleEnv mailDelivers approvedStore "u9"
      sampleEnv.freshId sampleRejection⟩

/-! ## Claim on the status filter of `getAllBulkOrders` -/

/-- C26: with a status query that is one of the three statuses, `getAllBulkOrders`
lists only orders of that status and its total is the number of orders of that status;
with a status query that is absent or any other value, its response is the one of the
same request without a status, over all the orders. -/
theorem getAllBulkOrders_status_filter (store : Store) (query : ListQuery) :
    (∀ status, query.status = some status → status ∈ statuses →
      ordersMatching store query.status = store.filter (fun doc => doc.status == status) ∧
      ∀ orders counts pagination,
        (getAllBulkOrders store query).data = Payload.listing orders counts pagination →
        (∀ doc ∈ orders, doc.status = status ∧ doc ∈ store) ∧
        pagination.total = store.countP (fun doc => doc.status == status)) ∧
    ((∀ status, query.status = some status → status ∉ statuses) →
      ordersMatching store query.status = store ∧
      getAllBulkOrders store query = getAllBulkOrders store { query with status := none }) := by
  constructor
  · intro status hs hv
    have hne : status ≠ "" := by
      intro hempty
      rw [hempty] at hv
      exact absurd hv (by decide)
    have hmatch : ordersMatching store query.status =
        store.filter (fun doc => doc.status == status) := by
      simp [ordersMatching, hs, truthyStr, hne, hv]
    refine ⟨hmatch, ?_⟩
    intro orders counts pagination hlisted
    have h := getAllBulkOrders_listing store query orders counts pagination hlisted
    rw [hmatch] at h
    constructor
    · intro doc hdoc
      have hmem := (findPage_sorted _ _ _ orders h.1).2 doc hdoc
      have hfilter := List.mem_filter.mp hmem
      exact ⟨by simpa using hfilter.2, hfilter.1⟩
    · rw [h.2.1, List.countP_eq_length_filter]
  · intro hother
    have hmatch : ordersMatching store query.status = store := by
      cases hs : query.status with
      | none => simp [ordersMatching, truthyStr]
      | some status =>
        have hv : status ∉ statuses := hother status hs
        simp [ordersMatching, hv]
    have hnone : ordersMatching store none = store := by
      simp [ordersMatching, truthyStr]
    refine ⟨hmatch, ?_⟩
    unfold getAllBulkOrders
    simp only [hmatch, hnone]

/-- The collection of two Requested orders and one Approved order: `?status=Approved`
lists the Approved one with total 1, `?status=Shipped` lists all three as the request
without a status does. -/
theorem getAllBulkOrders_status_filter_witness :
    (listedOrders (getAllBulkOrders mixedStore approvedOnly)).map (fun doc => doc.status) =
      ["Approved"] ∧
    (listedOrders (getAllBulkOrders mixedStore shippedOnly)).length = 3 ∧
    (getAllBulkOrders mixedStore shippedOnly).status = 200 ∧
    getAllBulkOrders mixedStore shippedOnly =
      getAllBulkOrders mixedStore { shippedOnly with status := none } ∧
    ordersMatching mixedStore approvedOnly.status =
      mixedStore.filter (fun doc => doc.status == "Approved") :=
  ⟨by decide, by decide, by decide,
    ((getAllBulkOrders_status_filter mixedStore shippedOnly).2 (fun status hs => by
      injection hs with hs
      subst hs
      decide)).2,
    ((getAllBulkOrders_status_filter mixedStore approvedOnly).1 "Approved" rfl (by decide)).1⟩

/-! ## Claim on the transitions of the status -/

/-- C27: the transitions of the status are not one-way. Every update of an existing
order to one of the three statuses succeeds and stores that status, whatever the status
before; in particular the approved sample order, which is reachable, goes back to
Requested and on to Rejected, and the rejected one goes back to Requested and on to
Approved. -/
theorem status_transitions_not_one_way :
    (∀ (env : Env) (sendEmail : Email → Except String Unit) (store : Store) (adminId : UserId)
        (orderId : OrderId) (body : UpdateBody) (status : String) (doc : BulkOrderDoc),
      findById orderId store = some doc → body.status = some status → status ∈ statuses →
      (updateBulkOrderStatus env sendEmail store adminId orderId body).response.status = 200 ∧
      (updateBulkOrderStatus env sendEmail store adminId orderId body).response.success = true ∧
      (findById orderId
        (updateBulkOrderStatus env sendEmail store adminId orderId body).store).map
        (fun stored => stored.status) = some status) ∧
    Reachable approvedStore ∧
    approvedStore.map (fun doc => doc.status) = ["Approved"] ∧
    Reachable rejectedAfterApproval ∧
    rejectedAfterApproval.map (fun doc => doc.status) = ["Rejected"] ∧
    (updateBulkOrderStatus laterEnv mailDelivers approvedStore "u9" sampleEnv.freshId
      backToRequested).response.status = 200 ∧
    (updateBulkOrderStatus laterEnv mailDelivers approvedStore "u9" sampleEnv.freshId
      backToRequested).store.map (fun doc => doc.status) = ["Requested"] ∧
    (updateBulkOrderStatus laterEnv mailDelivers rejectedAfterApproval "u9" sampleEnv.freshId
      backToRequested).response.status = 200 ∧
    (updateBulkOrderStatus laterEnv mailDelivers rejectedAfterApproval "u9" sampleEnv.freshId
      backToRequested).store.map (fun doc => doc.status) = ["Requested"] ∧
    (updateBulkOrderStatus laterEnv mailDelivers approvedStore "u9" sampleEnv.freshId
      sampleRejection).response.status = 200 ∧
    (updateBulkOrderStatus laterEnv mailDelivers approvedStore "u9" sampleEnv.freshId
      sampleRejection).store.map (fun doc => doc.status) = ["Rejected"] ∧
    (updateBulkOrderStatus laterEnv mailDelivers rejectedAfterApproval "u9" sampleEnv.freshId
      sampleApproval).response.status = 200 ∧
    (updateBulkOrderStatus laterEnv mailDelivers rejectedAfterApproval "u9" sampleEnv.freshId
      sampleApproval).store.map (fun doc => doc.status) = ["Approved"] := by
  refine ⟨?_, approvedStore_reachable, by decide, rejectedAfterApproval_reachable, by decide,
    by decide, by decide, by decide, by decide, by decide, by decide, by decide, by decide⟩
  intro env sendEmail store adminId orderId body status doc hfound hstatus hvalid
  have h := updateBulkOrderStatus_found env sendEmail store adminId orderId body status doc
    hstatus hvalid hfound
  refine ⟨by rw [h.1], by rw [h.1], ?_⟩
  rw [h.2.2.1]
  rfl

/-! ## Claim on the pages of a listing -/

/-- A list cut into `k` windows of `size` elements, enough to hold it, is the
concatenation of the windows. -/
theorem flatten_windows (size : Nat) (k : Nat) (xs : List BulkOrderDoc)
    (hfit : xs.length ≤ k * size) :
    ((List.range k).map (fun i => (xs.drop (i * size)).take size)).flatten = xs := by
  induction k generalizing xs with
  | zero =>
    have hnil : xs = [] := List.length_eq_zero.mp (by omega)
    simp [hnil]
  | succ k ih =>
    have hrest : (xs.drop size).length ≤ k * size := by
      rw [List.length_drop]
      have : (k + 1) * size = k * size + size := Nat.succ_mul k size
      omega
    have hshift : ∀ i, (xs.drop ((i + 1) * size)).take size =
        ((xs.drop size).drop (i * size)).take size := by
      intro i
      rw [List.drop_drop, Nat.succ_mul, Nat.add_comm]
    rw [List.range_succ_eq_map, List.map_cons, List.map_map]
    simp only [List.flatten_cons, Nat.zero_mul, List.drop_zero]
    have hmap : List.map ((fun i => (xs.drop (i * size)).take size) ∘ Nat.succ) (List.range k) =
        List.map (fun i => ((xs.drop size).drop (i * size)).take size) (List.range k) := by
      apply List.map_congr_left
      intro i _
      exact hshift i
    rw [hmap, ih (xs.drop size) hrest]
    exact List.take_append_drop size xs

/-- The window of the sorted matching orders that the cursor returns for the page `p`
and the page size `l`. -/
theorem findPage_window (matching : List BulkOrderDoc) (p l : Int) (hp : 1 ≤ p) (hl : 1 ≤ l) :
    findPage matching ((p - 1) * l) l =
      some (((sortNewestFirst matching).drop ((p - 1).toNat * l.toNat)).take l.toNat) := by
  have hskip : 0 ≤ (p - 1) * l := mul_nonneg (by omega) (by omega)
  have hnat : ((p - 1) * l).toNat = (p - 1).toNat * l.toNat := by
    have h1 : ((p - 1).toNat : Int) = p - 1 := Int.toNat_of_nonneg (by omega)
    have h2 : (l.toNat : Int) = l := Int.toNat_of_nonneg (by omega)
    have h3 : (((p - 1) * l).toNat : Int) = (p - 1) * l := Int.toNat_of_nonneg hskip
    have h4 : (((p - 1).toNat * l.toNat : Nat) : Int) = (p - 1) * l := by
      push_cast
      rw [h1, h2]
    exact_mod_cast h3.trans h4.symm
  have habs : l.natAbs = l.toNat := by omega
  simp [findPage, not_lt.mpr hskip, hnat, habs]

/-- The number of pages is enough for all the matching orders and is at most their
number. -/
theorem ceilDiv_bounds (n : Nat) (l : Int) (hl : 1 ≤ l) :
    n ≤ (ceilDiv n l).toNat * l.toNat ∧ (ceilDiv n l).toNat ≤ n ∧
      ((ceilDiv n l).toNat : Int) = ceilDiv n l := by
  have hl0 : l ≠ 0 := by omega
  have hdiv : ceilDiv n l = -((-(n : Int)) / l) := by
    unfold ceilDiv
    rw [Int.fdiv_eq_ediv _ (by omega)]
  have hle : (-(n : Int)) / l * l ≤ -(n : Int) := Int.ediv_mul_le _ hl0
  have hge : -(n : Int) ≤ (-(n : Int)) / l := by
    apply Int.le_ediv_of_mul_le (by omega)
    nlinarith
  have hnonpos : (-(n : Int)) / l ≤ 0 := by
    by_contra hpos
    have : 1 ≤ (-(n : Int)) / l := by omega
    nlinarith
  have hcast : ((ceilDiv n l).toNat : Int) = ceilDiv n l :=
    Int.toNat_of_nonneg (by rw [hdiv]; omega)
  have hlnat : (l.toNat : Int) = l := Int.toNat_of_nonneg (by omega)
  refine ⟨?_, ?_, hcast⟩
  · have : (n : Int) ≤ ((ceilDiv n l).toNat * l.toNat : Nat) := by
      push_cast
      rw [hcast, hlnat, hdiv]
      nlinarith
    exact_mod_cast this
  · have : ((ceilDiv n l).toNat : Int) ≤ n := by
      rw [hcast, hdiv]
      omega
    exact_mod_cast this

/-- The orders that a listing returns for the page `p` and the page size `l`. -/
theorem listedOrders_page (store : Store) (userId : UserId) (query : ListQuery) (p l : Int)
    (hpage : parseInt query.page = some p) (hp : 1 ≤ p)
    (hlimit : parseInt query.limit = some l) (hl : 1 ≤ l) :
    listedOrders (getUserBulkOrders store userId query) =
      ((sortNewestFirst (ordersOfUser store userId)).drop ((p - 1).toNat * l.toNat)).take
        l.toNat ∧
    listedOrders (getAllBulkOrders store query) =
      ((sortNewestFirst (ordersMatching store query.status)).drop
        ((p - 1).toNat * l.toNat)).take l.toNat := by
  have hp0 : p ≠ 0 := by omega
  have hl0 : l ≠ 0 := by omega
  constructor
  · simp [listedOrders, getUserBulkOrders, hpage, hlimit, orDefault, hp0, hl0,
      findPage_window _ p l hp hl]
  · simp [listedOrders, getAllBulkOrders, hpage, hlimit, orDefault, hp0, hl0,
      findPage_window _ p l hp hl]

/-- The sort of two permutations of the same documents gives the same list when no two
of the documents have the same `submittedAt`. -/
theorem sortNewestFirst_perm (a b : List BulkOrderDoc) (hperm : a.Perm b)
    (hdistinct : (b.map (fun doc => doc.submittedAt)).Nodup) :
    sortNewestFirst a = sortNewestFirst b := by
  haveI : IsTotal BulkOrderDoc (fun a b => b.submittedAt ≤ a.submittedAt) :=
    ⟨fun a b => Nat.le_total _ _⟩
  haveI : IsTrans BulkOrderDoc (fun a b => b.submittedAt ≤ a.submittedAt) :=
    ⟨fun a b c hab hbc => Nat.le_trans hbc hab⟩
  haveI : IsAntisymm BulkOrderDoc (fun a b => b.submittedAt < a.submittedAt) :=
    ⟨fun a b hab hba => absurd hab (Nat.lt_asymm hba)⟩
  have strict : ∀ l : List BulkOrderDoc, l.Perm b →
      (sortNewestFirst l).Pairwise (fun a b => b.submittedAt < a.submittedAt) := by
    intro l hl
    have hsorted : (sortNewestFirst l).Pairwise (fun a b => b.submittedAt ≤ a.submittedAt) :=
      List.sorted_insertionSort (fun a b : BulkOrderDoc => b.submittedAt ≤ a.submittedAt) l
    have hp : (sortNewestFirst l).Perm b := (List.perm_insertionSort _ l).trans hl
    have hnodup : ((sortNewestFirst l).map (fun doc => doc.submittedAt)).Nodup :=
      (hp.map _).nodup_iff.mpr hdistinct
    have hne : (sortNewestFirst l).Pairwise (fun a b => a.submittedAt ≠ b.submittedAt) :=
      List.pairwise_map.mp hnodup
    exact (hsorted.and hne).imp (fun h => Nat.lt_of_le_of_ne h.1 (Ne.symm h.2))
  have hp : (sortNewestFirst a).Perm (sortNewestFirst b) :=
    ((List.perm_insertionSort _ a).trans hperm).trans (List.perm_insertionSort _ b).symm
  exact List.eq_of_perm_of_sorted hp (strict a hperm) (strict b (List.Perm.refl b))

/-- The documents that match the filter of `getAllBulkOrders` are the same, up to their
order, in two permutations of the collection. -/
theorem ordersMatching_perm (a b : Store) (status : Option String) (hperm : a.Perm b) :
    (ordersMatching a status).Perm (ordersMatching b status) := by
  unfold ordersMatching
  split_ifs
  · exact hperm.filter _
  · exact hperm

/-- C28, as stated, fails: two orders submitted in the same millisecond form a reachable
collection in which the sort on `submittedAt` alone leaves their order to the query.
With one order per page, the query of page 1 meets the two orders in one order and the
query of page 2 meets them in the other: both pages return the same order and the
second order is on none of the two pages, for `getAllBulkOrders` and for
`getUserBulkOrders`. -/
theorem listing_pages_cover_counterexample :
    Reachable twinStore ∧ twinStore.reverse.Perm twinStore ∧
    twinStore.map (fun doc => (doc.id, doc.submittedAt)) =
      [("665f1c2ab3d4e5f601234567", 1700000000000),
       ("665f1c2ab3d4e5f601234569", 1700000000000)] ∧
    (ceilDiv (ordersMatching twinStore none).length 1).toNat = 2 ∧
    (listedOrders (getAllBulkOrders twinStore (pageOfOne "1"))).map (fun doc => doc.id) =
      ["665f1c2ab3d4e5f601234567"] ∧
    (listedOrders (getAllBulkOrders twinStore.reverse (pageOfOne "2"))).map
      (fun doc => doc.id) = ["665f1c2ab3d4e5f601234567"] ∧
    (listedOrders (getUserBulkOrders twinStore "u1" (pageOfOne "1"))).map (fun doc => doc.id) =
      ["665f1c2ab3d4e5f601234567"] ∧
    (listedOrders (getUserBulkOrders twinStore.reverse "u1" (pageOfOne "2"))).map
      (fun doc => doc.id) = ["665f1c2ab3d4e5f601234567"] :=
  ⟨Reachable.create sameInstantEnv sampleCatalog createdStore "u1" sampleBody (by decide)
      createdStore_reachable,
    List.reverse_perm twinStore, by decide, by decide, by decide, by decide, by decide,
    by decide⟩

/-- C28, amended: let every page be answered by a query of its own, which meets the
orders of the unchanged collection in an order of its own (`scan i` for page `i + 1`).
For a page size `l ≥ 1`, when no two matching orders have the same `submittedAt`, the
pages 1 to `pages = ⌈total / l⌉` of a listing, concatenated in order, are the matching
orders sorted newest first, which are the matching orders in another order, so that
every matching order is on exactly one page; a page number greater than `pages` gives
an empty list, whatever the `submittedAt`. The same holds of `getUserBulkOrders` and of
`getAllBulkOrders`. -/
theorem listing_pages_cover (store : Store) (scan : Nat → Store) (userId : UserId)
    (status limitParam : Option String)
    (pageParam : Nat → Option String) (l : Int) (hl : 1 ≤ l)
    (hlimit : parseInt limitParam = some l)
    (hpages : ∀ p : Nat, 1 ≤ p → p ≤ store.length → parseInt (pageParam p) = some (p : Int))
    (hscan : ∀ i, (scan i).Perm store) :
    ((((ordersOfUser store userId).map (fun doc => doc.submittedAt)).Nodup →
        ((List.range (ceilDiv (ordersOfUser store userId).length l).toNat).map
          (fun i => listedOrders (getUserBulkOrders (scan i) userId
            { page := pageParam (i + 1), limit := limitParam, status := status }))).flatten =
          sortNewestFirst (ordersOfUser store userId)) ∧
      (sortNewestFirst (ordersOfUser store userId)).Perm (ordersOfUser store userId) ∧
      ∀ (rescan : Store) (pageRaw : Option String) (p : Int), rescan.Perm store →
        parseInt pageRaw = some p →
        ((ceilDiv (ordersOfUser store userId).length l).toNat : Int) < p →
        listedOrders (getUserBulkOrders rescan userId
          { page := pageRaw, limit := limitParam, status := status }) = []) ∧
    ((((ordersMatching store status).map (fun doc => doc.submittedAt)).Nodup →
        ((List.range (ceilDiv (ordersMatching store status).length l).toNat).map
          (fun i => listedOrders (getAllBulkOrders (scan i)
            { page := pageParam (i + 1), limit := limitParam, status := status }))).flatten =
          sortNewestFirst (ordersMatching store status)) ∧
      (sortNewestFirst (ordersMatching store status)).Perm (ordersMatching store status) ∧
      ∀ (rescan : Store) (pageRaw : Option String) (p : Int), rescan.Perm store →
        parseInt pageRaw = some p →
        ((ceilDiv (ordersMatching store status).length l).toNat : Int) < p →
        listedOrders (getAllBulkOrders rescan
          { page := pageRaw, limit := limitParam, status := status }) = []) := by
  have hsub1 : (ordersOfUser store userId).length ≤ store.length :=
    List.length_filter_le _ _
  have hsub2 : (ordersMatching store status).length ≤ store.length := by
    unfold ordersMatching
    split_ifs
    · exact List.length_filter_le _ _
    · exact Nat.le_refl _
  have key : ∀ (select : Store → List BulkOrderDoc)
      (listing : Store → ListQuery → List BulkOrderDoc),
      (select store).length ≤ store.length →
      (∀ rescan : Store, rescan.Perm store → (select rescan).Perm (select store)) →
      (∀ (rescan : Store) (query : ListQuery) (p : Int), query.limit = limitParam →
        parseInt query.page = some p → 1 ≤ p →
        listing rescan query =
          ((sortNewestFirst (select rescan)).drop ((p - 1).toNat * l.toNat)).take l.toNat) →
      ((((select store).map (fun doc => doc.submittedAt)).Nodup →
          ((List.range (ceilDiv (select store).length l).toNat).map
            (fun i => listing (scan i)
              { page := pageParam (i + 1), limit := limitParam, status := status })).flatten
            = sortNewestFirst (select store)) ∧
        (sortNewestFirst (select store)).Perm (select store) ∧
        ∀ (rescan : Store) (pageRaw : Option String) (p : Int), rescan.Perm store →
          parseInt pageRaw = some p →
          ((ceilDiv (select store).length l).toNat : Int) < p →
          listing rescan { page := pageRaw, limit := limitParam, status := status } = []) := by
    intro select listing hsub hselect hwindow
    have hb := ceilDiv_bounds (select store).length l hl
    have hlen : ∀ rescan : Store, rescan.Perm store →
        (sortNewestFirst (select rescan)).length = (select store).length := by
      intro rescan hperm
      rw [sortNewestFirst, List.length_insertionSort]
      exact (hselect rescan hperm).length_eq
    refine ⟨?_, List.perm_insertionSort _ _, ?_⟩
    · intro hdistinct
      have hmap : (List.range (ceilDiv (select store).length l).toNat).map
            (fun i => listing (scan i)
              { page := pageParam (i + 1), limit := limitParam, status := status }) =
          (List.range (ceilDiv (select store).length l).toNat).map
            (fun i => ((sortNewestFirst (select store)).drop (i * l.toNat)).take l.toNat) := by
        apply List.map_congr_left
        intro i hi
        have hi2 : i < (ceilDiv (select store).length l).toNat := List.mem_range.mp hi
        have hparse := hpages (i + 1) (by omega) (by omega)
        have hw := hwindow (scan i)
          { page := pageParam (i + 1), limit := limitParam, status := status }
          ((i + 1 : Nat) : Int) rfl hparse (by omega)
        have hnat : ((((i + 1 : Nat) : Int)) - 1).toNat = i := by omega
        rw [hnat, sortNewestFirst_perm (select (scan i)) (select store)
          (hselect (scan i) (hscan i)) hdistinct] at hw
        exact hw
      rw [hmap]
      exact flatten_windows l.toNat _ _ (by rw [hlen store (List.Perm.refl store)]; exact hb.1)
    · intro rescan pageRaw p hperm hparse hbeyond
      have hp : 1 ≤ p := by omega
      rw [hwindow rescan { page := pageRaw, limit := limitParam, status := status } p rfl
        hparse hp]
      have hpages2 : (ceilDiv (select store).length l).toNat ≤ (p - 1).toNat := by omega
      have hdrop : (sortNewestFirst (select rescan)).length ≤ (p - 1).toNat * l.toNat := by
        rw [hlen rescan hperm]
        exact le_trans hb.1 (Nat.mul_le_mul_right _ hpages2)
      rw [List.drop_of_length_le hdrop]
      exact List.take_nil
  constructor
  · apply key (fun rescan => ordersOfUser rescan userId)
      (fun rescan query => listedOrders (getUserBulkOrders rescan userId query)) hsub1
    · intro rescan hperm
      exact hperm.filter _
    · intro rescan query p hq hparse hp
      exact (listedOrders_page rescan userId query p l hparse hp
        (by rw [hq]; exact hlimit) hl).1
  · have h := key (fun rescan => ordersMatching rescan status)
      (fun rescan query => listedOrders (getAllBulkOrders rescan { query with status := status }))
      hsub2 (fun rescan hperm => ordersMatching_perm rescan store status hperm)
      (by
        intro rescan query p hq hparse hp
        exact (listedOrders_page rescan userId { query with status := status } p l hparse hp
          (by show parseInt query.limit = some l; rw [hq]; exact hlimit) hl).2)
    exact h

/-- The collection of three orders with three different `submittedAt`, two of them of
`u1`, in pages of two, the second page answered by a query that meets the orders in the
reverse order: the one page of `u1` and the two pages of all orders give every matching
order once, newest first, and the third page of all orders is empty. -/
theorem listing_pages_cover_witness :
    parseInt (some "2") = some 2 ∧
    ((ordersMatching staggeredStore none).map (fun doc => doc.submittedAt)).Nodup ∧
    (listedOrders (getAllBulkOrders staggeredStore
      { page := pageNumber 1, limit := some "2", status := none })).map (fun doc => doc.id) =
      ["u2c", "u1b"] ∧
    (listedOrders (getAllBulkOrders staggeredStore.reverse
      { page := pageNumber 2, limit := some "2", status := none })).map (fun doc => doc.id) =
      ["u1a"] ∧
    listedOrders (getAllBulkOrders staggeredStore.reverse
      { page := pageNumber 3, limit := some "2", status := none }) = [] ∧
    (ceilDiv (ordersMatching staggeredStore none).length 2).toNat = 2 ∧
    ((List.range (ceilDiv (ordersMatching staggeredStore none).length 2).toNat).map
      (fun i => listedOrders (getAllBulkOrders (if i = 0 then staggeredStore else staggeredStore.reverse)
        { page := pageNumber (i + 1), limit := some "2", status := none }))).flatten =
      sortNewestFirst (ordersMatching staggeredStore none) ∧
    ((List.range (ceilDiv (ordersOfUser staggeredStore "u1").length 2).toNat).map
      (fun i => listedOrders (getUserBulkOrders
        (if i = 0 then staggeredStore else staggeredStore.reverse) "u1"
        { page := pageNumber (i + 1), limit := some "2", status := none }))).flatten =
      sortNewestFirst (ordersOfUser staggeredStore "u1") := by
  have hpages : ∀ p : Nat, 1 ≤ p → p ≤ staggeredStore.length →
      parseInt (pageNumber p) = some (p : Int) := by
    intro p h1 h2
    have hlen : staggeredStore.length = 3 := rfl
    rw [hlen] at h2
    interval_cases p <;> decide
  have hscan : ∀ i : Nat, (if i = 0 then staggeredStore else staggeredStore.reverse).Perm staggeredStore := by
    intro i
    split_ifs
    · exact List.Perm.refl _
    · exact List.reverse_perm _
  have h := listing_pages_cover staggeredStore
    (fun i => if i = 0 then staggeredStore else staggeredStore.reverse) "u1" none (some "2") pageNumber 2
    (by decide) (by decide) hpages hscan
  exact ⟨by decide, by decide, by decide, by decide, by decide, by decide,
    h.2.1 (by decide), h.1.1 (by decide)⟩

/-! ## Claim on the deletion of an existing order -/

/-- When a document has the id, `findByIdAndDelete` returns it and removes it from its
place, leaving the documents before and after it. -/
theorem findByIdAndDelete_found (id : OrderId) (store : Store) (doc : BulkOrderDoc)
    (h : findById id store = some doc) :
    ∃ before after, store = before ++ doc :: after ∧ (∀ d ∈ before, d.id ≠ id) ∧
      doc.id = id ∧ findByIdAndDelete id store = (some doc, before ++ after) := by
  induction store with
  | nil => simp [findById] at h
  | cons first rest ih =>
    by_cases hid : (first.id == id) = true
    · have hsame : first = doc := by
        simpa [findById, List.find?_cons, hid] using h
      subst hsame
      exact ⟨[], rest, rfl, by simp, by simpa using hid, by simp [findByIdAndDelete, hid]⟩
    · simp only [Bool.not_eq_true] at hid
      have hrest : findById id rest = some doc := by
        simpa [findById, List.find?_cons, hid] using h
      obtain ⟨before, after, hsplit, hbefore, hdoc, hdel⟩ := ih hrest
      refine ⟨first :: before, after, by rw [hsplit]; rfl, ?_, hdoc, ?_⟩
      · intro d hd
        rcases List.mem_cons.mp hd with rfl | hd
        · simpa using hid
        · exact hbefore d hd
      · simp [findByIdAndDelete, hid, hdel]

/-- The write of `findByIdAndUpdate` keeps the ids of the collection, in order, when
the update keeps the id of a document. -/
theorem findByIdAndUpdate_ids (id : OrderId) (f : BulkOrderDoc → BulkOrderDoc)
    (hf : ∀ doc, (f doc).id = doc.id) (store : Store) :
    (findByIdAndUpdate id f store).2.map (fun doc => doc.id) = store.map (fun doc => doc.id) := by
  induction store with
  | nil => rfl
  | cons first rest ih =>
    by_cases hid : (first.id == id) = true
    · simp [findByIdAndUpdate, hid, hf first]
    · simp only [Bool.not_eq_true] at hid
      simp [findByIdAndUpdate, hid, ih]

/-- The collection after `findByIdAndDelete` is a sublist of the collection before. -/
theorem findByIdAndDelete_sublist (id : OrderId) (store : Store) :
    (findByIdAndDelete id store).2.Sublist store := by
  induction store with
  | nil => exact List.Sublist.refl _
  | cons first rest ih =>
    by_cases hid : (first.id == id) = true
    · simp only [findByIdAndDelete, hid, if_true]
      exact List.sublist_cons_self first rest
    · simp only [Bool.not_eq_true] at hid
      simp only [findByIdAndDelete, hid, Bool.false_eq_true, if_false]
      exact ih.cons₂ first

/-- In every reachable collection no two orders have the same id. -/
theorem reachable_unique_ids (store : Store) (hreach : Reachable store) :
    (store.map (fun doc => doc.id)).Nodup := by
  induction hreach with
  | empty => exact List.nodup_nil
  | create env catalog store userId body hfresh _ ih =>
    rcases createBulkOrder_cases env catalog store userId body with hfail | hok
    · rw [hfail.1]
      exact ih
    · obtain ⟨items, products, _, _, _, _, _, _, _, hstore⟩ := hok
      rw [hstore, List.map_append, List.nodup_append]
      refine ⟨ih, List.nodup_singleton _, ?_⟩
      intro a ha hb
      simp only [List.map_cons, List.map_nil, List.mem_singleton] at hb
      obtain ⟨doc, hdoc, hdocid⟩ := List.mem_map.mp ha
      have hnot := List.find?_eq_none.mp hfresh doc hdoc
      have hfreshid : (preSave (newBulkOrder env userId (body.name.getD "") (body.phone.getD "")
          (body.email.getD "") (body.buyerType.getD "") (body.address.getD "") products)).id =
          env.freshId := by
        unfold preSave
        split_ifs <;> rfl
      rw [hfreshid] at hb
      apply hnot
      simp only [beq_iff_eq]
      rw [hdocid, hb]
  | update env sendEmail store adminId orderId body _ ih =>
    rcases updateBulkOrderStatus_store env sendEmail store adminId orderId body with h | h
    · rw [h]
      exact ih
    · obtain ⟨status, _, _, hstore⟩ := h
      rw [hstore, findByIdAndUpdate_ids orderId _ (applyUpdate_id env _) store]
      exact ih
  | delete store orderId _ ih =>
    have hsub : (deleteBulkOrder store orderId).2.Sublist store := by
      unfold deleteBulkOrder
      split_ifs with hc
      · exact List.Sublist.refl _
      · split
        · exact List.Sublist.refl _
        · rename_i found remaining hdel
          have hrem : remaining = (findByIdAndDelete orderId store).2 := by rw [hdel]
          rw [hrem]
          exact findByIdAndDelete_sublist orderId store
    exact ih.sublist (hsub.map _)

/-- C29: for an id that a stored order has, in a collection where ids are unique as
they are in every reachable collection, `deleteBulkOrder` answers with success and
removes that order from its place: no order with the id remains, every other order is
still stored, unchanged and in the same order, and there is one order less. -/
theorem deleteBulkOrder_existing (store : Store) (orderId : OrderId) (doc : BulkOrderDoc)
    (hunique : (store.map (fun stored => stored.id)).Nodup)
    (hfound : findById orderId store = some doc) :
    (deleteBulkOrder store orderId).1 =
      { status := 200, message := "Bulk order deleted successfully", data := Payload.none,
        error := false, success := true } ∧
    (∃ before after, store = before ++ doc :: after ∧
      (deleteBulkOrder store orderId).2 = before ++ after) ∧
    findById orderId (deleteBulkOrder store orderId).2 = none ∧
    (∀ stored ∈ (deleteBulkOrder store orderId).2, stored.id ≠ orderId ∧ stored ∈ store) ∧
    (∀ stored ∈ store, stored.id ≠ orderId → stored ∈ (deleteBulkOrder store orderId).2) ∧
    (deleteBulkOrder store orderId).2.length + 1 = store.length := by
  obtain ⟨before, after, hsplit, hbefore, hdoc, hdel⟩ :=
    findByIdAndDelete_found orderId store doc hfound
  have hcast := castsToObjectId_found orderId store doc hfound
  have hresult : (deleteBulkOrder store orderId).2 = before ++ after := by
    simp [deleteBulkOrder, hcast, hdel]
  have hafter : ∀ d ∈ after, d.id ≠ orderId := by
    intro d hd hdid
    rw [hsplit, List.map_append, List.map_cons, List.nodup_append] at hunique
    have hcons := List.nodup_cons.mp hunique.2.1
    apply hcons.1
    rw [hdoc, ← hdid]
    exact List.mem_map_of_mem _ hd
  have hrest : ∀ d ∈ before ++ after, d.id ≠ orderId := by
    intro d hd
    rcases List.mem_append.mp hd with h | h
    · exact hbefore d h
    · exact hafter d h
  refine ⟨by simp [deleteBulkOrder, hcast, hdel], ⟨before, after, hsplit, hresult⟩, ?_, ?_, ?_, ?_⟩
  · rw [hresult]
    apply List.find?_eq_none.mpr
    intro d hd
    simpa using hrest d hd
  · rw [hresult]
    intro d hd
    refine ⟨hrest d hd, ?_⟩
    rw [hsplit]
    rcases List.mem_append.mp hd with h | h
    · exact List.mem_append_left _ h
    · exact List.mem_append_right _ (List.mem_cons_of_mem _ h)
  · rw [hresult, hsplit]
    intro d hd hne
    rcases List.mem_append.mp hd with h | h
    · exact List.mem_append_left _ h
    · rcases List.mem_cons.mp h with h | h
      · exact absurd (h ▸ hdoc) hne
      · exact List.mem_append_right _ h
  · rw [hresult, hsplit]
    simp only [List.length_append, List.length_cons]
    omega

/-- The deletion of the second of three stored orders. -/
theorem deleteBulkOrder_existing_witness :
    (mixedStore.map (fun stored => stored.id)).Nodup ∧
    (deleteBulkOrder mixedStore "u1b").2.map (fun stored => stored.id) = ["u1a", "u2a"] ∧
    (deleteBulkOrder mixedStore "u1b").1.status = 200 ∧
    findById "u1b" (deleteBulkOrder mixedStore "u1b").2 = none ∧
    (deleteBulkOrder mixedStore "u1b").2.length + 1 = mixedStore.length :=
  have h := deleteBulkOrder_existing mixedStore "u1b"
    { sampleOrder "u1" 1 with status := "Approved" } (by decide) (by decide)
  ⟨by decide, by decide, by decide, h.2.2.1, h.2.2.2.2.2⟩

end BulkOrder
